import Mathlib

/-!
# Verification of the `reno` container runtime against its specification

This file gives a shallow embedding, in Lean 4, of the parts of the `reno`
OCI container runtime that the specification claims talk about, and proves
or refutes each claim.

The embedding follows the Rust sources of the repository:
* `src/state.rs` — container state record and the `/proc`-based `refresh`;
* `src/process.rs` — `clone_child` and its namespace-to-clone-flag mapping;
* `src/mount.rs` — `mount_rootfs`, `pivot_rootfs`, the mount-option table;
* `src/device.rs` — default devices, config devices and default symlinks;
* `src/container.rs` — `fork_container`, the in-child pipeline;
* `src/cli.rs` — the `state`, `start` and `delete` verbs.

Kernel interactions (syscalls, the filesystem, `/proc`) are modelled by an
explicit environment: the child pipeline is a function from the bundle
configuration and an environment (which decides the outcome of every
fallible step) to the trace of operations the child performs, together
with how the child run terminates.  Proving a claim about ordering or
error reporting is then proving a statement about these traces.
-/

namespace Reno

/-! ## Namespaces and clone flags (`src/process.rs`) -/

/-! ## Mount option translation (`src/mount.rs`, `options_to_mount_flags`) -/

/-- Lifecycle status, from `src/state.rs` (`enum Status`). -/
inductive Status where
  | creating
  | created
  | running
  | stopped
deriving DecidableEq, Repr

/-- Process states read from `/proc/<pid>/stat`, from the `procfs` crate's
`ProcState` enum (`R`, `S`, `D`, `Z`, `T`, `t`, `X`, `K`, `W`, `P`, `I`). -/
inductive ProcState where
  | running
  | sleeping
  | waiting
  | zombie
  | stopped
  | tracing
  | dead
  | wakekill
  | waking
  | parked
  | idle
deriving DecidableEq, Repr

/-- Container state record, from `src/state.rs` (`struct State`).
`annotations` is omitted: no claim mentions it and it never influences
control flow.  `bundle` is a path, modelled as a string. -/
structure State where
  ociVersion : String
  id : String
  bundle : String
  status : Status
  pid : Int
deriving DecidableEq, Repr

/-- `State::new` from `src/state.rs`: initial state with `status = Creating`
and `pid = -1`. -/
def State.new (id : String) (bundle : String) : State :=
  { ociVersion := "1.0.2", id := id, bundle := bundle
    status := Status.creating, pid := -1 }

/-- `State::refresh` from `src/state.rs`.  The call to `inspect_process`
(which reads `/proc/<pid>/stat`) is modelled by the `probe` argument:
`none` when `inspect_process` returns an error, `some ps` when it returns
the process state `ps`.  The body mirrors the source: an early return when
`pid == -1`, then a match on the process state with `R`/`S`/`D` mapping to
`Running`, `t`/`T`/`Z`/`X` mapping to `Stopped`, every other state leaving
the status unchanged, and an unreadable `/proc` entry mapping to
`Stopped`. -/
def State.refresh (s : State) (probe : Option ProcState) : State :=
  if s.pid = -1 then
    s
  else
    match probe with
    | some ps =>
      match ps with
      | ProcState.running | ProcState.sleeping | ProcState.waiting =>
        { s with status := Status.running }
      | ProcState.tracing | ProcState.stopped | ProcState.zombie
      | ProcState.dead =>
        { s with status := Status.stopped }
      | _ => s
    | none => { s with status := Status.stopped }

/-- The status printed by the `state` CLI verb (`src/cli.rs`, `state`):
the verb loads the state, calls `refresh`, prints the refreshed state and
persists it.  The printed (and persisted) status is therefore the status
after `refresh`. -/
def stateVerbStatus (s : State) (probe : Option ProcState) : Status :=
  (s.refresh probe).status

/-- Namespace kinds, from `oci_spec::runtime::LinuxNamespaceType` as matched
in `src/process.rs`. -/
inductive NamespaceType where
  | mount
  | cgroup
  | uts
  | ipc
  | user
  | pid
  | network
deriving DecidableEq, Repr

/-- A `linux.namespaces` entry (`oci_spec::runtime::LinuxNamespace`): a kind
and an optional path of a pre-existing namespace to join. -/
structure LinuxNamespace where
  typ : NamespaceType
  path : Option String
deriving DecidableEq, Repr

/-- `namespace_to_clone_flag` from `src/process.rs`, with the numeric values
of the kernel `CLONE_NEW*` constants used by `nix::sched::CloneFlags`. -/
def namespace_to_clone_flag (ns : LinuxNamespace) : Nat :=
  match ns.typ with
  | NamespaceType.mount => 0x00020000
  | NamespaceType.cgroup => 0x02000000
  | NamespaceType.uts => 0x04000000
  | NamespaceType.ipc => 0x08000000
  | NamespaceType.user => 0x10000000
  | NamespaceType.pid => 0x20000000
  | NamespaceType.network => 0x40000000

/-- The clone flag of a namespace kind (same constants, indexed by the kind
alone, for stating the claims). -/
def cloneFlagOfType (k : NamespaceType) : Nat :=
  namespace_to_clone_flag { typ := k, path := none }

/-- The flag word `clone_child` in `src/process.rs` passes to `clone`:
`namespaces.iter().map(namespace_to_clone_flag).reduce(|a, b| a | b)
.unwrap_or(CloneFlags::empty())`.  Note the source maps over *every*
entry of the namespace list; there is no filter on the `path` field. -/
def clone_flags (namespaces : List LinuxNamespace) : Nat :=
  match namespaces.map namespace_to_clone_flag with
  | [] => 0
  | f :: fs => fs.foldl (fun a b => a ||| b) f

/-- The property claim C2 asserts of the flag word (stated from the claim's
words): a kind's flag is contained in the word iff some entry of that kind
has an empty `path`. -/
def claimC2Property (namespaces : List LinuxNamespace) : Prop :=
  ∀ k : NamespaceType,
    clone_flags namespaces &&& cloneFlagOfType k = cloneFlagOfType k ↔
      ∃ ns ∈ namespaces, ns.typ = k ∧ ns.path = none

/-- Helper: each namespace kind's clone flag is the single bit given by
`cloneFlagBit`. -/
def cloneFlagBit (k : NamespaceType) : Nat :=
  match k with
  | NamespaceType.mount => 17
  | NamespaceType.cgroup => 25
  | NamespaceType.uts => 26
  | NamespaceType.ipc => 27
  | NamespaceType.user => 28
  | NamespaceType.pid => 29
  | NamespaceType.network => 30

/-- Kernel mount flag constants, as used by `nix::mount::MsFlags`. -/
def MS_RDONLY : Nat := 1
def MS_NOSUID : Nat := 2
def MS_NODEV : Nat := 4
def MS_NOEXEC : Nat := 8
def MS_SYNCHRONOUS : Nat := 16
def MS_REMOUNT : Nat := 32
def MS_MANDLOCK : Nat := 64
def MS_DIRSYNC : Nat := 128
def MS_NOATIME : Nat := 1024
def MS_NODIRATIME : Nat := 2048
def MS_BIND : Nat := 4096
def MS_REC : Nat := 16384
def MS_UNBINDABLE : Nat := 131072
def MS_PRIVATE : Nat := 262144
def MS_SLAVE : Nat := 524288
def MS_SHARED : Nat := 1048576
def MS_RELATIME : Nat := 2097152
def MS_STRICTATIME : Nat := 16777216

/-- All-ones mask of the 64-bit flag word (`MsFlags` wraps a `c_ulong`). -/
def mask64 : Nat := 2 ^ 64 - 1

/-- `mount_flags &= !flag` from `src/mount.rs`: `!` complements the flag
within the 64-bit word and `&` intersects, which clears exactly the bits of
`flag`.  (The `bitflags` complement additionally masks to the defined
`MsFlags` bits; intersecting with `w` gives the same result, since `w` is
itself built from defined flag bits.) -/
def clearFlag (w f : Nat) : Nat := w &&& (mask64 ^^^ f)

/-- The option translation table from `options_to_mount_flags` in
`src/mount.rs`: each recognised option maps to `(is_clear, flag)`;
unrecognised options map to `none`. -/
def optionTable (opt : String) : Option (Bool × Nat) :=
  match opt with
  | "defaults" => some (false, 0)
  | "ro" => some (false, MS_RDONLY)
  | "rw" => some (true, MS_RDONLY)
  | "suid" => some (true, MS_NOSUID)
  | "nosuid" => some (false, MS_NOSUID)
  | "dev" => some (true, MS_NODEV)
  | "nodev" => some (false, MS_NODEV)
  | "exec" => some (true, MS_NOEXEC)
  | "noexec" => some (false, MS_NOEXEC)
  | "sync" => some (false, MS_SYNCHRONOUS)
  | "async" => some (true, MS_SYNCHRONOUS)
  | "dirsync" => some (false, MS_DIRSYNC)
  | "remount" => some (false, MS_REMOUNT)
  | "mand" => some (false, MS_MANDLOCK)
  | "nomand" => some (true, MS_MANDLOCK)
  | "atime" => some (true, MS_NOATIME)
  | "noatime" => some (false, MS_NOATIME)
  | "diratime" => some (true, MS_NODIRATIME)
  | "nodiratime" => some (false, MS_NODIRATIME)
  | "bind" => some (false, MS_BIND)
  | "rbind" => some (false, MS_BIND ||| MS_REC)
  | "unbindable" => some (false, MS_UNBINDABLE)
  | "runbindable" => some (false, MS_UNBINDABLE ||| MS_REC)
  | "private" => some (true, MS_PRIVATE)
  | "rprivate" => some (true, MS_PRIVATE ||| MS_REC)
  | "shared" => some (true, MS_SHARED)
  | "rshared" => some (true, MS_SHARED ||| MS_REC)
  | "slave" => some (true, MS_SLAVE)
  | "rslave" => some (true, MS_SLAVE ||| MS_REC)
  | "relatime" => some (true, MS_RELATIME)
  | "norelatime" => some (true, MS_RELATIME)
  | "strictatime" => some (true, MS_STRICTATIME)
  | "nostrictatime" => some (true, MS_STRICTATIME)
  | _ => none

/-- One iteration of the option loop in `options_to_mount_flags`: a
recognised option sets or clears its flag; an unrecognised option is pushed
onto the data list. -/
def applyMountOption (acc : Nat × List String) (opt : String) :
    Nat × List String :=
  match optionTable opt with
  | some (true, flag) => (clearFlag acc.1 flag, acc.2)
  | some (false, flag) => (acc.1 ||| flag, acc.2)
  | none => (acc.1, acc.2 ++ [opt])

/-- The whole option loop, starting from the empty flag word and empty data
list. -/
def mountFlagsFold (options : List String) : Nat × List String :=
  options.foldl applyMountOption (0, [])

/-- `options_to_mount_flags` from `src/mount.rs`: the `(MsFlags, data)`
pair, with the data entries joined by commas (`mount_data.join(",")`). -/
def options_to_mount_flags (options : Option (List String)) : Nat × String :=
  match options with
  | some l => ((mountFlagsFold l).1, String.intercalate "," (mountFlagsFold l).2)
  | none => (0, "")

/-- The recognised option strings, in the order of the source match. -/
def recognisedMountOptions : List String :=
  ["defaults", "ro", "rw", "suid", "nosuid", "dev", "nodev", "exec",
   "noexec", "sync", "async", "dirsync", "remount", "mand", "nomand",
   "atime", "noatime", "diratime", "nodiratime", "bind", "rbind",
   "unbindable", "runbindable", "private", "rprivate", "shared", "rshared",
   "slave", "rslave", "relatime", "norelatime", "strictatime",
   "nostrictatime"]

/-- The set-then-clear pairs of the table (setting option, clearing
counterpart, flag): `ro`/`rw`, `nosuid`/`suid`, `nodev`/`dev`,
`noexec`/`exec`, `sync`/`async`, `mand`/`nomand`, `noatime`/`atime`,
`nodiratime`/`diratime`. -/
def setClearPairs : List (String × String × Nat) :=
  [("ro", "rw", MS_RDONLY), ("nosuid", "suid", MS_NOSUID),
   ("nodev", "dev", MS_NODEV), ("noexec", "exec", MS_NOEXEC),
   ("sync", "async", MS_SYNCHRONOUS), ("mand", "nomand", MS_MANDLOCK),
   ("noatime", "atime", MS_NOATIME),
   ("nodiratime", "diratime", MS_NODIRATIME)]

/-! ## Bundle configuration (the `oci_spec` types used by the runtime) -/

/-- `RuntimeError` from `src/error.rs`: a message string; its `Display`
implementation prints the message. -/
structure RuntimeError where
  message : String
deriving DecidableEq, Repr

/-- `SocketMessage` from `src/socket.rs`: a status and an optional error. -/
structure SocketMessage where
  status : Status
  error : Option RuntimeError
deriving DecidableEq, Repr

/-- `oci_spec::runtime::LinuxDeviceType` (`C`, `B`, `U`, `P`, `A`). -/
inductive DeviceType where
  | c
  | b
  | u
  | p
  | a
deriving DecidableEq, Repr

/-- `oci_spec::runtime::LinuxDevice`, with the fields `src/device.rs`
reads. -/
structure LinuxDevice where
  path : String
  typ : DeviceType
  major : Nat
  minor : Nat
  fileMode : Option Nat
  uid : Option Nat
  gid : Option Nat
deriving DecidableEq, Repr

/-- `oci_spec::runtime::Mount`, with the fields `src/mount.rs` reads. -/
structure Mount where
  destination : String
  typ : Option String
  source : Option String
  options : Option (List String)
deriving DecidableEq, Repr

/-- `oci_spec::runtime::LinuxRlimit`: a POSIX rlimit kind (modelled by its
name) with soft and hard limits. -/
structure LinuxRlimit where
  typ : String
  soft : Nat
  hard : Nat
deriving DecidableEq, Repr

/-- The five capability sets of `caps::CapSet`. -/
inductive CapSet where
  | bounding
  | effective
  | permitted
  | inheritable
  | ambient
deriving DecidableEq, Repr

/-- `oci_spec::runtime::LinuxCapabilities`: the five optional capability
name lists.  The names themselves are opaque strings here; no claim
depends on the 43-name enumeration. -/
structure Capabilities where
  bounding : Option (List String)
  effective : Option (List String)
  permitted : Option (List String)
  inheritable : Option (List String)
  ambient : Option (List String)
deriving DecidableEq, Repr

/-- `oci_spec::runtime::User`.  `umask` is present in the bundle type but —
as the proofs below show — never read by `fork_container`. -/
structure User where
  uid : Nat
  gid : Nat
  umask : Option Nat
  additionalGids : Option (List Nat)
deriving DecidableEq, Repr

/-- `oci_spec::runtime::Process`, with the fields the child reads. -/
structure Process where
  args : Option (List String)
  env : Option (List String)
  cwd : String
  user : User
  rlimits : Option (List LinuxRlimit)
  oomScoreAdj : Option Int
  capabilities : Option Capabilities
deriving DecidableEq, Repr

/-- An OCI `Hook` record (`path`, `args`, `env`, `timeout`).  The runtime
only spawns it and checks its exit status; the record is carried for
fidelity. -/
structure Hook where
  path : String
  args : Option (List String)
  env : Option (List String)
  timeout : Option Nat
deriving DecidableEq, Repr

/-- `oci_spec::runtime::Hooks`: the six hook slots. -/
structure Hooks where
  prestart : Option (List Hook)
  createRuntime : Option (List Hook)
  createContainer : Option (List Hook)
  startContainer : Option (List Hook)
  poststart : Option (List Hook)
  poststop : Option (List Hook)
deriving DecidableEq, Repr

/-- `oci_spec::runtime::Root`: the rootfs path and the readonly flag. -/
structure Root where
  path : String
  readonly : Option Bool
deriving DecidableEq, Repr

/-- `oci_spec::runtime::Linux`, with the fields the child reads.  `sysctl`
is a `HashMap` in the source; it is modelled as the association list in
iteration order. -/
structure Linux where
  namespaces : Option (List LinuxNamespace)
  devices : Option (List LinuxDevice)
  sysctl : Option (List (String × String))
deriving DecidableEq, Repr

/-- The bundle configuration (`oci_spec::runtime::Spec`), with the fields
the runtime reads. -/
structure Spec where
  root : Option Root
  mounts : Option (List Mount)
  linux : Option Linux
  hostname : Option String
  hooks : Option Hooks
  process : Option Process
deriving DecidableEq, Repr

/-! ## Paths and small string helpers -/

/-- `Path::join`: an absolute right operand replaces the left one,
otherwise the components are joined with a separator. -/
def pathJoin (a b : String) : String :=
  match b.toList with
  | '/' :: _ => b
  | _ => a ++ "/" ++ b

/-- `str::trim_start_matches('/')`. -/
def trimLeadingSlashes (s : String) : String :=
  String.mk (s.toList.dropWhile (fun ch => ch = '/'))

/-- `str::split_once('=')`: the parts before and after the first `=`, or
`none` when the string contains no `=`. -/
def splitOnceEq (s : String) : Option (String × String) :=
  match s.toList.findIdx? (fun ch => ch = '=') with
  | none => none
  | some i => some (String.mk (s.toList.take i), String.mk (s.toList.drop (i + 1)))

/-! ## Operations and run traces

The child pipeline and the CLI verbs are embedded as functions that return
the list of operations performed (syscalls, socket writes, hook spawns) and
how the run terminated.  Fallible operations consult an explicit
environment. -/

/-- The hook phases named by the OCI spec. -/
inductive HookPhase where
  | prestart
  | createRuntime
  | createContainer
  | startContainer
  | poststart
  | poststop
deriving DecidableEq, Repr

/-- One observable operation of the runtime. -/
inductive Op where
  | nsOpen (path : String)
  | nsSetns (path : String)
  | mountPrivateRoot
  | mountBindRootfs (rootfs : String)
  | mkdirAll (path : String)
  | mountApply (source : Option String) (dest : String) (typ : Option String)
      (flags : Nat) (data : String)
  | mknod (path : String) (sflag : Nat) (mode : Nat) (major : Nat) (minor : Nat)
  | chownUid (path : String) (uid : Nat)
  | chownGid (path : String) (gid : Nat)
  | symlink (source : String) (dest : String)
  | sethostname (name : String)
  | runHook (phase : HookPhase) (i : Nat)
  | chdir (path : String)
  | pivotRoot (newRoot : String) (putOld : String)
  | umountDetach (target : String)
  | removeDirAll (path : String)
  | remountReadonly
  | sysctlWrite (key : String) (value : String)
  | setEnv (key : String) (value : String)
  | setRlimit (typ : String) (soft : Nat) (hard : Nat)
  | setOomScoreAdj (n : Int)
  | capDropBounding
  | capSetWrite (which : CapSet)
  | setKeepCaps (b : Bool)
  | setgid (g : Nat)
  | setgroups (gs : List Nat)
  | setuid (u : Nat)
  | setUmask (m : Nat)
  | writeMsg (m : SocketMessage)
  | execvpCall (cmd : String) (args : List String)
  | listen
  | printLine (s : String)
  | exitCall (code : Nat)
  | checkExists (path : String)
  | loadState (path : String)
  | loadConfig (path : String)
deriving DecidableEq, Repr

/-- How a child run terminates: `exit(code)`, a panic (an `unwrap` on an
error), or a successful `execvp` replacing the process image. -/
inductive ChildExit where
  | exited (code : Nat)
  | panicked
  | replaced
deriving DecidableEq, Repr

/-- The fallible steps of the child pipeline, used to index the
environment.  Loop iterations are indexed by their position. -/
inductive Step where
  | nsOpen (i : Nat)
  | nsSetns (i : Nat)
  | mountPrivate
  | mountBind
  | mountMkdir (i : Nat)
  | mountApply (i : Nat)
  | deviceMknod (i : Nat)
  | deviceChownUid (i : Nat)
  | deviceChownGid (i : Nat)
  | defaultDeviceMknod (i : Nat)
  | defaultDeviceChownUid (i : Nat)
  | defaultDeviceChownGid (i : Nat)
  | defaultSymlink (i : Nat)
  | hostname
  | createContainerHook (i : Nat)
  | pivotChdirRootfs
  | pivotMkdir
  | pivotPivotRoot
  | pivotUmount
  | pivotRemoveDir
  | pivotChdirRoot
  | sysctl (i : Nat)
  | startContainerHook (i : Nat)
  | rlimit (i : Nat)
  | oomScoreAdj
  | boundingCaps
  | keepCapsOn
  | setgid
  | setgroups
  | setuid
  | keepCapsOff
  | capSet (which : CapSet)
  | chdirCwd
  | execvp
deriving DecidableEq, Repr

/-- The environment of a child run: which steps fail, the display text of
the underlying error of a failing step, and whether the destination
directory of mount `i` already exists. -/
structure Env where
  fails : Step → Bool
  errText : Step → String
  destExists : Nat → Bool

/-- The all-success environment (every syscall, hook and filesystem
operation succeeds; mount destinations already exist). -/
def allOk : Env :=
  { fails := fun _ => false, errText := fun _ => "", destExists := fun _ => true }

/-- A run: the operations performed, and `some e` when the run stopped
early with exit value `e` (`none` when control flowed on). -/
abbrev Run (α : Type) : Type := List Op × Option α

/-- A run that performed `ops` and continues. -/
def Run.ok {α : Type} (ops : List Op) : Run α := (ops, none)

/-- A run that performed `ops` and stops with exit value `e`. -/
def Run.halt {α : Type} (ops : List Op) (e : α) : Run α := (ops, some e)

/-- Sequencing: the second run happens only if the first did not stop. -/
def runSeq {α : Type} (a b : Run α) : Run α :=
  match a with
  | (ops, none) => (ops ++ b.1, b.2)
  | (ops, some e) => (ops, some e)

/-- A `for` loop whose iterations carry their index, starting at `start`. -/
def runListIdx {α β : Type} (g : Nat → β → Run α) : Nat → List β → Run α
  | _, [] => ([], none)
  | i, x :: xs => runSeq (g i x) (runListIdx g (i + 1) xs)

/-- A fallible call with error propagation (`?` in the source): on failure
the run stops with the formatted error. -/
def tryCall {α : Type} (failed : Bool) (ops : List Op) (e : α) : Run α :=
  if failed then Run.halt ops e else Run.ok ops

/-- A fallible pipeline step handled in `fork_container` by writing a
socket message with status `st` and the formatted error text, then
`exit(1)`. -/
def tryStep (env : Env) (s : Step) (attempt : List Op) (st : Status)
    (fmt : String → String) : Run ChildExit :=
  if env.fails s then
    Run.halt
      (attempt ++
        [Op.writeMsg { status := st, error := some { message := fmt (env.errText s) } },
         Op.exitCall 1])
      (ChildExit.exited 1)
  else Run.ok attempt

/-- A fallible step whose failure is only printed (`println!`) and does not
abort: the capability writes in `fork_container`. -/
def tryPrint (env : Env) (s : Step) (attempt : List Op)
    (fmt : String → String) : Run ChildExit :=
  if env.fails s then Run.ok (attempt ++ [Op.printLine (fmt (env.errText s))])
  else Run.ok attempt

/-- Convert an error-propagating run into the `fork_container` handling:
write a message with status `st`, then `exit(1)`. -/
def mapErrToWrite (r : Run String) (st : Status) (fmt : String → String) :
    Run ChildExit :=
  match r with
  | (ops, none) => Run.ok ops
  | (ops, some e) =>
    Run.halt
      (ops ++ [Op.writeMsg { status := st, error := some { message := fmt e } },
               Op.exitCall 1])
      (ChildExit.exited 1)

/-- Convert an error-propagating run into an `unwrap`: a panic with no
socket message. -/
def mapErrToPanic (r : Run String) : Run ChildExit :=
  match r with
  | (ops, none) => Run.ok ops
  | (ops, some _) => Run.halt ops ChildExit.panicked

/-! ## Device creation (`src/device.rs`) -/

/-- `to_sflag` from `src/device.rs`, with the numeric `S_IF*` constants:
`c`/`u` are character devices, `b` block devices, `p` fifos, anything else
maps to the empty flag. -/
def to_sflag (t : DeviceType) : Nat :=
  match t with
  | DeviceType.c | DeviceType.u => 0o020000
  | DeviceType.b => 0o060000
  | DeviceType.p => 0o010000
  | DeviceType.a => 0

/-- `create_device` from `src/device.rs`: `mknod` at the rootfs-joined
path with `Mode::from_bits_truncate(file_mode.unwrap_or(0o066))` (i.e. the
mode masked to the permission bits), then `chown` of the uid if given, then
`chown` of the gid if given.  The three step identifiers index the
environment; errors propagate to the caller.  (The chown error messages
say "failed to create default symlink" in the source.) -/
def create_device_run (env : Env) (smk scu scg : Step) (rootfs : String)
    (d : LinuxDevice) : Run String :=
  let path := pathJoin rootfs (trimLeadingSlashes d.path)
  runSeq
    (tryCall (env.fails smk)
      [Op.mknod path (to_sflag d.typ) ((d.fileMode.getD 0o066) &&& 0o7777)
        d.major d.minor]
      ("failed to create the device " ++ d.path ++ ": " ++ env.errText smk))
    (runSeq
      (match d.uid with
       | some u =>
         tryCall (env.fails scu) [Op.chownUid path u]
           ("failed to create default symlink: " ++ env.errText scu)
       | none => Run.ok [])
      (match d.gid with
       | some g =>
         tryCall (env.fails scg) [Op.chownGid path g]
           ("failed to create default symlink: " ++ env.errText scg)
       | none => Run.ok []))

/-- The seven entries of `default_device_list` in `create_default_device`
(`src/device.rs`), in source order — note the seventh entry `/dev/ptmx`,
created as a character device 5:2. -/
def default_device_list : List LinuxDevice :=
  [{ path := "/dev/null", typ := DeviceType.c, major := 1, minor := 3
     fileMode := some 0o066, uid := some 0, gid := some 0 },
   { path := "/dev/zero", typ := DeviceType.c, major := 1, minor := 5
     fileMode := some 0o066, uid := some 0, gid := some 0 },
   { path := "/dev/full", typ := DeviceType.c, major := 1, minor := 7
     fileMode := some 0o066, uid := some 0, gid := some 0 },
   { path := "/dev/random", typ := DeviceType.c, major := 1, minor := 8
     fileMode := some 0o066, uid := some 0, gid := some 0 },
   { path := "/dev/urandom", typ := DeviceType.c, major := 1, minor := 9
     fileMode := some 0o066, uid := some 0, gid := some 0 },
   { path := "/dev/tty", typ := DeviceType.c, major := 5, minor := 0
     fileMode := some 0o066, uid := some 0, gid := some 0 },
   { path := "/dev/ptmx", typ := DeviceType.c, major := 5, minor := 2
     fileMode := some 0o066, uid := some 0, gid := some 0 }]

/-- `create_default_device` from `src/device.rs`: create every entry of
`default_device_list`, `.unwrap()`-ing each result — a failure panics
without any socket message. -/
def create_default_device_run (env : Env) (rootfs : String) : Run ChildExit :=
  runListIdx
    (fun i d =>
      mapErrToPanic
        (create_device_run env (Step.defaultDeviceMknod i)
          (Step.defaultDeviceChownUid i) (Step.defaultDeviceChownGid i)
          rootfs d))
    0 default_device_list

/-- The four entries of `default_symlink_list` in `create_default_symlink`
(`src/device.rs`) — there is no `pts/ptmx → /dev/ptmx` entry. -/
def default_symlink_list : List (String × String) :=
  [("/proc/self/fd", "/dev/fd"),
   ("/proc/self/fd/0", "/dev/stdin"),
   ("/proc/self/fd/1", "/dev/stdout"),
   ("/proc/self/fd/2", "/dev/stderr")]

/-- `create_default_symlink` from `src/device.rs`: symlink each entry under
the rootfs; the first failure propagates. -/
def create_default_symlink_run (env : Env) (rootfs : String) : Run String :=
  runListIdx
    (fun i sd =>
      tryCall (env.fails (Step.defaultSymlink i))
        [Op.symlink sd.1 (pathJoin rootfs (trimLeadingSlashes sd.2))]
        ("failed to create default symlink: " ++
          env.errText (Step.defaultSymlink i)))
    0 default_symlink_list

/-! ## Mount engine runs (`src/mount.rs`) -/

/-- `mount_rootfs` from `src/mount.rs`: remount `/` with
`MS_PRIVATE|MS_REC`, then bind-mount the rootfs onto itself with
`MS_BIND|MS_REC`; both failures render as "failed to mount the rootfs". -/
def mount_rootfs_run (env : Env) (rootfs : String) : Run String :=
  runSeq
    (tryCall (env.fails Step.mountPrivate) [Op.mountPrivateRoot]
      ("failed to mount the rootfs: " ++ env.errText Step.mountPrivate))
    (tryCall (env.fails Step.mountBind) [Op.mountBindRootfs rootfs]
      ("failed to mount the rootfs: " ++ env.errText Step.mountBind))

/-- `oci_mount` from `src/mount.rs` for the `i`-th entry of `spec.mounts`:
join the destination under the rootfs, create it if absent, translate the
options and call `mount`. -/
def oci_mount_run (env : Env) (rootfs : String) (i : Nat) (m : Mount) :
    Run String :=
  let destination := pathJoin rootfs (trimLeadingSlashes m.destination)
  runSeq
    (if env.destExists i then Run.ok []
     else
       tryCall (env.fails (Step.mountMkdir i)) [Op.mkdirAll destination]
         ("failed to create " ++ destination ++ ": " ++
           env.errText (Step.mountMkdir i)))
    (tryCall (env.fails (Step.mountApply i))
      [Op.mountApply m.source destination m.typ
        (options_to_mount_flags m.options).1 (options_to_mount_flags m.options).2]
      ("failed to mount to " ++ destination ++ ": " ++
        env.errText (Step.mountApply i)))

/-- `pivot_rootfs` from `src/mount.rs`: `chdir(rootfs)`, create
`rootfs/root_archive`, `pivot_root`, detach-unmount `./root_archive`,
remove it, `chdir("/")`.  The function takes no readonly flag and performs
no read-only remount. -/
def pivot_rootfs_run (env : Env) (rootfs : String) : Run String :=
  runSeq
    (tryCall (env.fails Step.pivotChdirRootfs) [Op.chdir rootfs]
      ("failed to run chdir: " ++ env.errText Step.pivotChdirRootfs))
    (runSeq
      (tryCall (env.fails Step.pivotMkdir)
        [Op.mkdirAll (pathJoin rootfs "root_archive")]
        ("failed to create ./root_archive: " ++ env.errText Step.pivotMkdir))
      (runSeq
        (tryCall (env.fails Step.pivotPivotRoot)
          [Op.pivotRoot rootfs (pathJoin rootfs "root_archive")]
          ("failed to run pivot_root " ++ rootfs ++ ": " ++
            env.errText Step.pivotPivotRoot))
        (runSeq
          (tryCall (env.fails Step.pivotUmount)
            [Op.umountDetach "./root_archive"]
            ("failed to unmount ./root_archive: " ++
              env.errText Step.pivotUmount))
          (runSeq
            (tryCall (env.fails Step.pivotRemoveDir)
              [Op.removeDirAll "./root_archive"]
              ("failed to remove ./root_archive: " ++
                env.errText Step.pivotRemoveDir))
            (tryCall (env.fails Step.pivotChdirRoot) [Op.chdir "/"]
              ("failed to run chdir: " ++ env.errText Step.pivotChdirRoot))))))

/-! ## The child pipeline (`fork_container` in `src/container.rs`) -/

/-- The namespace-joining loop at the top of the child closure
(`src/container.rs` lines 46–75): for each entry with a `path`, open the
path and `setns`; either failure writes a `Creating` message and exits. -/
def ns_join_run (env : Env) (i : Nat) (ns : LinuxNamespace) : Run ChildExit :=
  match ns.path with
  | none => Run.ok []
  | some p =>
    runSeq
      (tryStep env (Step.nsOpen i) [Op.nsOpen p] Status.creating
        (fun e => "container error: " ++ e))
      (tryStep env (Step.nsSetns i) [Op.nsSetns p] Status.creating
        (fun e => "container error: " ++ e))

/-- The config-device loop (`src/container.rs` lines 106–122): each
failure writes a `Creating` message and exits. -/
def config_devices_run (env : Env) (rootfs : String) (spec : Spec) :
    Run ChildExit :=
  match spec.linux with
  | none => Run.ok []
  | some lx =>
    match lx.devices with
    | none => Run.ok []
    | some ds =>
      runListIdx
        (fun i d =>
          mapErrToWrite
            (create_device_run env (Step.deviceMknod i)
              (Step.deviceChownUid i) (Step.deviceChownGid i) rootfs d)
            Status.creating (fun e => "container error: " ++ e))
        0 ds

/-- The hostname step (`src/container.rs` lines 137–139):
`sethostname(hostname).unwrap()` — a failure panics with no message. -/
def hostname_run (env : Env) (spec : Spec) : Run ChildExit :=
  match spec.hostname with
  | none => Run.ok []
  | some h =>
    if env.fails Step.hostname then Run.halt [Op.sethostname h] ChildExit.panicked
    else Run.ok [Op.sethostname h]

/-- The `createContainer` hook loop (`src/container.rs` lines 149–165):
each failure writes a message with status `Stopped` — although this runs
before `pivot_rootfs` — and exits. -/
def create_container_hooks_run (env : Env) (spec : Spec) : Run ChildExit :=
  match spec.hooks with
  | none => Run.ok []
  | some hs =>
    match hs.createContainer with
    | none => Run.ok []
    | some l =>
      runListIdx
        (fun i _ =>
          tryStep env (Step.createContainerHook i)
            [Op.runHook HookPhase.createContainer i] Status.stopped
            (fun e => "container error: " ++ e))
        0 l

/-- The sysctl loop (`src/container.rs` lines 179–199): write each value
under `/proc/sys`; a failure writes a `Stopped` message ("failed to set
<key> to <value>") and exits. -/
def sysctl_run (env : Env) (spec : Spec) : Run ChildExit :=
  match spec.linux with
  | none => Run.ok []
  | some lx =>
    match lx.sysctl with
    | none => Run.ok []
    | some kvs =>
      runListIdx
        (fun i kv =>
          tryStep env (Step.sysctl i) [Op.sysctlWrite kv.1 kv.2] Status.stopped
            (fun e => "failed to set " ++ kv.1 ++ " to " ++ kv.2 ++ ": " ++ e))
        0 kvs

/-- The `startContainer` hook loop (`src/container.rs` lines 209–225):
each failure writes a `Stopped` message and exits. -/
def start_container_hooks_run (env : Env) (spec : Spec) : Run ChildExit :=
  match spec.hooks with
  | none => Run.ok []
  | some hs =>
    match hs.startContainer with
    | none => Run.ok []
    | some l =>
      runListIdx
        (fun i _ =>
          tryStep env (Step.startContainerHook i)
            [Op.runHook HookPhase.startContainer i] Status.stopped
            (fun e => "container error: " ++ e))
        0 l

/-- The capability-set writes for one optional capability list
(`src/container.rs` lines 361–375): a failure is printed and the pipeline
continues. -/
def one_cap_run (env : Env) (o : Option (List String)) (w : CapSet) :
    Run ChildExit :=
  match o with
  | some _ =>
    tryPrint env (Step.capSet w) [Op.capSetWrite w]
      (fun e => "container error: " ++ e)
  | none => Run.ok []

/-- The rlimit loop of the process block (`src/container.rs` lines
245–259). -/
def rlimits_run (env : Env) (p : Process) : Run ChildExit :=
  match p.rlimits with
  | none => Run.ok []
  | some rl =>
    runListIdx
      (fun i r =>
        tryStep env (Step.rlimit i) [Op.setRlimit r.typ r.soft r.hard]
          Status.stopped (fun e => "container error: " ++ e))
      0 rl

/-- The `oom_score_adj` write (`src/container.rs` lines 261–277). -/
def oom_run (env : Env) (p : Process) : Run ChildExit :=
  match p.oomScoreAdj with
  | none => Run.ok []
  | some n =>
    tryStep env Step.oomScoreAdj [Op.setOomScoreAdj n] Status.stopped
      (fun e => "failed to set oom_score_adj to " ++ toString n ++ ": " ++ e)

/-- The bounding-capability drop (`src/container.rs` lines 279–285): a
failure is printed, not fatal. -/
def bounding_run (env : Env) (p : Process) : Run ChildExit :=
  match p.capabilities with
  | none => Run.ok []
  | some c =>
    match c.bounding with
    | none => Run.ok []
    | some _ =>
      tryPrint env Step.boundingCaps [Op.capDropBounding]
        (fun e => "container error: " ++ e)

/-- The `setgroups` call for the additional gids (`src/container.rs`
lines 315–331). -/
def groups_run (env : Env) (p : Process) : Run ChildExit :=
  match p.user.additionalGids with
  | none => Run.ok []
  | some gids =>
    tryStep env Step.setgroups [Op.setgroups gids] Status.stopped
      (fun e => "failed to set additional gids: " ++ e)

/-- The effective/permitted/inheritable/ambient capability writes
(`src/container.rs` lines 361–375). -/
def cap_sets_run (env : Env) (p : Process) : Run ChildExit :=
  match p.capabilities with
  | none => Run.ok []
  | some c =>
    runSeq (one_cap_run env c.effective CapSet.effective)
      (runSeq (one_cap_run env c.permitted CapSet.permitted)
        (runSeq (one_cap_run env c.inheritable CapSet.inheritable)
          (one_cap_run env c.ambient CapSet.ambient)))

/-- The body of `if let Some(process) = spec.process()` in
`fork_container` (`src/container.rs` lines 227–421), including the
`else` branch writing "the 'process' doesn't exist".  The `args` unwrap
and the `args[0]` index panic when absent. -/
def process_run (env : Env) (spec : Spec) : Run ChildExit :=
  match spec.process with
  | none =>
    Run.halt
      [Op.writeMsg { status := Status.stopped
                     error := some { message := "container error: the 'process' doesn't exist" } },
       Op.exitCall 1]
      (ChildExit.exited 1)
  | some p =>
    match p.args with
    | none => Run.halt [] ChildExit.panicked
    | some [] => Run.halt [] ChildExit.panicked
    | some (a0 :: rest) =>
      runSeq
        (Run.ok ((p.env.getD []).filterMap fun s =>
          (splitOnceEq s).map fun kv => Op.setEnv kv.1 kv.2))
        (runSeq (rlimits_run env p)
          (runSeq (oom_run env p)
            (runSeq (bounding_run env p)
              (runSeq
                (tryStep env Step.keepCapsOn [Op.setKeepCaps true] Status.stopped
                  (fun e => "failed to set PR_SET_KEEPCAPS to true: " ++ e))
                (runSeq
                  (tryStep env Step.setgid [Op.setgid p.user.gid] Status.stopped
                    (fun e => "failed to set gid to " ++ toString p.user.gid ++
                      ": " ++ e))
                  (runSeq (groups_run env p)
                    (runSeq
                      (tryStep env Step.setuid [Op.setuid p.user.uid]
                        Status.stopped
                        (fun e => "failed to set uid to " ++
                          toString p.user.uid ++ ": " ++ e))
                      (runSeq
                        (tryStep env Step.keepCapsOff [Op.setKeepCaps false]
                          Status.stopped
                          (fun e => "failed to set PR_SET_KEEPCAPS to false: "
                            ++ e))
                        (runSeq (cap_sets_run env p)
                          (runSeq
                            (tryStep env Step.chdirCwd [Op.chdir p.cwd]
                              Status.stopped
                              (fun e =>
                                "failed to change the working directory to " ++
                                  p.cwd ++ ": " ++ e))
                            (runSeq
                              (Run.ok [Op.writeMsg { status := Status.running
                                                     error := none }])
                              (if env.fails Step.execvp then
                                Run.halt
                                  [Op.execvpCall a0 (a0 :: rest),
                                   Op.writeMsg ⟨Status.stopped,
                                     some ⟨"container error: " ++
                                       env.errText Step.execvp⟩⟩,
                                   Op.exitCall 1]
                                  (ChildExit.exited 1)
                               else
                                Run.halt [Op.execvpCall a0 (a0 :: rest)]
                                  ChildExit.replaced))))))))))))

/-- The start phase of the child (`startContainer` hooks followed by the
process block), as run between the second `listen` and the end of the
child closure. -/
def start_phase_run (env : Env) (spec : Spec) : Run ChildExit :=
  runSeq (start_container_hooks_run env spec) (process_run env spec)

/-- The whole child closure of `fork_container` (`src/container.rs` lines
40–424).  The socket bind and the init-socket ping are not modelled (no
claim mentions them); each `listen()` barrier is recorded as an `Op`. -/
def childRun (namespaces : List LinuxNamespace) (spec : Spec) (st : State)
    (env : Env) : Run ChildExit :=
  runSeq (Run.ok [Op.listen])
    (runSeq (runListIdx (ns_join_run env) 0 namespaces)
      (match spec.root with
       | none => Run.halt [] ChildExit.panicked
       | some root =>
         let rootfs := pathJoin st.bundle root.path
         runSeq
           (mapErrToWrite (mount_rootfs_run env rootfs) Status.creating
             (fun e => "container error: " ++ e))
           (runSeq
             (match spec.mounts with
              | none => Run.ok []
              | some ms =>
                runListIdx
                  (fun i m =>
                    mapErrToWrite (oci_mount_run env rootfs i m) Status.creating
                      (fun e => "container error: " ++ e))
                  0 ms)
             (runSeq (config_devices_run env rootfs spec)
               (runSeq (create_default_device_run env rootfs)
                 (runSeq
                   (mapErrToWrite (create_default_symlink_run env rootfs)
                     Status.creating (fun e => "container error: " ++ e))
                   (runSeq (hostname_run env spec)
                     (runSeq
                       (Run.ok [Op.writeMsg { status := Status.creating
                                              error := none },
                                Op.listen])
                       (runSeq (create_container_hooks_run env spec)
                         (runSeq
                           (mapErrToWrite (pivot_rootfs_run env rootfs)
                             Status.creating
                             (fun e => "container error: " ++ e))
                           (runSeq (sysctl_run env spec)
                             (runSeq
                               (Run.ok [Op.writeMsg { status := Status.created
                                                      error := none },
                                        Op.listen])
                               (start_phase_run env spec)))))))))))))

/-! ## CLI-side definitions (`src/cli.rs`) -/

/-- The compile-time root directory of the runtime. -/
def RENO_ROOT : String := "/tmp/reno"

/-- The child error string `start` treats as success. -/
def noProcessMsg : String := "container error: the 'process' doesn't exist"

/-- What `start` does with the message read from the container socket
(`src/cli.rs` lines 193–216): a `Running` status enters the
poststart/refresh/persist path; otherwise a message carrying exactly
`noProcessMsg` is accepted as success, any other error is rejected, and a
message with no error is rejected with a generic text. -/
inductive StartAction where
  | runningPhase
  | accept
  | reject (msg : String)
deriving DecidableEq, Repr

def start_message_dispatch (m : SocketMessage) : StartAction :=
  if m.status = Status.running then StartAction.runningPhase
  else
    match m.error with
    | some err =>
      if err.message = noProcessMsg then StartAction.accept
      else StartAction.reject ("failed to start the container: " ++ err.message)
    | none => StartAction.reject "failed to start the container"

/-- Environment of a `delete` invocation: outcomes of the filesystem and
hook operations it performs. -/
structure DeleteEnv where
  checkOk : Bool
  checkErrText : String
  loadStateResult : Except String State
  removeOk : Bool
  removeErrText : String
  loadSpecResult : Except String Spec
  hookFails : Nat → Bool
  hookErrText : Nat → String

/-- The `poststop` hook loop of `delete` (`src/cli.rs` lines 276–282):
each hook is spawned in order; the first failure propagates as the
verb's error. -/
def poststop_hooks_run (env : DeleteEnv) (spec : Spec) : Run RuntimeError :=
  match spec.hooks with
  | none => Run.ok []
  | some hs =>
    match hs.poststop with
    | none => Run.ok []
    | some l =>
      runListIdx
        (fun i _ =>
          tryCall (env.hookFails i) [Op.runHook HookPhase.poststop i]
            { message := env.hookErrText i })
        0 l

/-- `delete` from `src/cli.rs` (lines 254–285): check the container root
exists, load the state, require `Stopped`, remove the container directory,
*then* load the bundle's `config.json` and run the `poststop` hooks.  The
trace records the operations in order. -/
def delete_verb (id : String) (env : DeleteEnv) :
    List Op × Except RuntimeError Unit :=
  let cr := pathJoin RENO_ROOT id
  let run : Run RuntimeError :=
    runSeq
      (tryCall (!env.checkOk) [Op.checkExists cr]
        { message := "the container doesn't exist: " ++ env.checkErrText })
      (match env.loadStateResult with
       | Except.error e => Run.halt [Op.loadState (pathJoin cr "state.json")]
           { message := e }
       | Except.ok s =>
         runSeq (Run.ok [Op.loadState (pathJoin cr "state.json")])
           (if s.status ≠ Status.stopped then
             Run.halt [] { message := "the container is not in the 'Stopped' state" }
            else
             runSeq
               (tryCall (!env.removeOk) [Op.removeDirAll cr]
                 { message := "failed to remove the container: " ++
                     env.removeErrText })
               (match env.loadSpecResult with
                | Except.error e =>
                  Run.halt [Op.loadConfig (pathJoin s.bundle "config.json")]
                    { message := "failed to load the bundle configuration: " ++ e }
                | Except.ok spec =>
                  runSeq
                    (Run.ok [Op.loadConfig (pathJoin s.bundle "config.json")])
                    (poststop_hooks_run env spec))))
  (run.1,
    (match run.2 with
     | some e => Except.error e
     | none => Except.ok ()))

/-! ## Extracting messages from traces, and status tables -/

/-- The socket messages carrying an error in a trace. -/
def errMsgs (ops : List Op) : List SocketMessage :=
  ops.filterMap fun op =>
    match op with
    | Op.writeMsg m => if m.error.isSome then some m else none
    | _ => none

/-- The status the code writes when step `s` fails (read off the error
sites of `fork_container`): `stopped` for the `createContainer` hooks and
everything from `sysctl` on, `creating` for everything else. -/
def amendedErrStatus (s : Step) : Status :=
  match s with
  | Step.createContainerHook _ => Status.stopped
  | Step.sysctl _ => Status.stopped
  | Step.startContainerHook _ => Status.stopped
  | Step.rlimit _ => Status.stopped
  | Step.oomScoreAdj => Status.stopped
  | Step.keepCapsOn => Status.stopped
  | Step.setgid => Status.stopped
  | Step.setgroups => Status.stopped
  | Step.setuid => Status.stopped
  | Step.keepCapsOff => Status.stopped
  | Step.chdirCwd => Status.stopped
  | Step.execvp => Status.stopped
  | _ => Status.creating

/-- Whether a step occurs before (or during) `pivot_rootfs` in the source
order of the pipeline. -/
def stepBeforePivot (s : Step) : Bool :=
  match s with
  | Step.sysctl _ => false
  | Step.startContainerHook _ => false
  | Step.rlimit _ => false
  | Step.oomScoreAdj => false
  | Step.boundingCaps => false
  | Step.keepCapsOn => false
  | Step.setgid => false
  | Step.setgroups => false
  | Step.setuid => false
  | Step.keepCapsOff => false
  | Step.capSet _ => false
  | Step.chdirCwd => false
  | Step.execvp => false
  | _ => true

/-- The status claim C7 asserts for a failing step (stated from the
claim's words): `creating` before `pivot_root`, `stopped` after. -/
def originalClaimStatus (s : Step) : Status :=
  if stepBeforePivot s then Status.creating else Status.stopped

/-- Whether the pipeline, run with every step before `s` succeeding,
actually executes step `s` — the side conditions on the bundle under which
step `s` is reached.  The steps whose failure produces no socket message
(the default-device `unwrap`s, `sethostname().unwrap()` and the
print-only capability writes) are excluded. -/
def stepEnabled (namespaces : List LinuxNamespace) (spec : Spec) (env : Env)
    (s : Step) : Prop :=
  match s with
  | Step.nsOpen i => ∃ ns pth, namespaces[i]? = some ns ∧ ns.path = some pth
  | Step.nsSetns i => ∃ ns pth, namespaces[i]? = some ns ∧ ns.path = some pth
  | Step.mountPrivate => spec.root.isSome
  | Step.mountBind => spec.root.isSome
  | Step.mountMkdir i => spec.root.isSome ∧ env.destExists i = false ∧
      ∃ ms m, spec.mounts = some ms ∧ ms[i]? = some m
  | Step.mountApply i => spec.root.isSome ∧
      ∃ ms m, spec.mounts = some ms ∧ ms[i]? = some m
  | Step.deviceMknod i => spec.root.isSome ∧
      ∃ lx ds d, spec.linux = some lx ∧ lx.devices = some ds ∧ ds[i]? = some d
  | Step.deviceChownUid i => spec.root.isSome ∧
      ∃ lx ds d u, spec.linux = some lx ∧ lx.devices = some ds ∧
        ds[i]? = some d ∧ d.uid = some u
  | Step.deviceChownGid i => spec.root.isSome ∧
      ∃ lx ds d g, spec.linux = some lx ∧ lx.devices = some ds ∧
        ds[i]? = some d ∧ d.gid = some g
  | Step.defaultSymlink i => spec.root.isSome ∧ i < 4
  | Step.createContainerHook i => spec.root.isSome ∧
      ∃ hs l, spec.hooks = some hs ∧ hs.createContainer = some l ∧ i < l.length
  | Step.pivotChdirRootfs => spec.root.isSome
  | Step.pivotMkdir => spec.root.isSome
  | Step.pivotPivotRoot => spec.root.isSome
  | Step.pivotUmount => spec.root.isSome
  | Step.pivotRemoveDir => spec.root.isSome
  | Step.pivotChdirRoot => spec.root.isSome
  | Step.sysctl i => spec.root.isSome ∧
      ∃ lx kvs kv, spec.linux = some lx ∧ lx.sysctl = some kvs ∧
        kvs[i]? = some kv
  | Step.startContainerHook i => spec.root.isSome ∧
      ∃ hs l, spec.hooks = some hs ∧ hs.startContainer = some l ∧ i < l.length
  | Step.rlimit i => spec.root.isSome ∧
      ∃ p a0 rest rl r, spec.process = some p ∧ p.args = some (a0 :: rest) ∧
        p.rlimits = some rl ∧ rl[i]? = some r
  | Step.oomScoreAdj => spec.root.isSome ∧
      ∃ p a0 rest n, spec.process = some p ∧ p.args = some (a0 :: rest) ∧
        p.oomScoreAdj = some n
  | Step.keepCapsOn => spec.root.isSome ∧
      ∃ p a0 rest, spec.process = some p ∧ p.args = some (a0 :: rest)
  | Step.setgid => spec.root.isSome ∧
      ∃ p a0 rest, spec.process = some p ∧ p.args = some (a0 :: rest)
  | Step.setgroups => spec.root.isSome ∧
      ∃ p a0 rest gids, spec.process = some p ∧ p.args = some (a0 :: rest) ∧
        p.user.additionalGids = some gids
  | Step.setuid => spec.root.isSome ∧
      ∃ p a0 rest, spec.process = some p ∧ p.args = some (a0 :: rest)
  | Step.keepCapsOff => spec.root.isSome ∧
      ∃ p a0 rest, spec.process = some p ∧ p.args = some (a0 :: rest)
  | Step.chdirCwd => spec.root.isSome ∧
      ∃ p a0 rest, spec.process = some p ∧ p.args = some (a0 :: rest)
  | Step.execvp => spec.root.isSome ∧
      ∃ p a0 rest, spec.process = some p ∧ p.args = some (a0 :: rest)
  | _ => False

/-- The position of a fallible step in the source order of the child
pipeline, used to say "every step before this one".  Numbers follow the
segment order of `fork_container`. -/
def stepSeg : Step → Nat
  | Step.nsOpen _ => 2
  | Step.nsSetns _ => 2
  | Step.mountPrivate => 3
  | Step.mountBind => 3
  | Step.mountMkdir _ => 4
  | Step.mountApply _ => 4
  | Step.deviceMknod _ => 5
  | Step.deviceChownUid _ => 5
  | Step.deviceChownGid _ => 5
  | Step.defaultDeviceMknod _ => 6
  | Step.defaultDeviceChownUid _ => 6
  | Step.defaultDeviceChownGid _ => 6
  | Step.defaultSymlink _ => 7
  | Step.hostname => 8
  | Step.createContainerHook _ => 10
  | Step.pivotChdirRootfs => 11
  | Step.pivotMkdir => 11
  | Step.pivotPivotRoot => 11
  | Step.pivotUmount => 11
  | Step.pivotRemoveDir => 11
  | Step.pivotChdirRoot => 11
  | Step.sysctl _ => 12
  | Step.startContainerHook _ => 14
  | Step.rlimit _ => 15
  | Step.oomScoreAdj => 16
  | Step.boundingCaps => 17
  | Step.keepCapsOn => 18
  | Step.setgid => 19
  | Step.setgroups => 20
  | Step.setuid => 21
  | Step.keepCapsOff => 22
  | Step.capSet _ => 23
  | Step.chdirCwd => 24
  | Step.execvp => 25

/-! ## Sequences stated from the specification's words -/

/-- The operation lists of the start phase, shared vocabulary for stating
ordering claims.  Each mirrors one segment of the phase. -/
def startHookOps (spec : Spec) : List Op :=
  match spec.hooks with
  | some hs =>
    match hs.startContainer with
    | some l => (List.range l.length).map (Op.runHook HookPhase.startContainer)
    | none => []
  | none => []

def envOps (p : Process) : List Op :=
  (p.env.getD []).filterMap fun s =>
    (splitOnceEq s).map fun kv => Op.setEnv kv.1 kv.2

def rlimitOps (p : Process) : List Op :=
  (p.rlimits.getD []).map fun r => Op.setRlimit r.typ r.soft r.hard

def oomOps (p : Process) : List Op :=
  match p.oomScoreAdj with
  | some n => [Op.setOomScoreAdj n]
  | none => []

def boundingOps (p : Process) : List Op :=
  match p.capabilities with
  | some c =>
    match c.bounding with
    | some _ => [Op.capDropBounding]
    | none => []
  | none => []

def groupsOps (p : Process) : List Op :=
  match p.user.additionalGids with
  | some gids => [Op.setgroups gids]
  | none => []

def capSetOps (p : Process) : List Op :=
  match p.capabilities with
  | none => []
  | some c =>
    (match c.effective with
     | some _ => [Op.capSetWrite CapSet.effective]
     | none => []) ++
    (match c.permitted with
     | some _ => [Op.capSetWrite CapSet.permitted]
     | none => []) ++
    (match c.inheritable with
     | some _ => [Op.capSetWrite CapSet.inheritable]
     | none => []) ++
    (match c.ambient with
     | some _ => [Op.capSetWrite CapSet.ambient]
     | none => [])

/-- The umask step of the start phase, *as the specification describes
it* (between `setgid` and `setgroups`).  Modelled from the spec: the code
of `fork_container` never applies a umask. -/
def umaskOps (p : Process) : List Op :=
  match p.user.umask with
  | some m => [Op.setUmask m]
  | none => []

/-- The start-phase operation sequence *as claim C1 states it* (with the
umask applied between `setgid` and `setgroups`), ending with the running
message and `execvp`. -/
def claimed_start_sequence (spec : Spec) (p : Process) (a0 : String)
    (rest : List String) : List Op :=
  startHookOps spec ++ envOps p ++ rlimitOps p ++ oomOps p ++ boundingOps p ++
    [Op.setKeepCaps true, Op.setgid p.user.gid] ++ umaskOps p ++
    groupsOps p ++ [Op.setuid p.user.uid, Op.setKeepCaps false] ++
    capSetOps p ++
    [Op.chdir p.cwd,
     Op.writeMsg { status := Status.running, error := none },
     Op.execvpCall a0 (a0 :: rest)]

/-- The `pivot_rootfs` step sequence *as claim C3 states it*: the six
steps, followed — when `readonly` is set — by a read-only remount of the
new root. -/
def claimed_pivot_sequence (rootfs : String) (readonly : Bool) : List Op :=
  [Op.chdir rootfs, Op.mkdirAll (pathJoin rootfs "root_archive"),
   Op.pivotRoot rootfs (pathJoin rootfs "root_archive"),
   Op.umountDetach "./root_archive", Op.removeDirAll "./root_archive",
   Op.chdir "/"] ++ (if readonly then [Op.remountReadonly] else [])

/-! ## Trace predicates -/

/-- A run that wrote no error message and continued. -/
def CleanRun {α : Type} (r : Run α) : Prop := errMsgs r.1 = [] ∧ r.2 = none

/-- A child run that wrote exactly the error message `m` and exited with
code 1. -/
def FailsWith (r : Run ChildExit) (m : SocketMessage) : Prop :=
  errMsgs r.1 = [m] ∧ r.2 = some (ChildExit.exited 1)

/-- An error-propagating run that stopped with error `e`, having written
no socket message itself. -/
def ErrHalt (r : Run String) (e : String) : Prop :=
  errMsgs r.1 = [] ∧ r.2 = some e

/-- The per-operation invariant of every child trace: error messages carry
status `creating` or `stopped` (never `running`), and the child performs
no read-only remount and no umask call. -/
def GoodOp : Op → Prop
  | Op.writeMsg m =>
    m.error.isSome = true → (m.status = Status.creating ∨ m.status = Status.stopped)
  | Op.remountReadonly => False
  | Op.setUmask _ => False
  | _ => True

def GoodOps (ops : List Op) : Prop := ∀ op ∈ ops, GoodOp op

/-- The operations of an indexed loop whose every iteration succeeds. -/
def opsIdx {β : Type} (h : Nat → β → List Op) : Nat → List β → List Op
  | _, [] => []
  | i, x :: xs => h i x ++ opsIdx h (i + 1) xs

/-- A concrete bundle for exercising the error-reporting pipeline: a root,
no mounts, no linux section, and a single `createContainer` hook. -/
def hookC7 : Hook :=
  { path := "/bin/hook", args := none, env := none, timeout := none }

def specC7 : Spec :=
  { root := some { path := "rootfs", readonly := some false }
    mounts := none
    linux := none
    hostname := none
    hooks := some { prestart := none, createRuntime := none
                    createContainer := some [hookC7], startContainer := none
                    poststart := none, poststop := none }
    process := none }

def stC7 : State := State.new "c7" "/bundle"

/-- The environment in which exactly the first `createContainer` hook
fails, with error text "E". -/
def envC7 : Env :=
  { fails := fun t => decide (t = Step.createContainerHook 0)
    errText := fun _ => "E"
    destExists := fun _ => true }

/-! ## Theorems -/

/-! ### Combinator lemmas for run traces -/

theorem errMsgs_nil : errMsgs [] = [] := rfl

theorem errMsgs_append (a b : List Op) :
    errMsgs (a ++ b) = errMsgs a ++ errMsgs b := by
  simp [errMsgs]

theorem runSeq_of_none {α : Type} (a b : Run α) (h : a.2 = none) :
    runSeq a b = (a.1 ++ b.1, b.2) := by
  obtain ⟨ops, e⟩ := a
  cases e with
  | none => rfl
  | some e => simp at h

theorem runSeq_of_some {α : Type} (a b : Run α) (e : α) (h : a.2 = some e) :
    runSeq a b = (a.1, some e) := by
  obtain ⟨ops, e'⟩ := a
  cases e' with
  | none => simp at h
  | some e' =>
    simp only [Option.some.injEq] at h
    subst h
    rfl

theorem runSeq_ok_ok (a b : List Op) :
    runSeq (Run.ok a) (Run.ok b) = (Run.ok (a ++ b) : Run ChildExit) := rfl

theorem runSeq_ok_halt (a b : List Op) (e : ChildExit) :
    runSeq (Run.ok a) (Run.halt b e) = Run.halt (a ++ b) e := rfl

theorem CleanRun.seq {α : Type} {a b : Run α} (ha : CleanRun a)
    (hb : CleanRun b) : CleanRun (runSeq a b) := by
  rw [runSeq_of_none a b ha.2]
  exact ⟨by rw [errMsgs_append, ha.1, hb.1]; rfl, hb.2⟩

theorem cleanRun_ok {α : Type} (ops : List Op) (h : errMsgs ops = []) :
    CleanRun (Run.ok ops : Run α) := ⟨h, rfl⟩

theorem cleanRun_runListIdx {α β : Type} (g : Nat → β → Run α) (st : Nat)
    (l : List β) (h : ∀ j x, l[j]? = some x → CleanRun (g (st + j) x)) :
    CleanRun (runListIdx g st l) := by
  induction l generalizing st with
  | nil => exact ⟨rfl, rfl⟩
  | cons x xs ih =>
    refine CleanRun.seq (by simpa using h 0 x (by simp)) (ih (st + 1) ?_)
    intro j y hy
    have h2 := h (j + 1) y (by simpa using hy)
    rw [show st + 1 + j = st + (j + 1) by omega]
    exact h2

theorem FailsWith.seq_left {a b : Run ChildExit} {m : SocketMessage}
    (h : FailsWith a m) : FailsWith (runSeq a b) m := by
  rw [runSeq_of_some a b _ h.2]
  exact ⟨h.1, rfl⟩

theorem FailsWith.seq_right {a b : Run ChildExit} {m : SocketMessage}
    (ha : CleanRun a) (h : FailsWith b m) : FailsWith (runSeq a b) m := by
  rw [runSeq_of_none a b ha.2]
  exact ⟨by rw [errMsgs_append, ha.1, h.1]; rfl, h.2⟩

theorem failsWith_runListIdx {β : Type} (g : Nat → β → Run ChildExit)
    (st : Nat) (l : List β) (i : Nat) (x : β) (m : SocketMessage)
    (hx : l[i]? = some x)
    (hclean : ∀ j y, j < i → l[j]? = some y → CleanRun (g (st + j) y))
    (hf : FailsWith (g (st + i) x) m) :
    FailsWith (runListIdx g st l) m := by
  induction l generalizing st i with
  | nil => simp at hx
  | cons z zs ih =>
    cases i with
    | zero =>
      simp only [List.getElem?_cons_zero, Option.some.injEq] at hx
      subst hx
      exact FailsWith.seq_left (by simpa using hf)
    | succ i' =>
      refine FailsWith.seq_right (by simpa using hclean 0 z (by omega) (by simp)) ?_
      refine ih (st + 1) i' (by simpa using hx) ?_ ?_
      · intro j y hj hy
        have h2 := hclean (j + 1) y (by omega) (by simpa using hy)
        rw [show st + 1 + j = st + (j + 1) by omega]
        exact h2
      · rw [show st + 1 + i' = st + (i' + 1) by omega]
        exact hf

theorem tryCall_fst {α : Type} (b : Bool) (ops : List Op) (e : α) :
    (tryCall b ops e).1 = ops := by
  cases b <;> rfl

theorem errHalt_tryCall (ops : List Op) (e : String)
    (h : errMsgs ops = []) : ErrHalt (tryCall true ops e) e := ⟨h, rfl⟩

theorem cleanRun_tryCall {α : Type} (ops : List Op) (e : α)
    (h : errMsgs ops = []) : CleanRun (tryCall false ops e) := ⟨h, rfl⟩

theorem cleanRun_tryStep (env : Env) (s : Step) (attempt : List Op)
    (st : Status) (fmt : String → String) (hf : env.fails s = false)
    (h : errMsgs attempt = []) :
    CleanRun (tryStep env s attempt st fmt) := by
  unfold tryStep
  rw [hf]
  exact ⟨h, rfl⟩

theorem failsWith_tryStep (env : Env) (s : Step) (attempt : List Op)
    (st : Status) (fmt : String → String) (hf : env.fails s = true)
    (h : errMsgs attempt = []) :
    FailsWith (tryStep env s attempt st fmt)
      { status := st, error := some { message := fmt (env.errText s) } } := by
  unfold tryStep
  rw [hf]
  refine ⟨?_, rfl⟩
  rw [if_pos rfl]
  show errMsgs (attempt ++ _) = _
  rw [errMsgs_append, h]
  rfl

theorem cleanRun_tryPrint (env : Env) (s : Step) (attempt : List Op)
    (fmt : String → String) (h : errMsgs attempt = []) :
    CleanRun (tryPrint env s attempt fmt) := by
  unfold tryPrint
  cases env.fails s with
  | false => exact ⟨h, rfl⟩
  | true =>
    refine ⟨?_, rfl⟩
    rw [if_pos rfl]
    show errMsgs (attempt ++ _) = _
    rw [errMsgs_append, h]
    rfl

theorem cleanRun_mapErrToWrite (r : Run String) (st : Status)
    (fmt : String → String) (h : CleanRun r) :
    CleanRun (mapErrToWrite r st fmt) := by
  obtain ⟨ops, e⟩ := r
  cases e with
  | none => exact ⟨h.1, rfl⟩
  | some e => simpa using h.2

theorem failsWith_mapErrToWrite (r : Run String) (e : String) (st : Status)
    (fmt : String → String) (h : ErrHalt r e) :
    FailsWith (mapErrToWrite r st fmt)
      { status := st, error := some { message := fmt e } } := by
  obtain ⟨ops, e'⟩ := r
  cases e' with
  | none => simpa using h.2
  | some e' =>
    have he : e' = e := by simpa using h.2
    subst he
    refine ⟨?_, rfl⟩
    show errMsgs (ops ++ _) = _
    rw [errMsgs_append, h.1]
    rfl

theorem cleanRun_mapErrToPanic (r : Run String) (h : CleanRun r) :
    CleanRun (mapErrToPanic r) := by
  obtain ⟨ops, e⟩ := r
  cases e with
  | none => exact ⟨h.1, rfl⟩
  | some e => simpa using h.2

theorem runListIdx_ok {α β : Type} (g : Nat → β → Run α)
    (h : Nat → β → List Op) (st : Nat) (l : List β)
    (hyp : ∀ j x, l[j]? = some x → g (st + j) x = Run.ok (h (st + j) x)) :
    runListIdx g st l = Run.ok (opsIdx h st l) := by
  induction l generalizing st with
  | nil => rfl
  | cons x xs ih =>
    show runSeq (g st x) (runListIdx g (st + 1) xs) = _
    have h0 := hyp 0 x (by simp)
    rw [show st + 0 = st by omega] at h0
    rw [h0, ih (st + 1) ?_]
    · rfl
    · intro j y hy
      have h2 := hyp (j + 1) y (by simpa using hy)
      rw [show st + 1 + j = st + (j + 1) by omega]
      exact h2

theorem opsIdx_singleton {β : Type} (f : Nat → Op) (st : Nat) (l : List β) :
    opsIdx (fun j _ => [f j]) st l = (List.range' st l.length).map f := by
  induction l generalizing st with
  | nil => rfl
  | cons x xs ih =>
    show [f st] ++ opsIdx (fun j _ => [f j]) (st + 1) xs = _
    rw [ih (st + 1)]
    simp [List.range'_succ]

theorem opsIdx_elem_single {β : Type} (k : β → Op) (st : Nat) (l : List β) :
    opsIdx (fun _ y => [k y]) st l = l.map k := by
  induction l generalizing st with
  | nil => rfl
  | cons x xs ih =>
    show [k x] ++ opsIdx (fun _ y => [k y]) (st + 1) xs = _
    rw [ih (st + 1)]
    rfl

/-! ### The trace invariant: error messages are never `running`, and the
child performs no read-only remount and no umask call -/

theorem goodOps_nil : GoodOps [] := by
  intro op h
  simp at h

theorem goodOps_append {a b : List Op} (ha : GoodOps a) (hb : GoodOps b) :
    GoodOps (a ++ b) := by
  intro op h
  rcases List.mem_append.mp h with h | h
  · exact ha op h
  · exact hb op h

theorem goodOps_ok {α : Type} (ops : List Op) (h : GoodOps ops) :
    GoodOps ((Run.ok ops : Run α)).1 := h

theorem goodOps_halt {α : Type} (ops : List Op) (e : α) (h : GoodOps ops) :
    GoodOps ((Run.halt ops e : Run α)).1 := h

theorem goodOps_runSeq {α : Type} (a b : Run α) (ha : GoodOps a.1)
    (hb : GoodOps b.1) : GoodOps (runSeq a b).1 := by
  obtain ⟨ops, e⟩ := a
  cases e with
  | none => exact goodOps_append ha hb
  | some e => exact ha

theorem goodOps_runListIdx {α β : Type} (g : Nat → β → Run α) (st : Nat)
    (l : List β) (h : ∀ j x, GoodOps (g j x).1) :
    GoodOps (runListIdx g st l).1 := by
  induction l generalizing st with
  | nil => exact goodOps_nil
  | cons x xs ih => exact goodOps_runSeq _ _ (h st x) (ih (st + 1))

theorem goodOps_tryCall {α : Type} (b : Bool) (ops : List Op) (e : α)
    (h : GoodOps ops) : GoodOps (tryCall b ops e).1 := by
  rw [tryCall_fst]
  exact h

theorem goodOps_err_write (st : Status) (msg : RuntimeError)
    (hst : st = Status.creating ∨ st = Status.stopped) :
    GoodOps [Op.writeMsg { status := st, error := some msg }, Op.exitCall 1] := by
  intro op hop
  rcases List.mem_cons.mp hop with rfl | hop
  · show GoodOp (Op.writeMsg { status := st, error := some msg })
    simp only [GoodOp]
    intro _
    exact hst
  · rcases List.mem_cons.mp hop with rfl | hop
    · simp [GoodOp]
    · simp at hop

theorem goodOps_singleton (op : Op) (h : GoodOp op) : GoodOps [op] := by
  intro o ho
  rcases List.mem_singleton.mp ho with rfl
  exact h

theorem goodOps_tryStep (env : Env) (s : Step) (attempt : List Op)
    (st : Status) (fmt : String → String)
    (hst : st = Status.creating ∨ st = Status.stopped)
    (h : GoodOps attempt) : GoodOps (tryStep env s attempt st fmt).1 := by
  unfold tryStep
  cases env.fails s with
  | false => exact h
  | true =>
    rw [if_pos rfl]
    exact goodOps_halt _ _ (goodOps_append h (goodOps_err_write st _ hst))

theorem goodOps_tryPrint (env : Env) (s : Step) (attempt : List Op)
    (fmt : String → String) (h : GoodOps attempt) :
    GoodOps (tryPrint env s attempt fmt).1 := by
  unfold tryPrint
  cases env.fails s with
  | false => exact h
  | true =>
    rw [if_pos rfl]
    refine goodOps_ok _ (goodOps_append h ?_)
    exact goodOps_singleton _ (by simp [GoodOp])

theorem goodOps_mapErrToWrite (r : Run String) (st : Status)
    (fmt : String → String)
    (hst : st = Status.creating ∨ st = Status.stopped)
    (h : GoodOps r.1) : GoodOps (mapErrToWrite r st fmt).1 := by
  obtain ⟨ops, e⟩ := r
  cases e with
  | none => exact h
  | some e => exact goodOps_append h (goodOps_err_write st _ hst)

theorem goodOps_mapErrToPanic (r : Run String) (h : GoodOps r.1) :
    GoodOps (mapErrToPanic r).1 := by
  obtain ⟨ops, e⟩ := r
  cases e <;> exact h

theorem goodOps_create_device (env : Env) (smk scu scg : Step)
    (rootfs : String) (d : LinuxDevice) :
    GoodOps (create_device_run env smk scu scg rootfs d).1 := by
  rcases hu : d.uid with _ | u <;> rcases hg : d.gid with _ | g <;>
    simp only [create_device_run, hu, hg] <;>
    apply goodOps_runSeq _ _
      (goodOps_tryCall _ _ _ (goodOps_singleton _ (by simp [GoodOp]))) <;>
    apply goodOps_runSeq <;>
    first
      | exact goodOps_ok _ goodOps_nil
      | exact goodOps_tryCall _ _ _ (goodOps_singleton _ (by simp [GoodOp]))

theorem goodOps_default_devices (env : Env) (rootfs : String) :
    GoodOps (create_default_device_run env rootfs).1 := by
  unfold create_default_device_run
  apply goodOps_runListIdx
  intro j x
  exact goodOps_mapErrToPanic _ (goodOps_create_device _ _ _ _ _ _)

theorem goodOps_default_symlinks (env : Env) (rootfs : String) :
    GoodOps (create_default_symlink_run env rootfs).1 := by
  unfold create_default_symlink_run
  apply goodOps_runListIdx
  intro j x
  exact goodOps_tryCall _ _ _ (goodOps_singleton _ (by simp [GoodOp]))

theorem goodOps_mount_rootfs (env : Env) (rootfs : String) :
    GoodOps (mount_rootfs_run env rootfs).1 := by
  unfold mount_rootfs_run
  apply goodOps_runSeq <;>
    exact goodOps_tryCall _ _ _ (goodOps_singleton _ (by simp [GoodOp]))

theorem goodOps_oci_mount (env : Env) (rootfs : String) (i : Nat) (m : Mount) :
    GoodOps (oci_mount_run env rootfs i m).1 := by
  cases hd : env.destExists i <;>
    simp only [oci_mount_run, hd] <;>
    apply goodOps_runSeq <;>
    first
      | exact goodOps_ok _ goodOps_nil
      | exact goodOps_tryCall _ _ _ (goodOps_singleton _ (by simp [GoodOp]))
      | simp only [Bool.false_eq_true, if_false]
        exact goodOps_tryCall _ _ _ (goodOps_singleton _ (by simp [GoodOp]))
      | simp only [if_true]
        exact goodOps_ok _ goodOps_nil

theorem goodOps_pivot_rootfs (env : Env) (rootfs : String) :
    GoodOps (pivot_rootfs_run env rootfs).1 := by
  unfold pivot_rootfs_run
  apply goodOps_runSeq
  · exact goodOps_tryCall _ _ _ (goodOps_singleton _ (by simp [GoodOp]))
  apply goodOps_runSeq
  · exact goodOps_tryCall _ _ _ (goodOps_singleton _ (by simp [GoodOp]))
  apply goodOps_runSeq
  · exact goodOps_tryCall _ _ _ (goodOps_singleton _ (by simp [GoodOp]))
  apply goodOps_runSeq
  · exact goodOps_tryCall _ _ _ (goodOps_singleton _ (by simp [GoodOp]))
  apply goodOps_runSeq
  · exact goodOps_tryCall _ _ _ (goodOps_singleton _ (by simp [GoodOp]))
  · exact goodOps_tryCall _ _ _ (goodOps_singleton _ (by simp [GoodOp]))

theorem goodOps_ns_join (env : Env) (i : Nat) (ns : LinuxNamespace) :
    GoodOps (ns_join_run env i ns).1 := by
  rcases hp : ns.path with _ | p <;> simp only [ns_join_run, hp]
  · exact goodOps_ok _ goodOps_nil
  · apply goodOps_runSeq <;>
      exact goodOps_tryStep _ _ _ _ _ (Or.inl rfl)
        (goodOps_singleton _ (by simp [GoodOp]))

theorem goodOps_config_devices (env : Env) (rootfs : String) (spec : Spec) :
    GoodOps (config_devices_run env rootfs spec).1 := by
  rcases h1 : spec.linux with _ | lx
  · simp only [config_devices_run, h1]
    exact goodOps_nil
  · rcases h2 : lx.devices with _ | ds <;> simp only [config_devices_run, h1, h2]
    · exact goodOps_nil
    · apply goodOps_runListIdx
      intro j x
      exact goodOps_mapErrToWrite _ _ _ (Or.inl rfl)
        (goodOps_create_device _ _ _ _ _ _)

theorem goodOps_hostname (env : Env) (spec : Spec) :
    GoodOps (hostname_run env spec).1 := by
  rcases hh : spec.hostname with _ | h <;> simp only [hostname_run, hh]
  · exact goodOps_nil
  · cases hf : env.fails Step.hostname
    · simp only [Bool.false_eq_true, if_false]
      exact goodOps_ok _ (goodOps_singleton _ (by simp [GoodOp]))
    · rw [if_pos rfl]
      exact goodOps_halt _ _ (goodOps_singleton _ (by simp [GoodOp]))

theorem goodOps_create_container_hooks (env : Env) (spec : Spec) :
    GoodOps (create_container_hooks_run env spec).1 := by
  rcases h1 : spec.hooks with _ | hs
  · simp only [create_container_hooks_run, h1]
    exact goodOps_nil
  · rcases h2 : hs.createContainer with _ | l <;>
      simp only [create_container_hooks_run, h1, h2]
    · exact goodOps_nil
    · apply goodOps_runListIdx
      intro j x
      exact goodOps_tryStep _ _ _ _ _ (Or.inr rfl)
        (goodOps_singleton _ (by simp [GoodOp]))

theorem goodOps_sysctl (env : Env) (spec : Spec) :
    GoodOps (sysctl_run env spec).1 := by
  rcases h1 : spec.linux with _ | lx
  · simp only [sysctl_run, h1]
    exact goodOps_nil
  · rcases h2 : lx.sysctl with _ | kvs <;> simp only [sysctl_run, h1, h2]
    · exact goodOps_nil
    · apply goodOps_runListIdx
      intro j x
      exact goodOps_tryStep _ _ _ _ _ (Or.inr rfl)
        (goodOps_singleton _ (by simp [GoodOp]))

theorem goodOps_start_hooks (env : Env) (spec : Spec) :
    GoodOps (start_container_hooks_run env spec).1 := by
  rcases h1 : spec.hooks with _ | hs
  · simp only [start_container_hooks_run, h1]
    exact goodOps_nil
  · rcases h2 : hs.startContainer with _ | l <;>
      simp only [start_container_hooks_run, h1, h2]
    · exact goodOps_nil
    · apply goodOps_runListIdx
      intro j x
      exact goodOps_tryStep _ _ _ _ _ (Or.inr rfl)
        (goodOps_singleton _ (by simp [GoodOp]))

theorem goodOps_one_cap (env : Env) (o : Option (List String)) (w : CapSet) :
    GoodOps (one_cap_run env o w).1 := by
  rcases ho : o with _ | c <;> simp only [one_cap_run, ho]
  · exact goodOps_nil
  · exact goodOps_tryPrint _ _ _ _ (goodOps_singleton _ (by simp [GoodOp]))

theorem goodOps_env_sets (p : Process) :
    GoodOps ((p.env.getD []).filterMap fun s =>
      (splitOnceEq s).map fun kv => Op.setEnv kv.1 kv.2) := by
  intro op hop
  rcases List.mem_filterMap.mp hop with ⟨s, _, hs⟩
  rcases Option.map_eq_some'.mp hs with ⟨kv, _, hkv⟩
  subst hkv
  simp [GoodOp]

theorem goodOps_rlimits (env : Env) (p : Process) :
    GoodOps (rlimits_run env p).1 := by
  rcases hr : p.rlimits with _ | rl <;> simp only [rlimits_run, hr]
  · exact goodOps_nil
  · apply goodOps_runListIdx
    intro j x
    exact goodOps_tryStep _ _ _ _ _ (Or.inr rfl)
      (goodOps_singleton _ (by simp [GoodOp]))

theorem goodOps_oom (env : Env) (p : Process) :
    GoodOps (oom_run env p).1 := by
  rcases ho : p.oomScoreAdj with _ | n <;> simp only [oom_run, ho]
  · exact goodOps_nil
  · exact goodOps_tryStep _ _ _ _ _ (Or.inr rfl)
      (goodOps_singleton _ (by simp [GoodOp]))

theorem goodOps_bounding (env : Env) (p : Process) :
    GoodOps (bounding_run env p).1 := by
  rcases hc : p.capabilities with _ | c <;> simp only [bounding_run, hc]
  · exact goodOps_nil
  · rcases hb : c.bounding with _ | b <;> simp only [hb]
    · exact goodOps_nil
    · exact goodOps_tryPrint _ _ _ _ (goodOps_singleton _ (by simp [GoodOp]))

theorem goodOps_groups (env : Env) (p : Process) :
    GoodOps (groups_run env p).1 := by
  rcases hg : p.user.additionalGids with _ | gids <;> simp only [groups_run, hg]
  · exact goodOps_nil
  · exact goodOps_tryStep _ _ _ _ _ (Or.inr rfl)
      (goodOps_singleton _ (by simp [GoodOp]))

theorem goodOps_cap_sets (env : Env) (p : Process) :
    GoodOps (cap_sets_run env p).1 := by
  rcases hc : p.capabilities with _ | c <;> simp only [cap_sets_run, hc]
  · exact goodOps_nil
  · apply goodOps_runSeq _ _ (goodOps_one_cap _ _ _)
    apply goodOps_runSeq _ _ (goodOps_one_cap _ _ _)
    apply goodOps_runSeq _ _ (goodOps_one_cap _ _ _) (goodOps_one_cap _ _ _)

theorem goodOps_process_run (env : Env) (spec : Spec) :
    GoodOps (process_run env spec).1 := by
  rcases hp : spec.process with _ | p
  · simp only [process_run, hp]
    exact goodOps_halt _ _ (goodOps_err_write Status.stopped _ (Or.inr rfl))
  rcases ha : p.args with _ | args
  · simp only [process_run, hp, ha]
    exact goodOps_halt _ _ goodOps_nil
  rcases args with _ | ⟨a0, rest⟩
  · simp only [process_run, hp, ha]
    exact goodOps_halt _ _ goodOps_nil
  simp only [process_run, hp, ha]
  apply goodOps_runSeq _ _ (goodOps_ok _ (goodOps_env_sets p))
  apply goodOps_runSeq _ _ (goodOps_rlimits env p)
  apply goodOps_runSeq _ _ (goodOps_oom env p)
  apply goodOps_runSeq _ _ (goodOps_bounding env p)
  apply goodOps_runSeq
  · exact goodOps_tryStep _ _ _ _ _ (Or.inr rfl)
      (goodOps_singleton _ (by simp [GoodOp]))
  apply goodOps_runSeq
  · exact goodOps_tryStep _ _ _ _ _ (Or.inr rfl)
      (goodOps_singleton _ (by simp [GoodOp]))
  apply goodOps_runSeq _ _ (goodOps_groups env p)
  apply goodOps_runSeq
  · exact goodOps_tryStep _ _ _ _ _ (Or.inr rfl)
      (goodOps_singleton _ (by simp [GoodOp]))
  apply goodOps_runSeq
  · exact goodOps_tryStep _ _ _ _ _ (Or.inr rfl)
      (goodOps_singleton _ (by simp [GoodOp]))
  apply goodOps_runSeq _ _ (goodOps_cap_sets env p)
  apply goodOps_runSeq
  · exact goodOps_tryStep _ _ _ _ _ (Or.inr rfl)
      (goodOps_singleton _ (by simp [GoodOp]))
  apply goodOps_runSeq
  · exact goodOps_ok _ (goodOps_singleton _ (by simp [GoodOp]))
  · cases hf : env.fails Step.execvp
    · simp only [Bool.false_eq_true, if_false]
      exact goodOps_halt _ _ (goodOps_singleton _ (by simp [GoodOp]))
    · rw [if_pos rfl]
      refine goodOps_halt _ _ ?_
      intro op hop
      rcases List.mem_cons.mp hop with rfl | hop
      · simp [GoodOp]
      · rcases List.mem_cons.mp hop with rfl | hop
        · show GoodOp (Op.writeMsg _)
          simp only [GoodOp]
          intro _
          simp
        · rcases List.mem_cons.mp hop with rfl | hop
          · simp [GoodOp]
          · simp at hop

theorem goodOps_start_phase (env : Env) (spec : Spec) :
    GoodOps (start_phase_run env spec).1 := by
  unfold start_phase_run
  exact goodOps_runSeq _ _ (goodOps_start_hooks env spec)
    (goodOps_process_run env spec)

/-- The central trace invariant of the child pipeline: no error message
carries status `running`, and the trace contains no read-only remount and
no umask call. -/
theorem goodOps_childRun (namespaces : List LinuxNamespace) (spec : Spec)
    (st : State) (env : Env) :
    GoodOps (childRun namespaces spec st env).1 := by
  rcases hroot : spec.root with _ | root <;> simp only [childRun, hroot]
  · apply goodOps_runSeq _ _ (goodOps_ok _ (goodOps_singleton _ (by simp [GoodOp])))
    apply goodOps_runSeq
    · exact goodOps_runListIdx _ _ _ (fun j x => goodOps_ns_join env j x)
    · exact goodOps_halt _ _ goodOps_nil
  · apply goodOps_runSeq _ _ (goodOps_ok _ (goodOps_singleton _ (by simp [GoodOp])))
    apply goodOps_runSeq
    · exact goodOps_runListIdx _ _ _ (fun j x => goodOps_ns_join env j x)
    apply goodOps_runSeq
    · exact goodOps_mapErrToWrite _ _ _ (Or.inl rfl) (goodOps_mount_rootfs _ _)
    apply goodOps_runSeq
    · rcases hm : spec.mounts with _ | ms <;> simp only [hm]
      · exact goodOps_nil
      · apply goodOps_runListIdx
        intro j x
        exact goodOps_mapErrToWrite _ _ _ (Or.inl rfl) (goodOps_oci_mount _ _ _ _)
    apply goodOps_runSeq
    · exact goodOps_config_devices _ _ _
    apply goodOps_runSeq
    · exact goodOps_default_devices _ _
    apply goodOps_runSeq
    · exact goodOps_mapErrToWrite _ _ _ (Or.inl rfl) (goodOps_default_symlinks _ _)
    apply goodOps_runSeq
    · exact goodOps_hostname _ _
    apply goodOps_runSeq
    · refine goodOps_ok _ ?_
      intro op hop
      rcases List.mem_cons.mp hop with rfl | hop
      · show GoodOp (Op.writeMsg _)
        simp only [GoodOp]
        intro h
        simp at h
      · rcases List.mem_cons.mp hop with rfl | hop
        · simp [GoodOp]
        · simp at hop
    apply goodOps_runSeq
    · exact goodOps_create_container_hooks _ _
    apply goodOps_runSeq
    · exact goodOps_mapErrToWrite _ _ _ (Or.inl rfl) (goodOps_pivot_rootfs _ _)
    apply goodOps_runSeq
    · exact goodOps_sysctl _ _
    apply goodOps_runSeq
    · refine goodOps_ok _ ?_
      intro op hop
      rcases List.mem_cons.mp hop with rfl | hop
      · show GoodOp (Op.writeMsg _)
        simp only [GoodOp]
        intro h
        simp at h
      · rcases List.mem_cons.mp hop with rfl | hop
        · simp [GoodOp]
        · simp at hop
    · exact goodOps_start_phase _ _

/-- Helper: `refresh` is the identity when the recorded pid is `-1`
(the early return in `State::refresh`). -/
theorem refresh_eq_of_pid_neg_one (s : State) (probe : Option ProcState)
    (h : s.pid = -1) : s.refresh probe = s := by
  simp [State.refresh, h]

/-- Helper: iterating `refresh` over any sequence of `/proc` probes leaves
a `pid = -1` state unchanged. -/
theorem foldl_refresh_eq_of_pid_neg_one (s : State)
    (probes : List (Option ProcState)) (h : s.pid = -1) :
    probes.foldl State.refresh s = s := by
  induction probes with
  | nil => rfl
  | cons p ps ih => simp [List.foldl_cons, refresh_eq_of_pid_neg_one s p h, ih]

/-- C6 (counterexample): a persisted state with `status = stopped` and a
recorded pid whose `/proc` entry reports `R` (running) is moved by
`refresh` to `running`, contradicting the claim that `refresh` leaves a
stopped container stopped whatever `/proc` reports. -/
theorem refresh_stopped_counterexample :
    (State.refresh
      { ociVersion := "1.0.2", id := "c1", bundle := "/bundle"
        status := Status.stopped, pid := 42 }
      (some ProcState.running)).status = Status.running ∧
    Status.running ≠ Status.stopped := by
  constructor
  · rfl
  · decide

/-- C6 (amended): `refresh` on a stopped container keeps the status
`stopped` when the pid is `-1`, or when `/proc` is unreadable, or when it
reports any state other than `R`, `S`, `D`; but when the recorded pid is
live (`R`, `S` or `D`), `refresh` moves the status to `running` — it does
not guard against leaving `stopped`. -/
theorem refresh_stopped_amended (s : State) (probe : Option ProcState)
    (h : s.status = Status.stopped) :
    (s.refresh probe).status =
      if s.pid ≠ -1 ∧ (probe = some ProcState.running ∨
          probe = some ProcState.sleeping ∨ probe = some ProcState.waiting)
      then Status.running else Status.stopped := by
  by_cases hp : s.pid = -1
  · simp [State.refresh, hp, h]
  · cases probe with
    | none => simp [State.refresh, hp]
    | some ps => cases ps <;> simp [State.refresh, hp, h]

/-- Witness for `refresh_stopped_amended` at a concrete stopped state whose
process is reported as a zombie. -/
theorem refresh_stopped_amended_witness :
    (State.refresh
      { ociVersion := "1.0.2", id := "c1", bundle := "/bundle"
        status := Status.stopped, pid := 7 }
      (some ProcState.zombie)).status = Status.stopped := by
  have h := refresh_stopped_amended
    { ociVersion := "1.0.2", id := "c1", bundle := "/bundle"
      status := Status.stopped, pid := 7 }
    (some ProcState.zombie) rfl
  simpa using h

/-- C10: `refresh` is a no-op when the recorded pid is `-1`, so a persisted
state with `status = creating` and `pid = -1` is reported as `creating` by
every subsequent `state` invocation (each of which refreshes and persists),
and no sequence of refreshes ever moves it to `stopped`. -/
theorem refresh_noop_creating_pid_neg_one (s : State)
    (hpid : s.pid = -1) (hst : s.status = Status.creating) :
    (∀ probe, s.refresh probe = s) ∧
    (∀ probes : List (Option ProcState),
      (probes.foldl State.refresh s).status = Status.creating) ∧
    (∀ (probes : List (Option ProcState)) (probe : Option ProcState),
      stateVerbStatus (probes.foldl State.refresh s) probe = Status.creating) ∧
    (∀ probes : List (Option ProcState),
      (probes.foldl State.refresh s).status ≠ Status.stopped) := by
  refine ⟨fun probe => refresh_eq_of_pid_neg_one s probe hpid, ?_, ?_, ?_⟩
  · intro probes
    rw [foldl_refresh_eq_of_pid_neg_one s probes hpid, hst]
  · intro probes probe
    rw [foldl_refresh_eq_of_pid_neg_one s probes hpid]
    rw [stateVerbStatus, refresh_eq_of_pid_neg_one s probe hpid, hst]
  · intro probes
    rw [foldl_refresh_eq_of_pid_neg_one s probes hpid, hst]
    decide

/-- Witness for `refresh_noop_creating_pid_neg_one` at the freshly created
state record for a concrete container. -/
theorem refresh_noop_creating_pid_neg_one_witness :
    ((State.new "c1" "/bundle").refresh (some ProcState.running)
      = State.new "c1" "/bundle") ∧
    (([some ProcState.running, none].foldl State.refresh
      (State.new "c1" "/bundle")).status = Status.creating) := by
  have h := refresh_noop_creating_pid_neg_one (State.new "c1" "/bundle") rfl rfl
  exact ⟨h.1 (some ProcState.running), h.2.1 [some ProcState.running, none]⟩

/-- Helper: `clone_flags` equals a fold of bitwise-or over all entries. -/
theorem clone_flags_eq_foldl (namespaces : List LinuxNamespace) :
    clone_flags namespaces =
      namespaces.foldl (fun a ns => a ||| namespace_to_clone_flag ns) 0 := by
  cases namespaces with
  | nil => rfl
  | cons ns rest =>
    simp only [clone_flags, List.map_cons, List.foldl_cons, List.foldl_map,
      Nat.zero_or]

/-- Helper: bit `i` of the or-fold is set iff it is set in the accumulator
or in some list element's flag. -/
theorem testBit_clone_foldl (namespaces : List LinuxNamespace) (a : Nat)
    (i : Nat) :
    (namespaces.foldl (fun a ns => a ||| namespace_to_clone_flag ns) a).testBit
        i =
      (a.testBit i ||
        namespaces.any fun ns => (namespace_to_clone_flag ns).testBit i) := by
  induction namespaces generalizing a with
  | nil => simp
  | cons ns rest ih =>
    simp [List.foldl_cons, ih, Nat.testBit_lor, Bool.or_assoc]

theorem cloneFlagOfType_eq_two_pow (k : NamespaceType) :
    cloneFlagOfType k = 2 ^ cloneFlagBit k := by
  cases k <;> rfl

theorem testBit_namespace_flag (ns : LinuxNamespace) (k : NamespaceType) :
    (namespace_to_clone_flag ns).testBit (cloneFlagBit k) =
      decide (ns.typ = k) := by
  obtain ⟨t, p⟩ := ns
  cases t <;> cases k <;>
    simp [namespace_to_clone_flag, cloneFlagBit] <;> decide

/-- Helper: containment of a single-bit flag is `testBit`. -/
theorem and_two_pow_eq_iff (w b : Nat) :
    w &&& 2 ^ b = 2 ^ b ↔ w.testBit b := by
  rw [Nat.and_two_pow]
  cases h : w.testBit b with
  | true => simp
  | false => simpa using (pow_pos (by norm_num : (0 : Nat) < 2) b).ne

/-- C2 (counterexample): a namespace list whose single entry has kind `pid`
and a *non-empty* path yields the flag word `CLONE_NEWPID`, not the empty
word the claim requires, so the claimed property fails. -/
theorem clone_flags_counterexample :
    clone_flags [{ typ := NamespaceType.pid, path := some "/proc/1/ns/pid" }]
        = 0x20000000 ∧
    ¬ claimC2Property
        [{ typ := NamespaceType.pid, path := some "/proc/1/ns/pid" }] := by
  constructor
  · rfl
  · intro h
    have := (h NamespaceType.pid).mp (by decide)
    simp at this

/-- C2 (amended): the flag word contains the clone flag of a namespace kind
iff some entry of that kind appears in the list, *regardless of its `path`
field* (entries with a non-empty path contribute their clone flag too); an
empty namespace list yields an empty flag word. -/
theorem clone_flags_amended (namespaces : List LinuxNamespace)
    (k : NamespaceType) :
    (clone_flags namespaces &&& cloneFlagOfType k = cloneFlagOfType k ↔
      ∃ ns ∈ namespaces, ns.typ = k) ∧
    clone_flags [] = 0 := by
  refine ⟨?_, rfl⟩
  rw [cloneFlagOfType_eq_two_pow, and_two_pow_eq_iff, clone_flags_eq_foldl,
    testBit_clone_foldl]
  simp [testBit_namespace_flag]

/-- Witness for `clone_flags_amended`: a pid-namespace entry with a path
still contributes `CLONE_NEWPID`. -/
theorem clone_flags_amended_witness :
    clone_flags [{ typ := NamespaceType.pid, path := some "/proc/1/ns/pid" }]
        &&& cloneFlagOfType NamespaceType.pid
      = cloneFlagOfType NamespaceType.pid :=
  (clone_flags_amended
      [{ typ := NamespaceType.pid, path := some "/proc/1/ns/pid" }]
      NamespaceType.pid).1.mpr
    ⟨{ typ := NamespaceType.pid, path := some "/proc/1/ns/pid" },
      by decide, rfl⟩

/-- Helper: clearing a (64-bit) flag leaves its bits cleared, whatever the
prior word was. -/
theorem clearFlag_and_self (w f : Nat) (hf : f < 2 ^ 64) :
    clearFlag w f &&& f = 0 := by
  apply Nat.eq_of_testBit_eq
  intro i
  simp only [clearFlag, Nat.testBit_land, Nat.testBit_xor, Nat.zero_testBit]
  cases hfi : f.testBit i with
  | false => simp
  | true =>
    have hge : 2 ^ i ≤ f := Nat.testBit_implies_ge hfi
    have hi : i < 64 := by
      by_contra hcon
      push_neg at hcon
      have : 2 ^ 64 ≤ 2 ^ i := Nat.pow_le_pow_right (by norm_num) hcon
      omega
    have hm : mask64.testBit i = true := by
      unfold mask64
      rw [Nat.testBit_two_pow_sub_one]
      simpa using hi
    simp [hm, hfi]

/-- C5 (counterexample): the table recognises 33 distinct option strings,
not 31 as the claim states. -/
theorem mount_option_count_counterexample :
    (∀ o ∈ recognisedMountOptions, (optionTable o).isSome) ∧
    recognisedMountOptions.Nodup ∧
    recognisedMountOptions.length = 33 ∧
    recognisedMountOptions.length ≠ 31 := by
  refine ⟨by decide, by decide, rfl, by decide⟩

/-- C5 (amended): the translation maps `rw` to clearing `MS_RDONLY`,
`nosuid` to setting `MS_NOSUID` and `rbind` to setting `MS_BIND|MS_REC`;
every unrecognised option is appended to the comma-separated data string;
and for each of the set/clear pairs of the table (of its 33 recognised
options), applying the setting option and then its clearing counterpart
leaves the pair's flag bits cleared, from any prior fold state. -/
theorem mount_option_table_amended :
    optionTable "rw" = some (true, MS_RDONLY) ∧
    optionTable "nosuid" = some (false, MS_NOSUID) ∧
    optionTable "rbind" = some (false, MS_BIND ||| MS_REC) ∧
    (∀ (opts : List String) (o : String), optionTable o = none →
      (mountFlagsFold (opts ++ [o])).2 = (mountFlagsFold opts).2 ++ [o]) ∧
    (∀ opts : List String, (options_to_mount_flags (some opts)).2 =
      String.intercalate "," (mountFlagsFold opts).2) ∧
    (∀ (w : Nat) (ds : List String), ∀ p ∈ setClearPairs,
      (applyMountOption (applyMountOption (w, ds) p.1) p.2.1).1 &&& p.2.2
        = 0) := by
  refine ⟨rfl, rfl, rfl, ?_, fun _ => rfl, ?_⟩
  · intro opts o ho
    simp [mountFlagsFold, List.foldl_append, applyMountOption, ho]
  · intro w ds p hp
    simp only [setClearPairs, List.mem_cons, List.not_mem_nil, or_false]
      at hp
    rcases hp with rfl | rfl | rfl | rfl | rfl | rfl | rfl | rfl <;>
      (simp only [applyMountOption, optionTable]
       exact clearFlag_and_self _ _ (by decide))

/-- Witness for `mount_option_table_amended`: `ro` then `rw` on a nonempty
prior word leaves `MS_RDONLY` cleared; `"foo"` is unrecognised and lands in
the data list. -/
theorem mount_option_table_amended_witness :
    ((applyMountOption (applyMountOption (5, []) "ro") "rw").1 &&& MS_RDONLY
      = 0) ∧
    (mountFlagsFold (["ro", "nosuid"] ++ ["foo"])).2 =
      (mountFlagsFold ["ro", "nosuid"]).2 ++ ["foo"] := by
  constructor
  · exact mount_option_table_amended.2.2.2.2.2 5 []
      ("ro", "rw", MS_RDONLY) (by simp [setClearPairs])
  · exact mount_option_table_amended.2.2.2.1 ["ro", "nosuid"] "foo" rfl

/-! ### Claim C8: the `start` verb and child error messages -/

/-- Helper: a message extracted by `errMsgs` was written by a `writeMsg`
operation of the trace and carries an error. -/
theorem mem_errMsgs {ops : List Op} {m : SocketMessage}
    (h : m ∈ errMsgs ops) :
    Op.writeMsg m ∈ ops ∧ m.error.isSome = true := by
  rcases List.mem_filterMap.mp h with ⟨op, hop, hf⟩
  cases op
  case writeMsg m2 =>
    cases hsome : m2.error.isSome
    · simp [errMsgs, hsome] at hf
    · simp only [hsome, if_true] at hf
      have hm2 := Option.some.inj hf
      subst hm2
      exact ⟨hop, hsome⟩
  all_goals simp at hf

/-- C8: every error message the child can emit has a non-`running`
status, and `start` dispatches such a message to success exactly when it
carries the string "container error: the 'process' doesn't exist"; any
other error string is rejected with an error. -/
theorem start_accepts_exactly_no_process (namespaces : List LinuxNamespace)
    (spec : Spec) (st : State) (env : Env) :
    ∀ m ∈ errMsgs (childRun namespaces spec st env).1,
      m.status ≠ Status.running ∧
      ∀ err, m.error = some err →
        ((start_message_dispatch m = StartAction.accept ↔
            err.message = noProcessMsg) ∧
         (err.message ≠ noProcessMsg →
           start_message_dispatch m =
             StartAction.reject
               ("failed to start the container: " ++ err.message))) := by
  intro m hm
  obtain ⟨hmem, hsome⟩ := mem_errMsgs hm
  have hgood := goodOps_childRun namespaces spec st env _ hmem
  have hstatus : m.status = Status.creating ∨ m.status = Status.stopped :=
    hgood hsome
  have hnr : m.status ≠ Status.running := by
    rcases hstatus with h | h <;> simp [h]
  refine ⟨hnr, ?_⟩
  intro err herr
  have hd : start_message_dispatch m =
      if err.message = noProcessMsg then StartAction.accept
      else StartAction.reject
        ("failed to start the container: " ++ err.message) := by
    unfold start_message_dispatch
    rw [if_neg hnr, herr]
  constructor
  · constructor
    · intro hacc
      by_contra hne
      rw [hd, if_neg hne] at hacc
      exact absurd hacc (by simp)
    · intro he
      rw [hd, if_pos he]
  · intro hne
    rw [hd, if_neg hne]

/-- Witness for `start_accepts_exactly_no_process`: the message the child
writes for a bundle without a `process` field is accepted by `start`. -/
theorem start_accepts_exactly_no_process_witness :
    start_message_dispatch
      { status := Status.stopped, error := some { message := noProcessMsg } } =
      StartAction.accept := by
  refine ((start_accepts_exactly_no_process []
    { root := some { path := "rootfs", readonly := none }, mounts := none
      linux := none, hostname := none, hooks := none, process := none }
    (State.new "c1" "/b") allOk
    { status := Status.stopped, error := some { message := noProcessMsg } }
    ?_).2 { message := noProcessMsg } rfl).1.mpr rfl
  decide

/-! ### Claim C3: `pivot_rootfs` and the readonly flag -/

/-- C3 (counterexample): for a readonly root, the sequence the claim
describes ends with a read-only remount, but the code's `pivot_rootfs`
performs no such step and its trace differs from the claimed sequence. -/
theorem pivot_readonly_counterexample :
    Op.remountReadonly ∈ claimed_pivot_sequence "/b/rootfs" true ∧
    Op.remountReadonly ∉ (pivot_rootfs_run allOk "/b/rootfs").1 ∧
    (pivot_rootfs_run allOk "/b/rootfs").1 ≠
      claimed_pivot_sequence "/b/rootfs" true := by
  refine ⟨by decide, by decide, by decide⟩

/-- C3 (amended): `pivot_rootfs` executes exactly `chdir(rootfs)`; create
`rootfs/root_archive`; `pivot_root`; `umount2(./root_archive, MNT_DETACH)`;
remove `./root_archive`; `chdir(/)` — and nothing else: it takes no
readonly input, and no child pipeline run ever performs a read-only
remount, whatever `root.readonly` says. -/
theorem pivot_rootfs_amended :
    (∀ (env : Env) (rootfs : String), (∀ s, env.fails s = false) →
      pivot_rootfs_run env rootfs =
        Run.ok [Op.chdir rootfs, Op.mkdirAll (pathJoin rootfs "root_archive"),
          Op.pivotRoot rootfs (pathJoin rootfs "root_archive"),
          Op.umountDetach "./root_archive", Op.removeDirAll "./root_archive",
          Op.chdir "/"]) ∧
    (∀ (namespaces : List LinuxNamespace) (spec : Spec) (st : State)
        (env : Env),
      Op.remountReadonly ∉ (childRun namespaces spec st env).1) := by
  constructor
  · intro env rootfs h
    simp only [pivot_rootfs_run, h]
    rfl
  · intro namespaces spec st env hmem
    have hg := goodOps_childRun namespaces spec st env _ hmem
    simp [GoodOp] at hg

/-- Witness for `pivot_rootfs_amended`: the all-success run on a concrete
rootfs. -/
theorem pivot_rootfs_amended_witness :
    pivot_rootfs_run allOk "/b/rootfs" =
      Run.ok [Op.chdir "/b/rootfs", Op.mkdirAll "/b/rootfs/root_archive",
        Op.pivotRoot "/b/rootfs" "/b/rootfs/root_archive",
        Op.umountDetach "./root_archive", Op.removeDirAll "./root_archive",
        Op.chdir "/"] := by
  rw [pivot_rootfs_amended.1 allOk "/b/rootfs" (fun _ => rfl)]
  rfl

/-! ### Claim C4: default devices and symlinks -/

/-- C4 (counterexample): `create_default_device` creates seven device
nodes — including `/dev/ptmx` as a character device 5:2 — and the default
symlink list has no `pts/ptmx → /dev/ptmx` entry; the claim's "exactly
six" and "ptmx as a symlink" both fail. -/
theorem default_devices_counterexample :
    default_device_list.length = 7 ∧
    default_device_list.length ≠ 6 ∧
    default_device_list.map LinuxDevice.path =
      ["/dev/null", "/dev/zero", "/dev/full", "/dev/random", "/dev/urandom",
       "/dev/tty", "/dev/ptmx"] ∧
    Op.mknod "/r/dev/ptmx" 8192 54 5 2 ∈
      (create_default_device_run allOk "/r").1 ∧
    ("pts/ptmx", "/dev/ptmx") ∉ default_symlink_list := by
  refine ⟨rfl, by decide, rfl, by decide, by decide⟩

/-- C4 (amended): the default device population creates exactly seven
character-device nodes — null 1:3, zero 1:5, full 1:7, random 1:8,
urandom 1:9, tty 5:0 and ptmx 5:2, each with mode `0o066` and
chowned-to uid 0 / gid 0 — and the default symlinks are exactly the four
`/proc/self/fd` entries; `/dev/ptmx` is a device node, not a symlink. -/
theorem default_devices_amended (env : Env) (rootfs : String)
    (h : ∀ s, env.fails s = false) :
    create_default_device_run env rootfs =
      Run.ok
        [Op.mknod (pathJoin rootfs "dev/null") 8192 54 1 3,
         Op.chownUid (pathJoin rootfs "dev/null") 0,
         Op.chownGid (pathJoin rootfs "dev/null") 0,
         Op.mknod (pathJoin rootfs "dev/zero") 8192 54 1 5,
         Op.chownUid (pathJoin rootfs "dev/zero") 0,
         Op.chownGid (pathJoin rootfs "dev/zero") 0,
         Op.mknod (pathJoin rootfs "dev/full") 8192 54 1 7,
         Op.chownUid (pathJoin rootfs "dev/full") 0,
         Op.chownGid (pathJoin rootfs "dev/full") 0,
         Op.mknod (pathJoin rootfs "dev/random") 8192 54 1 8,
         Op.chownUid (pathJoin rootfs "dev/random") 0,
         Op.chownGid (pathJoin rootfs "dev/random") 0,
         Op.mknod (pathJoin rootfs "dev/urandom") 8192 54 1 9,
         Op.chownUid (pathJoin rootfs "dev/urandom") 0,
         Op.chownGid (pathJoin rootfs "dev/urandom") 0,
         Op.mknod (pathJoin rootfs "dev/tty") 8192 54 5 0,
         Op.chownUid (pathJoin rootfs "dev/tty") 0,
         Op.chownGid (pathJoin rootfs "dev/tty") 0,
         Op.mknod (pathJoin rootfs "dev/ptmx") 8192 54 5 2,
         Op.chownUid (pathJoin rootfs "dev/ptmx") 0,
         Op.chownGid (pathJoin rootfs "dev/ptmx") 0] ∧
    create_default_symlink_run env rootfs =
      Run.ok
        [Op.symlink "/proc/self/fd" (pathJoin rootfs "dev/fd"),
         Op.symlink "/proc/self/fd/0" (pathJoin rootfs "dev/stdin"),
         Op.symlink "/proc/self/fd/1" (pathJoin rootfs "dev/stdout"),
         Op.symlink "/proc/self/fd/2" (pathJoin rootfs "dev/stderr")] := by
  constructor
  · simp only [create_default_device_run, create_device_run,
      default_device_list, h]
    rfl
  · simp only [create_default_symlink_run, default_symlink_list, h]
    rfl

/-- Witness for `default_devices_amended` at a concrete rootfs. -/
theorem default_devices_amended_witness :
    (create_default_device_run allOk "/r").1.length = 21 ∧
    create_default_symlink_run allOk "/r" =
      Run.ok
        [Op.symlink "/proc/self/fd" "/r/dev/fd",
         Op.symlink "/proc/self/fd/0" "/r/dev/stdin",
         Op.symlink "/proc/self/fd/1" "/r/dev/stdout",
         Op.symlink "/proc/self/fd/2" "/r/dev/stderr"] := by
  have h := default_devices_amended allOk "/r" (fun _ => rfl)
  constructor
  · rw [h.1]
    rfl
  · rw [h.2]
    rfl

/-! ### Claim C1: the start-phase operation order -/

theorem tryStep_ok (env : Env) (s : Step) (attempt : List Op) (st : Status)
    (fmt : String → String) (h : env.fails s = false) :
    tryStep env s attempt st fmt = Run.ok attempt := by
  unfold tryStep
  rw [h]
  simp

theorem tryPrint_ok (env : Env) (s : Step) (attempt : List Op)
    (fmt : String → String) (h : env.fails s = false) :
    tryPrint env s attempt fmt = Run.ok attempt := by
  unfold tryPrint
  rw [h]
  simp

theorem start_hooks_all_ok (env : Env) (spec : Spec)
    (henv : ∀ s, env.fails s = false) :
    start_container_hooks_run env spec = Run.ok (startHookOps spec) := by
  rcases h1 : spec.hooks with _ | hs
  · simp only [start_container_hooks_run, startHookOps, h1]
  · rcases h2 : hs.startContainer with _ | l
    · simp only [start_container_hooks_run, startHookOps, h1, h2]
    · simp only [start_container_hooks_run, startHookOps, h1, h2]
      rw [runListIdx_ok _ (fun j _ => [Op.runHook HookPhase.startContainer j])
        0 l (fun j x _ => tryStep_ok _ _ _ _ _ (henv _))]
      rw [opsIdx_singleton, List.range_eq_range']

theorem rlimits_all_ok (env : Env) (p : Process)
    (henv : ∀ s, env.fails s = false) :
    rlimits_run env p = Run.ok (rlimitOps p) := by
  rcases hr : p.rlimits with _ | rl
  · simp only [rlimits_run, rlimitOps, hr, Option.getD_none, List.map_nil]
  · simp only [rlimits_run, rlimitOps, hr, Option.getD_some]
    rw [runListIdx_ok _ (fun _ r => [Op.setRlimit r.typ r.soft r.hard]) 0 rl
      (fun j x _ => tryStep_ok _ _ _ _ _ (henv _))]
    rw [opsIdx_elem_single]

theorem oom_all_ok (env : Env) (p : Process)
    (henv : ∀ s, env.fails s = false) :
    oom_run env p = Run.ok (oomOps p) := by
  rcases ho : p.oomScoreAdj with _ | n
  · simp only [oom_run, oomOps, ho]
  · simp only [oom_run, oomOps, ho]
    exact tryStep_ok _ _ _ _ _ (henv _)

theorem bounding_all_ok (env : Env) (p : Process)
    (henv : ∀ s, env.fails s = false) :
    bounding_run env p = Run.ok (boundingOps p) := by
  rcases hc : p.capabilities with _ | c
  · simp only [bounding_run, boundingOps, hc]
  · rcases hb : c.bounding with _ | b
    · simp only [bounding_run, boundingOps, hc, hb]
    · simp only [bounding_run, boundingOps, hc, hb]
      exact tryPrint_ok _ _ _ _ (henv _)

theorem groups_all_ok (env : Env) (p : Process)
    (henv : ∀ s, env.fails s = false) :
    groups_run env p = Run.ok (groupsOps p) := by
  rcases hg : p.user.additionalGids with _ | gids
  · simp only [groups_run, groupsOps, hg]
  · simp only [groups_run, groupsOps, hg]
    exact tryStep_ok _ _ _ _ _ (henv _)

theorem one_cap_all_ok (env : Env) (o : Option (List String)) (w : CapSet)
    (henv : ∀ s, env.fails s = false) :
    one_cap_run env o w =
      Run.ok (match o with
              | some _ => [Op.capSetWrite w]
              | none => []) := by
  rcases ho : o with _ | c
  · simp only [one_cap_run, ho]
  · simp only [one_cap_run, ho]
    exact tryPrint_ok _ _ _ _ (henv _)

theorem cap_sets_all_ok (env : Env) (p : Process)
    (henv : ∀ s, env.fails s = false) :
    cap_sets_run env p = Run.ok (capSetOps p) := by
  rcases hc : p.capabilities with _ | c
  · simp only [cap_sets_run, capSetOps, hc]
  · simp only [cap_sets_run, capSetOps, hc]
    rw [one_cap_all_ok env c.effective CapSet.effective henv,
      one_cap_all_ok env c.permitted CapSet.permitted henv,
      one_cap_all_ok env c.inheritable CapSet.inheritable henv,
      one_cap_all_ok env c.ambient CapSet.ambient henv,
      runSeq_ok_ok, runSeq_ok_ok, runSeq_ok_ok]
    simp [List.append_assoc]

theorem process_run_all_ok (env : Env) (spec : Spec) (p : Process)
    (a0 : String) (rest : List String) (henv : ∀ s, env.fails s = false)
    (hp : spec.process = some p) (ha : p.args = some (a0 :: rest)) :
    process_run env spec =
      Run.halt
        (envOps p ++ rlimitOps p ++ oomOps p ++ boundingOps p ++
          [Op.setKeepCaps true] ++ [Op.setgid p.user.gid] ++ groupsOps p ++
          [Op.setuid p.user.uid] ++ [Op.setKeepCaps false] ++ capSetOps p ++
          [Op.chdir p.cwd] ++
          [Op.writeMsg { status := Status.running, error := none }] ++
          [Op.execvpCall a0 (a0 :: rest)])
        ChildExit.replaced := by
  simp only [process_run, hp, ha]
  rw [rlimits_all_ok env p henv, oom_all_ok env p henv,
    bounding_all_ok env p henv, groups_all_ok env p henv,
    cap_sets_all_ok env p henv,
    tryStep_ok _ _ _ _ _ (henv Step.keepCapsOn),
    tryStep_ok _ _ _ _ _ (henv Step.setgid),
    tryStep_ok _ _ _ _ _ (henv Step.setuid),
    tryStep_ok _ _ _ _ _ (henv Step.keepCapsOff),
    tryStep_ok _ _ _ _ _ (henv Step.chdirCwd),
    henv Step.execvp]
  simp only [Bool.false_eq_true, if_false, runSeq_ok_ok, runSeq_ok_halt]
  simp [envOps, List.append_assoc]

/-- C1 (amended): with the process field present, the start phase performs
its operations in exactly this order — `startContainer` hooks, environment
variables, rlimits, `oom_score_adj`, bounding-capability drop,
`PR_SET_KEEPCAPS` on, `setgid`, `setgroups`, `setuid`, `PR_SET_KEEPCAPS`
off, the four capability sets, `chdir(process.cwd)` — then writes the
running message and calls `execvp`.  There is no umask step anywhere in
the sequence. -/
theorem start_phase_order_amended (env : Env) (spec : Spec) (p : Process)
    (a0 : String) (rest : List String) (henv : ∀ s, env.fails s = false)
    (hp : spec.process = some p) (ha : p.args = some (a0 :: rest)) :
    start_phase_run env spec =
      Run.halt
        (startHookOps spec ++ envOps p ++ rlimitOps p ++ oomOps p ++
          boundingOps p ++ [Op.setKeepCaps true] ++ [Op.setgid p.user.gid] ++
          groupsOps p ++ [Op.setuid p.user.uid] ++ [Op.setKeepCaps false] ++
          capSetOps p ++ [Op.chdir p.cwd] ++
          [Op.writeMsg { status := Status.running, error := none }] ++
          [Op.execvpCall a0 (a0 :: rest)])
        ChildExit.replaced ∧
    (∀ k, Op.setUmask k ∉ (start_phase_run env spec).1) := by
  constructor
  · unfold start_phase_run
    rw [start_hooks_all_ok env spec henv,
      process_run_all_ok env spec p a0 rest henv hp ha, runSeq_ok_halt]
    simp [List.append_assoc]
  · intro k hmem
    have hg := goodOps_start_phase env spec _ hmem
    simp [GoodOp] at hg

/-- C1 (counterexample): for a bundle whose process carries
`umask = 0o022`, the sequence the claim describes contains a umask step
between `setgid` and `setgroups`, but the code's start phase never applies
a umask, so the traces differ. -/
theorem start_phase_umask_counterexample :
    (start_phase_run allOk
        { root := some { path := "rootfs", readonly := none }, mounts := none
          linux := none, hostname := none, hooks := none
          process := some
            { args := some ["/bin/true"], env := some ["A=b"], cwd := "/"
              user := { uid := 1000, gid := 1000, umask := some 18
                        additionalGids := none }
              rlimits := none, oomScoreAdj := none, capabilities := none } }).1 ≠
      claimed_start_sequence
        { root := some { path := "rootfs", readonly := none }, mounts := none
          linux := none, hostname := none, hooks := none
          process := some
            { args := some ["/bin/true"], env := some ["A=b"], cwd := "/"
              user := { uid := 1000, gid := 1000, umask := some 18
                        additionalGids := none }
              rlimits := none, oomScoreAdj := none, capabilities := none } }
        { args := some ["/bin/true"], env := some ["A=b"], cwd := "/"
          user := { uid := 1000, gid := 1000, umask := some 18
                    additionalGids := none }
          rlimits := none, oomScoreAdj := none, capabilities := none }
        "/bin/true" [] ∧
    Op.setUmask 18 ∈
      claimed_start_sequence
        { root := some { path := "rootfs", readonly := none }, mounts := none
          linux := none, hostname := none, hooks := none
          process := some
            { args := some ["/bin/true"], env := some ["A=b"], cwd := "/"
              user := { uid := 1000, gid := 1000, umask := some 18
                        additionalGids := none }
              rlimits := none, oomScoreAdj := none, capabilities := none } }
        { args := some ["/bin/true"], env := some ["A=b"], cwd := "/"
          user := { uid := 1000, gid := 1000, umask := some 18
                    additionalGids := none }
          rlimits := none, oomScoreAdj := none, capabilities := none }
        "/bin/true" [] := by
  refine ⟨by decide, by decide⟩

/-- Witness for `start_phase_order_amended` at a concrete bundle. -/
theorem start_phase_order_amended_witness :
    start_phase_run allOk
        { root := some { path := "rootfs", readonly := none }, mounts := none
          linux := none, hostname := none, hooks := none
          process := some
            { args := some ["/bin/true"], env := some ["A=b"], cwd := "/"
              user := { uid := 1000, gid := 1000, umask := some 18
                        additionalGids := none }
              rlimits := none, oomScoreAdj := none, capabilities := none } } =
      Run.halt
        [Op.setEnv "A" "b", Op.setKeepCaps true, Op.setgid 1000,
         Op.setuid 1000, Op.setKeepCaps false, Op.chdir "/",
         Op.writeMsg { status := Status.running, error := none },
         Op.execvpCall "/bin/true" ["/bin/true"]]
        ChildExit.replaced := by
  rw [(start_phase_order_amended allOk _
    { args := some ["/bin/true"], env := some ["A=b"], cwd := "/"
      user := { uid := 1000, gid := 1000, umask := some 18
                additionalGids := none }
      rlimits := none, oomScoreAdj := none, capabilities := none }
    "/bin/true" [] (fun _ => rfl) rfl rfl).1]
  rfl

/-! ### Claim C9: `delete` removes the directory before config load and
poststop hooks, with no rollback -/

theorem opsAll_runSeq {α : Type} (P : Op → Prop) (a b : Run α)
    (ha : ∀ op ∈ a.1, P op) (hb : ∀ op ∈ b.1, P op) :
    ∀ op ∈ (runSeq a b).1, P op := by
  obtain ⟨ops, e⟩ := a
  cases e with
  | none =>
    intro op hop
    rcases List.mem_append.mp hop with h | h
    · exact ha op h
    · exact hb op h
  | some e => exact ha

theorem opsAll_runListIdx {α β : Type} (P : Op → Prop)
    (g : Nat → β → Run α) (st : Nat) (l : List β)
    (h : ∀ i x, ∀ op ∈ (g i x).1, P op) :
    ∀ op ∈ (runListIdx g st l).1, P op := by
  induction l generalizing st with
  | nil => intro op hop; simp [runListIdx] at hop
  | cons x xs ih => exact opsAll_runSeq P _ _ (h st x) (ih (st + 1))

theorem runListIdx_snd_halt {α β : Type} (g : Nat → β → Run α) (st : Nat)
    (l : List β) (i : Nat) (x : β) (e : α) (hx : l[i]? = some x)
    (hclean : ∀ j y, j < i → l[j]? = some y → (g (st + j) y).2 = none)
    (hf : (g (st + i) x).2 = some e) :
    (runListIdx g st l).2 = some e := by
  induction l generalizing st i with
  | nil => simp at hx
  | cons z zs ih =>
    cases i with
    | zero =>
      simp only [List.getElem?_cons_zero, Option.some.injEq] at hx
      subst hx
      show (runSeq (g st z) _).2 = some e
      rw [runSeq_of_some _ _ e (by simpa using hf)]
    | succ i' =>
      show (runSeq (g st z) _).2 = some e
      rw [runSeq_of_none _ _ (by simpa using hclean 0 z (by omega) (by simp))]
      refine ih (st + 1) i' (by simpa using hx) ?_ ?_
      · intro j y hj hy
        have h2 := hclean (j + 1) y (by omega) (by simpa using hy)
        rw [show st + 1 + j = st + (j + 1) by omega]
        exact h2
      · rw [show st + 1 + i' = st + (i' + 1) by omega]
        exact hf

/-- C9: for a stopped container, `delete` removes the container directory
*before* loading the bundle's `config.json` and before running the
`poststop` hooks.  If the config load fails afterwards, `delete` returns
an error with the directory already removed (the trace is exactly
check-exists, load-state, remove-dir, load-config, in that order, with no
directory-creating operation); if the first failing poststop hook is hook
`k`, `delete` returns that hook's error, the removal is in the trace, and
no operation of the trace re-creates a directory. -/
theorem delete_removes_before_config (id : String) (env : DeleteEnv)
    (s : State) (hc : env.checkOk = true)
    (hl : env.loadStateResult = Except.ok s) (hs : s.status = Status.stopped)
    (hr : env.removeOk = true) :
    (∀ e, env.loadSpecResult = Except.error e →
      (delete_verb id env).1 =
        [Op.checkExists (pathJoin RENO_ROOT id),
         Op.loadState (pathJoin (pathJoin RENO_ROOT id) "state.json"),
         Op.removeDirAll (pathJoin RENO_ROOT id),
         Op.loadConfig (pathJoin s.bundle "config.json")] ∧
      (delete_verb id env).2 =
        Except.error
          { message := "failed to load the bundle configuration: " ++ e }) ∧
    (∀ spec, env.loadSpecResult = Except.ok spec →
      ∀ hks l, spec.hooks = some hks → hks.poststop = some l →
      ∀ k x, l[k]? = some x → env.hookFails k = true →
        (∀ j, j < k → env.hookFails j = false) →
        ((delete_verb id env).2 =
          Except.error { message := env.hookErrText k } ∧
         Op.removeDirAll (pathJoin RENO_ROOT id) ∈ (delete_verb id env).1 ∧
         ∀ pth, Op.mkdirAll pth ∉ (delete_verb id env).1)) := by
  constructor
  · intro e he
    constructor <;>
      simp [delete_verb, hc, hl, hs, hr, he, tryCall, runSeq, Run.ok, Run.halt]
  · intro spec hspec hks l hhks hl2 k x hk hfk hprev
    have hloop2 : (poststop_hooks_run env spec).2 =
        some { message := env.hookErrText k } := by
      simp only [poststop_hooks_run, hhks, hl2]
      refine runListIdx_snd_halt _ 0 l k x _ hk ?_ ?_
      · intro j y hj hy
        simp [tryCall, hprev j hj, Run.ok]
      · simp [tryCall, hfk, Run.halt]
    have hdel : delete_verb id env =
        ([Op.checkExists (pathJoin RENO_ROOT id),
          Op.loadState (pathJoin (pathJoin RENO_ROOT id) "state.json"),
          Op.removeDirAll (pathJoin RENO_ROOT id),
          Op.loadConfig (pathJoin s.bundle "config.json")] ++
            (poststop_hooks_run env spec).1,
         Except.error { message := env.hookErrText k }) := by
      simp [delete_verb, hc, hl, hs, hr, hspec, tryCall, runSeq, Run.ok,
        Run.halt, hloop2]
    refine ⟨by rw [hdel], by rw [hdel]; simp, ?_⟩
    intro pth hmem
    rw [hdel] at hmem
    rcases List.mem_append.mp hmem with h | h
    · simp at h
    · have hall : ∀ op ∈ (poststop_hooks_run env spec).1,
          op ≠ Op.mkdirAll pth := by
        simp only [poststop_hooks_run, hhks, hl2]
        refine opsAll_runListIdx _ _ 0 l ?_
        intro i y op hop
        rw [tryCall_fst] at hop
        rcases List.mem_singleton.mp hop with rfl
        simp
      exact hall _ h rfl

/-- Witness for `delete_removes_before_config`: a stopped container whose
bundle config fails to load. -/
theorem delete_removes_before_config_witness :
    (delete_verb "c1"
        { checkOk := true, checkErrText := ""
          loadStateResult := Except.ok
            { ociVersion := "1.0.2", id := "c1", bundle := "/b"
              status := Status.stopped, pid := 7 }
          removeOk := true, removeErrText := ""
          loadSpecResult := Except.error "broken"
          hookFails := fun _ => false, hookErrText := fun _ => "" }).1 =
      [Op.checkExists "/tmp/reno/c1", Op.loadState "/tmp/reno/c1/state.json",
       Op.removeDirAll "/tmp/reno/c1", Op.loadConfig "/b/config.json"] ∧
    (delete_verb "c1"
        { checkOk := true, checkErrText := ""
          loadStateResult := Except.ok
            { ociVersion := "1.0.2", id := "c1", bundle := "/b"
              status := Status.stopped, pid := 7 }
          removeOk := true, removeErrText := ""
          loadSpecResult := Except.error "broken"
          hookFails := fun _ => false, hookErrText := fun _ => "" }).2 =
      Except.error
        { message := "failed to load the bundle configuration: broken" } := by
  have h := (delete_removes_before_config "c1"
    { checkOk := true, checkErrText := ""
      loadStateResult := Except.ok
        { ociVersion := "1.0.2", id := "c1", bundle := "/b"
          status := Status.stopped, pid := 7 }
      removeOk := true, removeErrText := ""
      loadSpecResult := Except.error "broken"
      hookFails := fun _ => false, hookErrText := fun _ => "" }
    { ociVersion := "1.0.2", id := "c1", bundle := "/b"
      status := Status.stopped, pid := 7 }
    rfl rfl rfl rfl).1 "broken" rfl
  refine ⟨?_, ?_⟩
  · rw [h.1]
    rfl
  · rw [h.2]
    rfl

/-! ### Claim C7: single-failure runs of the child pipeline -/

theorem errHalt_seq_left {a b : Run String} {e : String} (h : ErrHalt a e) :
    ErrHalt (runSeq a b) e := by
  rw [runSeq_of_some a b _ h.2]
  exact ⟨h.1, rfl⟩

theorem errHalt_seq_right {a b : Run String} {e : String} (ha : CleanRun a)
    (h : ErrHalt b e) : ErrHalt (runSeq a b) e := by
  rw [runSeq_of_none a b ha.2]
  exact ⟨by rw [errMsgs_append, ha.1, h.1]; rfl, h.2⟩

theorem errHalt_runListIdx {β : Type} (g : Nat → β → Run String) (st : Nat)
    (l : List β) (i : Nat) (x : β) (e : String) (hx : l[i]? = some x)
    (hclean : ∀ j y, j < i → l[j]? = some y → CleanRun (g (st + j) y))
    (hf : ErrHalt (g (st + i) x) e) : ErrHalt (runListIdx g st l) e := by
  induction l generalizing st i with
  | nil => simp at hx
  | cons z zs ih =>
    cases i with
    | zero =>
      simp only [List.getElem?_cons_zero, Option.some.injEq] at hx
      subst hx
      exact errHalt_seq_left (by simpa using hf)
    | succ i' =>
      refine errHalt_seq_right
        (by simpa using hclean 0 z (by omega) (by simp)) ?_
      refine ih (st + 1) i' (by simpa using hx) ?_ ?_
      · intro j y hj hy
        have h2 := hclean (j + 1) y (by omega) (by simpa using hy)
        rw [show st + 1 + j = st + (j + 1) by omega]
        exact h2
      · rw [show st + 1 + i' = st + (i' + 1) by omega]
        exact hf

theorem errMsgs_nil_of (ops : List Op)
    (h : ∀ op ∈ ops, ∀ m, op ≠ Op.writeMsg m) : errMsgs ops = [] := by
  induction ops with
  | nil => rfl
  | cons op rest ih =>
    have hop := h op (by simp)
    have hr : errMsgs rest = [] := ih fun o ho => h o (by simp [ho])
    show errMsgs (op :: rest) = []
    cases op
    case writeMsg m => exact absurd rfl (hop m)
    all_goals simpa [errMsgs] using hr

/-! Clean-phase lemmas: when none of a phase's own steps fail, the phase
writes no error message and continues. -/

theorem clean_ns_join_run (env : Env) (i : Nat) (ns : LinuxNamespace)
    (h1 : env.fails (Step.nsOpen i) = false)
    (h2 : env.fails (Step.nsSetns i) = false) :
    CleanRun (ns_join_run env i ns) := by
  rcases hp : ns.path with _ | p <;> simp only [ns_join_run, hp]
  · exact cleanRun_ok _ rfl
  · exact CleanRun.seq (cleanRun_tryStep _ _ _ _ _ h1 rfl)
      (cleanRun_tryStep _ _ _ _ _ h2 rfl)

theorem clean_ns_loop (env : Env) (namespaces : List LinuxNamespace)
    (h : ∀ i, env.fails (Step.nsOpen i) = false ∧
      env.fails (Step.nsSetns i) = false) :
    CleanRun (runListIdx (ns_join_run env) 0 namespaces) :=
  cleanRun_runListIdx _ 0 namespaces
    (fun j x _ => clean_ns_join_run env (0 + j) x (h (0 + j)).1 (h (0 + j)).2)

theorem clean_mount_rootfs_run (env : Env) (rootfs : String)
    (h1 : env.fails Step.mountPrivate = false)
    (h2 : env.fails Step.mountBind = false) :
    CleanRun (mount_rootfs_run env rootfs) := by
  unfold mount_rootfs_run
  rw [h1, h2]
  exact CleanRun.seq (cleanRun_tryCall _ _ rfl) (cleanRun_tryCall _ _ rfl)

theorem clean_oci_mount_run (env : Env) (rootfs : String) (i : Nat)
    (m : Mount) (h1 : env.fails (Step.mountMkdir i) = false)
    (h2 : env.fails (Step.mountApply i) = false) :
    CleanRun (oci_mount_run env rootfs i m) := by
  simp only [oci_mount_run]
  refine CleanRun.seq ?_ (by rw [h2]; exact cleanRun_tryCall _ _ rfl)
  cases hd : env.destExists i
  · simp only [Bool.false_eq_true, if_false]
    rw [h1]
    exact cleanRun_tryCall _ _ rfl
  · rw [if_pos rfl]
    exact cleanRun_ok _ rfl

theorem clean_mounts_loop (env : Env) (rootfs : String) (ms : List Mount)
    (h : ∀ i, env.fails (Step.mountMkdir i) = false ∧
      env.fails (Step.mountApply i) = false) :
    CleanRun (runListIdx
      (fun i m => mapErrToWrite (oci_mount_run env rootfs i m) Status.creating
        (fun e => "container error: " ++ e)) 0 ms) :=
  cleanRun_runListIdx _ 0 ms fun j x _ =>
    cleanRun_mapErrToWrite _ _ _
      (clean_oci_mount_run env rootfs (0 + j) x (h (0 + j)).1 (h (0 + j)).2)

theorem clean_create_device_run (env : Env) (smk scu scg : Step)
    (rootfs : String) (d : LinuxDevice) (h1 : env.fails smk = false)
    (h2 : env.fails scu = false) (h3 : env.fails scg = false) :
    CleanRun (create_device_run env smk scu scg rootfs d) := by
  simp only [create_device_run]
  refine CleanRun.seq (by rw [h1]; exact cleanRun_tryCall _ _ rfl)
    (CleanRun.seq ?_ ?_)
  · rcases hu : d.uid with _ | u <;> simp only [hu]
    · exact cleanRun_ok _ rfl
    · rw [h2]
      exact cleanRun_tryCall _ _ rfl
  · rcases hg : d.gid with _ | g <;> simp only [hg]
    · exact cleanRun_ok _ rfl
    · rw [h3]
      exact cleanRun_tryCall _ _ rfl

theorem clean_config_devices_run (env : Env) (rootfs : String) (spec : Spec)
    (h : ∀ i, env.fails (Step.deviceMknod i) = false ∧
      env.fails (Step.deviceChownUid i) = false ∧
      env.fails (Step.deviceChownGid i) = false) :
    CleanRun (config_devices_run env rootfs spec) := by
  rcases h1 : spec.linux with _ | lx
  · simp only [config_devices_run, h1]
    exact cleanRun_ok _ rfl
  · rcases h2 : lx.devices with _ | ds <;>
      simp only [config_devices_run, h1, h2]
    · exact cleanRun_ok _ rfl
    · refine cleanRun_runListIdx _ 0 ds fun j x _ =>
        cleanRun_mapErrToWrite _ _ _
          (clean_create_device_run env _ _ _ rootfs x (h (0 + j)).1
            (h (0 + j)).2.1 (h (0 + j)).2.2)

theorem clean_default_devices_run (env : Env) (rootfs : String)
    (h : ∀ i, env.fails (Step.defaultDeviceMknod i) = false ∧
      env.fails (Step.defaultDeviceChownUid i) = false ∧
      env.fails (Step.defaultDeviceChownGid i) = false) :
    CleanRun (create_default_device_run env rootfs) := by
  unfold create_default_device_run
  refine cleanRun_runListIdx _ 0 default_device_list fun j x _ =>
    cleanRun_mapErrToPanic _
      (clean_create_device_run env _ _ _ rootfs x (h (0 + j)).1
        (h (0 + j)).2.1 (h (0 + j)).2.2)

theorem clean_default_symlink_run (env : Env) (rootfs : String)
    (h : ∀ i, env.fails (Step.defaultSymlink i) = false) :
    CleanRun (create_default_symlink_run env rootfs) := by
  unfold create_default_symlink_run
  refine cleanRun_runListIdx _ 0 default_symlink_list fun j x _ => ?_
  rw [h (0 + j)]
  exact cleanRun_tryCall _ _ rfl

theorem clean_hostname_run (env : Env) (spec : Spec)
    (h : env.fails Step.hostname = false) :
    CleanRun (hostname_run env spec) := by
  rcases hh : spec.hostname with _ | hn <;> simp only [hostname_run, hh]
  · exact cleanRun_ok _ rfl
  · rw [h]
    simp only [Bool.false_eq_true, if_false]
    exact cleanRun_ok _ rfl

theorem clean_create_container_hooks_run (env : Env) (spec : Spec)
    (h : ∀ i, env.fails (Step.createContainerHook i) = false) :
    CleanRun (create_container_hooks_run env spec) := by
  rcases h1 : spec.hooks with _ | hs
  · simp only [create_container_hooks_run, h1]
    exact cleanRun_ok _ rfl
  · rcases h2 : hs.createContainer with _ | l <;>
      simp only [create_container_hooks_run, h1, h2]
    · exact cleanRun_ok _ rfl
    · exact cleanRun_runListIdx _ 0 l fun j x _ =>
        cleanRun_tryStep _ _ _ _ _ (h (0 + j)) rfl

theorem clean_pivot_rootfs_run (env : Env) (rootfs : String)
    (h1 : env.fails Step.pivotChdirRootfs = false)
    (h2 : env.fails Step.pivotMkdir = false)
    (h3 : env.fails Step.pivotPivotRoot = false)
    (h4 : env.fails Step.pivotUmount = false)
    (h5 : env.fails Step.pivotRemoveDir = false)
    (h6 : env.fails Step.pivotChdirRoot = false) :
    CleanRun (pivot_rootfs_run env rootfs) := by
  unfold pivot_rootfs_run
  rw [h1, h2, h3, h4, h5, h6]
  exact CleanRun.seq (cleanRun_tryCall _ _ rfl)
    (CleanRun.seq (cleanRun_tryCall _ _ rfl)
      (CleanRun.seq (cleanRun_tryCall _ _ rfl)
        (CleanRun.seq (cleanRun_tryCall _ _ rfl)
          (CleanRun.seq (cleanRun_tryCall _ _ rfl)
            (cleanRun_tryCall _ _ rfl)))))

theorem clean_sysctl_run (env : Env) (spec : Spec)
    (h : ∀ i, env.fails (Step.sysctl i) = false) :
    CleanRun (sysctl_run env spec) := by
  rcases h1 : spec.linux with _ | lx
  · simp only [sysctl_run, h1]
    exact cleanRun_ok _ rfl
  · rcases h2 : lx.sysctl with _ | kvs <;> simp only [sysctl_run, h1, h2]
    · exact cleanRun_ok _ rfl
    · exact cleanRun_runListIdx _ 0 kvs fun j x _ =>
        cleanRun_tryStep _ _ _ _ _ (h (0 + j)) rfl

theorem clean_start_hooks_run (env : Env) (spec : Spec)
    (h : ∀ i, env.fails (Step.startContainerHook i) = false) :
    CleanRun (start_container_hooks_run env spec) := by
  rcases h1 : spec.hooks with _ | hs
  · simp only [start_container_hooks_run, h1]
    exact cleanRun_ok _ rfl
  · rcases h2 : hs.startContainer with _ | l <;>
      simp only [start_container_hooks_run, h1, h2]
    · exact cleanRun_ok _ rfl
    · exact cleanRun_runListIdx _ 0 l fun j x _ =>
        cleanRun_tryStep _ _ _ _ _ (h (0 + j)) rfl

theorem clean_env_sets (p : Process) :
    CleanRun (Run.ok ((p.env.getD []).filterMap fun s =>
      (splitOnceEq s).map fun kv => Op.setEnv kv.1 kv.2) : Run ChildExit) := by
  refine cleanRun_ok _ (errMsgs_nil_of _ ?_)
  intro op hop m
  rcases List.mem_filterMap.mp hop with ⟨s, _, hs⟩
  rcases Option.map_eq_some'.mp hs with ⟨kv, _, hkv⟩
  subst hkv
  simp

theorem clean_rlimits_run (env : Env) (p : Process)
    (h : ∀ i, env.fails (Step.rlimit i) = false) :
    CleanRun (rlimits_run env p) := by
  rcases hr : p.rlimits with _ | rl <;> simp only [rlimits_run, hr]
  · exact cleanRun_ok _ rfl
  · exact cleanRun_runListIdx _ 0 rl fun j x _ =>
      cleanRun_tryStep _ _ _ _ _ (h (0 + j)) rfl

theorem clean_oom_run (env : Env) (p : Process)
    (h : env.fails Step.oomScoreAdj = false) :
    CleanRun (oom_run env p) := by
  rcases ho : p.oomScoreAdj with _ | n <;> simp only [oom_run, ho]
  · exact cleanRun_ok _ rfl
  · exact cleanRun_tryStep _ _ _ _ _ h rfl

theorem clean_bounding_run (env : Env) (p : Process) :
    CleanRun (bounding_run env p) := by
  rcases hc : p.capabilities with _ | c
  · simp only [bounding_run, hc]
    exact cleanRun_ok _ rfl
  · rcases hb : c.bounding with _ | b <;> simp only [bounding_run, hc, hb]
    · exact cleanRun_ok _ rfl
    · exact cleanRun_tryPrint _ _ _ _ rfl

theorem clean_groups_run (env : Env) (p : Process)
    (h : env.fails Step.setgroups = false) :
    CleanRun (groups_run env p) := by
  rcases hg : p.user.additionalGids with _ | gids <;>
    simp only [groups_run, hg]
  · exact cleanRun_ok _ rfl
  · exact cleanRun_tryStep _ _ _ _ _ h rfl

theorem clean_one_cap_run (env : Env) (o : Option (List String)) (w : CapSet) :
    CleanRun (one_cap_run env o w) := by
  rcases ho : o with _ | c <;> simp only [one_cap_run, ho]
  · exact cleanRun_ok _ rfl
  · exact cleanRun_tryPrint _ _ _ _ rfl

theorem clean_cap_sets_run (env : Env) (p : Process) :
    CleanRun (cap_sets_run env p) := by
  rcases hc : p.capabilities with _ | c <;> simp only [cap_sets_run, hc]
  · exact cleanRun_ok _ rfl
  · exact CleanRun.seq (clean_one_cap_run _ _ _)
      (CleanRun.seq (clean_one_cap_run _ _ _)
        (CleanRun.seq (clean_one_cap_run _ _ _) (clean_one_cap_run _ _ _)))

/-! Plumbing: a failing segment makes the whole child run fail, when every
earlier step succeeds.  `hok` says all steps of earlier segments succeed. -/

theorem oneFail_lt (env : Env) (s : Step) (K : Nat)
    (henv : env.fails = fun t => decide (t = s)) (hs : K ≤ stepSeg s) :
    ∀ t, stepSeg t < K → env.fails t = false := by
  intro t ht
  rw [henv]
  simp only [decide_eq_false_iff_not]
  intro he
  subst he
  omega

theorem childRun_fail_ns (namespaces : List LinuxNamespace) (spec : Spec)
    (st : State) (env : Env) (m : SocketMessage)
    (hfail : FailsWith (runListIdx (ns_join_run env) 0 namespaces) m) :
    FailsWith (childRun namespaces spec st env) m := by
  unfold childRun
  exact FailsWith.seq_right (cleanRun_ok _ rfl) (FailsWith.seq_left hfail)

theorem clean_mounts_match (env : Env) (rootfs : String) (spec : Spec)
    (h : ∀ i, env.fails (Step.mountMkdir i) = false ∧
      env.fails (Step.mountApply i) = false) :
    CleanRun (match spec.mounts with
              | none => Run.ok []
              | some ms =>
                runListIdx
                  (fun i m =>
                    mapErrToWrite (oci_mount_run env rootfs i m) Status.creating
                      (fun e => "container error: " ++ e))
                  0 ms) := by
  rcases hm : spec.mounts with _ | ms <;> simp only [hm]
  · exact cleanRun_ok _ rfl
  · exact clean_mounts_loop env rootfs ms h

theorem childRun_fail_mount_rootfs (namespaces : List LinuxNamespace)
    (spec : Spec) (st : State) (env : Env) (root : Root) (m : SocketMessage)
    (hroot : spec.root = some root)
    (hok : ∀ t, stepSeg t < 3 → env.fails t = false)
    (hfail : FailsWith
      (mapErrToWrite (mount_rootfs_run env (pathJoin st.bundle root.path))
        Status.creating (fun e => "container error: " ++ e)) m) :
    FailsWith (childRun namespaces spec st env) m := by
  unfold childRun
  simp only [hroot]
  refine FailsWith.seq_right (cleanRun_ok _ rfl) ?_
  refine FailsWith.seq_right
    (clean_ns_loop env namespaces fun i =>
      ⟨hok _ (by simp [stepSeg]), hok _ (by simp [stepSeg])⟩) ?_
  exact FailsWith.seq_left hfail

theorem childRun_fail_mounts (namespaces : List LinuxNamespace) (spec : Spec)
    (st : State) (env : Env) (root : Root) (ms : List Mount)
    (m : SocketMessage) (hroot : spec.root = some root)
    (hms : spec.mounts = some ms)
    (hok : ∀ t, stepSeg t < 4 → env.fails t = false)
    (hfail : FailsWith
      (runListIdx
        (fun i mo =>
          mapErrToWrite (oci_mount_run env (pathJoin st.bundle root.path) i mo)
            Status.creating (fun e => "container error: " ++ e))
        0 ms) m) :
    FailsWith (childRun namespaces spec st env) m := by
  unfold childRun
  simp only [hroot, hms]
  refine FailsWith.seq_right (cleanRun_ok _ rfl) ?_
  refine FailsWith.seq_right
    (clean_ns_loop env namespaces fun i =>
      ⟨hok _ (by simp [stepSeg]), hok _ (by simp [stepSeg])⟩) ?_
  refine FailsWith.seq_right
    (cleanRun_mapErrToWrite _ _ _
      (clean_mount_rootfs_run env _ (hok _ (by simp [stepSeg])) (hok _ (by simp [stepSeg])))) ?_
  exact FailsWith.seq_left hfail

theorem childRun_fail_config_devices (namespaces : List LinuxNamespace)
    (spec : Spec) (st : State) (env : Env) (root : Root) (m : SocketMessage)
    (hroot : spec.root = some root)
    (hok : ∀ t, stepSeg t < 5 → env.fails t = false)
    (hfail : FailsWith
      (config_devices_run env (pathJoin st.bundle root.path) spec) m) :
    FailsWith (childRun namespaces spec st env) m := by
  unfold childRun
  simp only [hroot]
  refine FailsWith.seq_right (cleanRun_ok _ rfl) ?_
  refine FailsWith.seq_right
    (clean_ns_loop env namespaces fun i =>
      ⟨hok _ (by simp [stepSeg]), hok _ (by simp [stepSeg])⟩) ?_
  refine FailsWith.seq_right
    (cleanRun_mapErrToWrite _ _ _
      (clean_mount_rootfs_run env _ (hok _ (by simp [stepSeg])) (hok _ (by simp [stepSeg])))) ?_
  refine FailsWith.seq_right
    (clean_mounts_match env _ spec fun i =>
      ⟨hok _ (by simp [stepSeg]), hok _ (by simp [stepSeg])⟩) ?_
  exact FailsWith.seq_left hfail

theorem childRun_fail_symlinks (namespaces : List LinuxNamespace)
    (spec : Spec) (st : State) (env : Env) (root : Root) (m : SocketMessage)
    (hroot : spec.root = some root)
    (hok : ∀ t, stepSeg t < 7 → env.fails t = false)
    (hfail : FailsWith
      (mapErrToWrite
        (create_default_symlink_run env (pathJoin st.bundle root.path))
        Status.creating (fun e => "container error: " ++ e)) m) :
    FailsWith (childRun namespaces spec st env) m := by
  unfold childRun
  simp only [hroot]
  refine FailsWith.seq_right (cleanRun_ok _ rfl) ?_
  refine FailsWith.seq_right
    (clean_ns_loop env namespaces fun i =>
      ⟨hok _ (by simp [stepSeg]), hok _ (by simp [stepSeg])⟩) ?_
  refine FailsWith.seq_right
    (cleanRun_mapErrToWrite _ _ _
      (clean_mount_rootfs_run env _ (hok _ (by simp [stepSeg])) (hok _ (by simp [stepSeg])))) ?_
  refine FailsWith.seq_right
    (clean_mounts_match env _ spec fun i =>
      ⟨hok _ (by simp [stepSeg]), hok _ (by simp [stepSeg])⟩) ?_
  refine FailsWith.seq_right
    (clean_config_devices_run env _ spec fun i =>
      ⟨hok _ (by simp [stepSeg]), hok _ (by simp [stepSeg]), hok _ (by simp [stepSeg])⟩) ?_
  refine FailsWith.seq_right
    (clean_default_devices_run env _ fun i =>
      ⟨hok _ (by simp [stepSeg]), hok _ (by simp [stepSeg]), hok _ (by simp [stepSeg])⟩) ?_
  exact FailsWith.seq_left hfail

theorem childRun_fail_create_hooks (namespaces : List LinuxNamespace)
    (spec : Spec) (st : State) (env : Env) (root : Root) (m : SocketMessage)
    (hroot : spec.root = some root)
    (hok : ∀ t, stepSeg t < 10 → env.fails t = false)
    (hfail : FailsWith (create_container_hooks_run env spec) m) :
    FailsWith (childRun namespaces spec st env) m := by
  unfold childRun
  simp only [hroot]
  refine FailsWith.seq_right (cleanRun_ok _ rfl) ?_
  refine FailsWith.seq_right
    (clean_ns_loop env namespaces fun i =>
      ⟨hok _ (by simp [stepSeg]), hok _ (by simp [stepSeg])⟩) ?_
  refine FailsWith.seq_right
    (cleanRun_mapErrToWrite _ _ _
      (clean_mount_rootfs_run env _ (hok _ (by simp [stepSeg])) (hok _ (by simp [stepSeg])))) ?_
  refine FailsWith.seq_right
    (clean_mounts_match env _ spec fun i =>
      ⟨hok _ (by simp [stepSeg]), hok _ (by simp [stepSeg])⟩) ?_
  refine FailsWith.seq_right
    (clean_config_devices_run env _ spec fun i =>
      ⟨hok _ (by simp [stepSeg]), hok _ (by simp [stepSeg]), hok _ (by simp [stepSeg])⟩) ?_
  refine FailsWith.seq_right
    (clean_default_devices_run env _ fun i =>
      ⟨hok _ (by simp [stepSeg]), hok _ (by simp [stepSeg]), hok _ (by simp [stepSeg])⟩) ?_
  refine FailsWith.seq_right
    (cleanRun_mapErrToWrite _ _ _
      (clean_default_symlink_run env _ fun i => hok _ (by simp [stepSeg]))) ?_
  refine FailsWith.seq_right (clean_hostname_run env spec (hok _ (by simp [stepSeg]))) ?_
  refine FailsWith.seq_right (cleanRun_ok _ rfl) ?_
  exact FailsWith.seq_left hfail

theorem childRun_fail_pivot (namespaces : List LinuxNamespace) (spec : Spec)
    (st : State) (env : Env) (root : Root) (m : SocketMessage)
    (hroot : spec.root = some root)
    (hok : ∀ t, stepSeg t < 11 → env.fails t = false)
    (hfail : FailsWith
      (mapErrToWrite (pivot_rootfs_run env (pathJoin st.bundle root.path))
        Status.creating (fun e => "container error: " ++ e)) m) :
    FailsWith (childRun namespaces spec st env) m := by
  unfold childRun
  simp only [hroot]
  refine FailsWith.seq_right (cleanRun_ok _ rfl) ?_
  refine FailsWith.seq_right
    (clean_ns_loop env namespaces fun i =>
      ⟨hok _ (by simp [stepSeg]), hok _ (by simp [stepSeg])⟩) ?_
  refine FailsWith.seq_right
    (cleanRun_mapErrToWrite _ _ _
      (clean_mount_rootfs_run env _ (hok _ (by simp [stepSeg])) (hok _ (by simp [stepSeg])))) ?_
  refine FailsWith.seq_right
    (clean_mounts_match env _ spec fun i =>
      ⟨hok _ (by simp [stepSeg]), hok _ (by simp [stepSeg])⟩) ?_
  refine FailsWith.seq_right
    (clean_config_devices_run env _ spec fun i =>
      ⟨hok _ (by simp [stepSeg]), hok _ (by simp [stepSeg]), hok _ (by simp [stepSeg])⟩) ?_
  refine FailsWith.seq_right
    (clean_default_devices_run env _ fun i =>
      ⟨hok _ (by simp [stepSeg]), hok _ (by simp [stepSeg]), hok _ (by simp [stepSeg])⟩) ?_
  refine FailsWith.seq_right
    (cleanRun_mapErrToWrite _ _ _
      (clean_default_symlink_run env _ fun i => hok _ (by simp [stepSeg]))) ?_
  refine FailsWith.seq_right (clean_hostname_run env spec (hok _ (by simp [stepSeg]))) ?_
  refine FailsWith.seq_right (cleanRun_ok _ rfl) ?_
  refine FailsWith.seq_right
    (clean_create_container_hooks_run env spec fun i => hok _ (by simp [stepSeg])) ?_
  exact FailsWith.seq_left hfail

theorem childRun_fail_sysctl (namespaces : List LinuxNamespace) (spec : Spec)
    (st : State) (env : Env) (root : Root) (m : SocketMessage)
    (hroot : spec.root = some root)
    (hok : ∀ t, stepSeg t < 12 → env.fails t = false)
    (hfail : FailsWith (sysctl_run env spec) m) :
    FailsWith (childRun namespaces spec st env) m := by
  unfold childRun
  simp only [hroot]
  refine FailsWith.seq_right (cleanRun_ok _ rfl) ?_
  refine FailsWith.seq_right
    (clean_ns_loop env namespaces fun i =>
      ⟨hok _ (by simp [stepSeg]), hok _ (by simp [stepSeg])⟩) ?_
  refine FailsWith.seq_right
    (cleanRun_mapErrToWrite _ _ _
      (clean_mount_rootfs_run env _ (hok _ (by simp [stepSeg])) (hok _ (by simp [stepSeg])))) ?_
  refine FailsWith.seq_right
    (clean_mounts_match env _ spec fun i =>
      ⟨hok _ (by simp [stepSeg]), hok _ (by simp [stepSeg])⟩) ?_
  refine FailsWith.seq_right
    (clean_config_devices_run env _ spec fun i =>
      ⟨hok _ (by simp [stepSeg]), hok _ (by simp [stepSeg]), hok _ (by simp [stepSeg])⟩) ?_
  refine FailsWith.seq_right
    (clean_default_devices_run env _ fun i =>
      ⟨hok _ (by simp [stepSeg]), hok _ (by simp [stepSeg]), hok _ (by simp [stepSeg])⟩) ?_
  refine FailsWith.seq_right
    (cleanRun_mapErrToWrite _ _ _
      (clean_default_symlink_run env _ fun i => hok _ (by simp [stepSeg]))) ?_
  refine FailsWith.seq_right (clean_hostname_run env spec (hok _ (by simp [stepSeg]))) ?_
  refine FailsWith.seq_right (cleanRun_ok _ rfl) ?_
  refine FailsWith.seq_right
    (clean_create_container_hooks_run env spec fun i => hok _ (by simp [stepSeg])) ?_
  refine FailsWith.seq_right
    (cleanRun_mapErrToWrite _ _ _
      (clean_pivot_rootfs_run env _ (hok _ (by simp [stepSeg])) (hok _ (by simp [stepSeg]))
        (hok _ (by simp [stepSeg])) (hok _ (by simp [stepSeg])) (hok _ (by simp [stepSeg]))
        (hok _ (by simp [stepSeg])))) ?_
  exact FailsWith.seq_left hfail

theorem childRun_fail_start_phase (namespaces : List LinuxNamespace)
    (spec : Spec) (st : State) (env : Env) (root : Root) (m : SocketMessage)
    (hroot : spec.root = some root)
    (hok : ∀ t, stepSeg t < 14 → env.fails t = false)
    (hfail : FailsWith (start_phase_run env spec) m) :
    FailsWith (childRun namespaces spec st env) m := by
  unfold childRun
  simp only [hroot]
  refine FailsWith.seq_right (cleanRun_ok _ rfl) ?_
  refine FailsWith.seq_right
    (clean_ns_loop env namespaces fun i =>
      ⟨hok _ (by simp [stepSeg]), hok _ (by simp [stepSeg])⟩) ?_
  refine FailsWith.seq_right
    (cleanRun_mapErrToWrite _ _ _
      (clean_mount_rootfs_run env _ (hok _ (by simp [stepSeg])) (hok _ (by simp [stepSeg])))) ?_
  refine FailsWith.seq_right
    (clean_mounts_match env _ spec fun i =>
      ⟨hok _ (by simp [stepSeg]), hok _ (by simp [stepSeg])⟩) ?_
  refine FailsWith.seq_right
    (clean_config_devices_run env _ spec fun i =>
      ⟨hok _ (by simp [stepSeg]), hok _ (by simp [stepSeg]), hok _ (by simp [stepSeg])⟩) ?_
  refine FailsWith.seq_right
    (clean_default_devices_run env _ fun i =>
      ⟨hok _ (by simp [stepSeg]), hok _ (by simp [stepSeg]), hok _ (by simp [stepSeg])⟩) ?_
  refine FailsWith.seq_right
    (cleanRun_mapErrToWrite _ _ _
      (clean_default_symlink_run env _ fun i => hok _ (by simp [stepSeg]))) ?_
  refine FailsWith.seq_right (clean_hostname_run env spec (hok _ (by simp [stepSeg]))) ?_
  refine FailsWith.seq_right (cleanRun_ok _ rfl) ?_
  refine FailsWith.seq_right
    (clean_create_container_hooks_run env spec fun i => hok _ (by simp [stepSeg])) ?_
  refine FailsWith.seq_right
    (cleanRun_mapErrToWrite _ _ _
      (clean_pivot_rootfs_run env _ (hok _ (by simp [stepSeg])) (hok _ (by simp [stepSeg]))
        (hok _ (by simp [stepSeg])) (hok _ (by simp [stepSeg])) (hok _ (by simp [stepSeg]))
        (hok _ (by simp [stepSeg])))) ?_
  refine FailsWith.seq_right
    (clean_sysctl_run env spec fun i => hok _ (by simp [stepSeg])) ?_
  refine FailsWith.seq_right (cleanRun_ok _ rfl) ?_
  exact hfail

/-! Single-failure environments: helpers reading off `env.fails` when
exactly one step fails. -/

theorem oneFail_self (env : Env) (s : Step)
    (henv : env.fails = fun t => decide (t = s)) : env.fails s = true := by
  rw [henv]
  simp

theorem oneFail_ne (env : Env) (s t : Step)
    (henv : env.fails = fun u => decide (u = s)) (h : ¬ t = s) :
    env.fails t = false := by
  rw [henv]
  simp [h]

/-! Failing-step lemmas: when a step of a segment fails (every earlier step
of the same segment succeeding), the segment fails with exactly the
message the code formats at that error site. -/

theorem fail_ns_open (env : Env) (namespaces : List LinuxNamespace) (i : Nat)
    (ns : LinuxNamespace) (pth : String) (hns : namespaces[i]? = some ns)
    (hp : ns.path = some pth)
    (hprev : ∀ j, j < i → env.fails (Step.nsOpen j) = false ∧
      env.fails (Step.nsSetns j) = false)
    (hf : env.fails (Step.nsOpen i) = true) :
    FailsWith (runListIdx (ns_join_run env) 0 namespaces)
      { status := Status.creating
        error := some { message :=
          "container error: " ++ env.errText (Step.nsOpen i) } } := by
  refine failsWith_runListIdx _ 0 namespaces i ns _ hns
    (fun j y hj _ => clean_ns_join_run env (0 + j) y
      (by rw [Nat.zero_add]; exact (hprev j hj).1)
      (by rw [Nat.zero_add]; exact (hprev j hj).2)) ?_
  rw [Nat.zero_add]
  simp only [ns_join_run, hp]
  exact FailsWith.seq_left (failsWith_tryStep env _ _ _ _ hf rfl)

theorem fail_ns_setns (env : Env) (namespaces : List LinuxNamespace) (i : Nat)
    (ns : LinuxNamespace) (pth : String) (hns : namespaces[i]? = some ns)
    (hp : ns.path = some pth)
    (hprev : ∀ j, j < i → env.fails (Step.nsOpen j) = false ∧
      env.fails (Step.nsSetns j) = false)
    (h1 : env.fails (Step.nsOpen i) = false)
    (hf : env.fails (Step.nsSetns i) = true) :
    FailsWith (runListIdx (ns_join_run env) 0 namespaces)
      { status := Status.creating
        error := some { message :=
          "container error: " ++ env.errText (Step.nsSetns i) } } := by
  refine failsWith_runListIdx _ 0 namespaces i ns _ hns
    (fun j y hj _ => clean_ns_join_run env (0 + j) y
      (by rw [Nat.zero_add]; exact (hprev j hj).1)
      (by rw [Nat.zero_add]; exact (hprev j hj).2)) ?_
  rw [Nat.zero_add]
  simp only [ns_join_run, hp]
  exact FailsWith.seq_right (cleanRun_tryStep _ _ _ _ _ h1 rfl)
    (failsWith_tryStep env _ _ _ _ hf rfl)

theorem fail_mount_private (env : Env) (rootfs : String)
    (hf : env.fails Step.mountPrivate = true) :
    FailsWith (mapErrToWrite (mount_rootfs_run env rootfs) Status.creating
        (fun e => "container error: " ++ e))
      { status := Status.creating
        error := some { message := "container error: " ++
          ("failed to mount the rootfs: " ++
            env.errText Step.mountPrivate) } } := by
  refine failsWith_mapErrToWrite _ _ _ _ ?_
  unfold mount_rootfs_run
  rw [hf]
  exact errHalt_seq_left (errHalt_tryCall _ _ rfl)

theorem fail_mount_bind (env : Env) (rootfs : String)
    (h1 : env.fails Step.mountPrivate = false)
    (hf : env.fails Step.mountBind = true) :
    FailsWith (mapErrToWrite (mount_rootfs_run env rootfs) Status.creating
        (fun e => "container error: " ++ e))
      { status := Status.creating
        error := some { message := "container error: " ++
          ("failed to mount the rootfs: " ++
            env.errText Step.mountBind) } } := by
  refine failsWith_mapErrToWrite _ _ _ _ ?_
  unfold mount_rootfs_run
  rw [h1, hf]
  exact errHalt_seq_right (cleanRun_tryCall _ _ rfl) (errHalt_tryCall _ _ rfl)

theorem fail_mount_mkdir (env : Env) (rootfs : String) (ms : List Mount)
    (i : Nat) (m : Mount) (hm : ms[i]? = some m)
    (hde : env.destExists i = false)
    (hprev : ∀ j, j < i → env.fails (Step.mountMkdir j) = false ∧
      env.fails (Step.mountApply j) = false)
    (hf : env.fails (Step.mountMkdir i) = true) :
    FailsWith (runListIdx
        (fun k mo => mapErrToWrite (oci_mount_run env rootfs k mo)
          Status.creating (fun e => "container error: " ++ e)) 0 ms)
      { status := Status.creating
        error := some { message := "container error: " ++
          ("failed to create " ++
            pathJoin rootfs (trimLeadingSlashes m.destination) ++ ": " ++
            env.errText (Step.mountMkdir i)) } } := by
  refine failsWith_runListIdx _ 0 ms i m _ hm
    (fun j y hj _ => cleanRun_mapErrToWrite _ _ _
      (clean_oci_mount_run env rootfs (0 + j) y
        (by rw [Nat.zero_add]; exact (hprev j hj).1)
        (by rw [Nat.zero_add]; exact (hprev j hj).2))) ?_
  rw [Nat.zero_add]
  refine failsWith_mapErrToWrite _ _ _ _ ?_
  simp only [oci_mount_run, hde, Bool.false_eq_true, if_false]
  rw [hf]
  exact errHalt_seq_left (errHalt_tryCall _ _ rfl)

theorem fail_mount_apply (env : Env) (rootfs : String) (ms : List Mount)
    (i : Nat) (m : Mount) (hm : ms[i]? = some m)
    (hmk : env.fails (Step.mountMkdir i) = false)
    (hprev : ∀ j, j < i → env.fails (Step.mountMkdir j) = false ∧
      env.fails (Step.mountApply j) = false)
    (hf : env.fails (Step.mountApply i) = true) :
    FailsWith (runListIdx
        (fun k mo => mapErrToWrite (oci_mount_run env rootfs k mo)
          Status.creating (fun e => "container error: " ++ e)) 0 ms)
      { status := Status.creating
        error := some { message := "container error: " ++
          ("failed to mount to " ++
            pathJoin rootfs (trimLeadingSlashes m.destination) ++ ": " ++
            env.errText (Step.mountApply i)) } } := by
  refine failsWith_runListIdx _ 0 ms i m _ hm
    (fun j y hj _ => cleanRun_mapErrToWrite _ _ _
      (clean_oci_mount_run env rootfs (0 + j) y
        (by rw [Nat.zero_add]; exact (hprev j hj).1)
        (by rw [Nat.zero_add]; exact (hprev j hj).2))) ?_
  rw [Nat.zero_add]
  refine failsWith_mapErrToWrite _ _ _ _ ?_
  simp only [oci_mount_run]
  refine errHalt_seq_right ?_ ?_
  · cases hd : env.destExists i
    · simp only [Bool.false_eq_true, if_false]
      rw [hmk]
      exact cleanRun_tryCall _ _ rfl
    · rw [if_pos rfl]
      exact cleanRun_ok _ rfl
  · rw [hf]
    exact errHalt_tryCall _ _ rfl

theorem fail_device_mknod (env : Env) (rootfs : String) (spec : Spec)
    (lx : Linux) (ds : List LinuxDevice) (i : Nat) (d : LinuxDevice)
    (hlx : spec.linux = some lx) (hds : lx.devices = some ds)
    (hd : ds[i]? = some d)
    (hprev : ∀ j, j < i → env.fails (Step.deviceMknod j) = false ∧
      env.fails (Step.deviceChownUid j) = false ∧
      env.fails (Step.deviceChownGid j) = false)
    (hf : env.fails (Step.deviceMknod i) = true) :
    FailsWith (config_devices_run env rootfs spec)
      { status := Status.creating
        error := some { message := "container error: " ++
          ("failed to create the device " ++ d.path ++ ": " ++
            env.errText (Step.deviceMknod i)) } } := by
  simp only [config_devices_run, hlx, hds]
  refine failsWith_runListIdx _ 0 ds i d _ hd
    (fun j y hj _ => cleanRun_mapErrToWrite _ _ _
      (clean_create_device_run env _ _ _ rootfs y
        (by rw [Nat.zero_add]; exact (hprev j hj).1)
        (by rw [Nat.zero_add]; exact (hprev j hj).2.1)
        (by rw [Nat.zero_add]; exact (hprev j hj).2.2))) ?_
  rw [Nat.zero_add]
  refine failsWith_mapErrToWrite _ _ _ _ ?_
  simp only [create_device_run]
  rw [hf]
  exact errHalt_seq_left (errHalt_tryCall _ _ rfl)

theorem fail_device_chown_uid (env : Env) (rootfs : String) (spec : Spec)
    (lx : Linux) (ds : List LinuxDevice) (i : Nat) (d : LinuxDevice)
    (u : Nat) (hlx : spec.linux = some lx) (hds : lx.devices = some ds)
    (hd : ds[i]? = some d) (hu : d.uid = some u)
    (hmk : env.fails (Step.deviceMknod i) = false)
    (hprev : ∀ j, j < i → env.fails (Step.deviceMknod j) = false ∧
      env.fails (Step.deviceChownUid j) = false ∧
      env.fails (Step.deviceChownGid j) = false)
    (hf : env.fails (Step.deviceChownUid i) = true) :
    FailsWith (config_devices_run env rootfs spec)
      { status := Status.creating
        error := some { message := "container error: " ++
          ("failed to create default symlink: " ++
            env.errText (Step.deviceChownUid i)) } } := by
  simp only [config_devices_run, hlx, hds]
  refine failsWith_runListIdx _ 0 ds i d _ hd
    (fun j y hj _ => cleanRun_mapErrToWrite _ _ _
      (clean_create_device_run env _ _ _ rootfs y
        (by rw [Nat.zero_add]; exact (hprev j hj).1)
        (by rw [Nat.zero_add]; exact (hprev j hj).2.1)
        (by rw [Nat.zero_add]; exact (hprev j hj).2.2))) ?_
  rw [Nat.zero_add]
  refine failsWith_mapErrToWrite _ _ _ _ ?_
  simp only [create_device_run]
  rw [hmk]
  refine errHalt_seq_right (cleanRun_tryCall _ _ rfl) ?_
  refine errHalt_seq_left ?_
  simp only [hu]
  rw [hf]
  exact errHalt_tryCall _ _ rfl

theorem fail_device_chown_gid (env : Env) (rootfs : String) (spec : Spec)
    (lx : Linux) (ds : List LinuxDevice) (i : Nat) (d : LinuxDevice)
    (g : Nat) (hlx : spec.linux = some lx) (hds : lx.devices = some ds)
    (hd : ds[i]? = some d) (hg : d.gid = some g)
    (hmk : env.fails (Step.deviceMknod i) = false)
    (hcu : env.fails (Step.deviceChownUid i) = false)
    (hprev : ∀ j, j < i → env.fails (Step.deviceMknod j) = false ∧
      env.fails (Step.deviceChownUid j) = false ∧
      env.fails (Step.deviceChownGid j) = false)
    (hf : env.fails (Step.deviceChownGid i) = true) :
    FailsWith (config_devices_run env rootfs spec)
      { status := Status.creating
        error := some { message := "container error: " ++
          ("failed to create default symlink: " ++
            env.errText (Step.deviceChownGid i)) } } := by
  simp only [config_devices_run, hlx, hds]
  refine failsWith_runListIdx _ 0 ds i d _ hd
    (fun j y hj _ => cleanRun_mapErrToWrite _ _ _
      (clean_create_device_run env _ _ _ rootfs y
        (by rw [Nat.zero_add]; exact (hprev j hj).1)
        (by rw [Nat.zero_add]; exact (hprev j hj).2.1)
        (by rw [Nat.zero_add]; exact (hprev j hj).2.2))) ?_
  rw [Nat.zero_add]
  refine failsWith_mapErrToWrite _ _ _ _ ?_
  simp only [create_device_run]
  rw [hmk]
  refine errHalt_seq_right (cleanRun_tryCall _ _ rfl) ?_
  refine errHalt_seq_right ?_ ?_
  · rcases hu : d.uid with _ | u <;> simp only [hu]
    · exact cleanRun_ok _ rfl
    · rw [hcu]
      exact cleanRun_tryCall _ _ rfl
  · simp only [hg]
    rw [hf]
    exact errHalt_tryCall _ _ rfl

theorem fail_symlink (env : Env) (rootfs : String) (i : Nat)
    (sd : String × String) (hs : default_symlink_list[i]? = some sd)
    (hprev : ∀ j, j < i → env.fails (Step.defaultSymlink j) = false)
    (hf : env.fails (Step.defaultSymlink i) = true) :
    FailsWith (mapErrToWrite (create_default_symlink_run env rootfs)
        Status.creating (fun e => "container error: " ++ e))
      { status := Status.creating
        error := some { message := "container error: " ++
          ("failed to create default symlink: " ++
            env.errText (Step.defaultSymlink i)) } } := by
  refine failsWith_mapErrToWrite _ _ _ _ ?_
  unfold create_default_symlink_run
  refine errHalt_runListIdx _ 0 _ i sd _ hs
    (fun j y hj _ => by
      rw [Nat.zero_add, hprev j hj]
      exact cleanRun_tryCall _ _ rfl) ?_
  rw [Nat.zero_add, hf]
  exact errHalt_tryCall _ _ rfl

theorem fail_create_hook (env : Env) (spec : Spec) (hs : Hooks)
    (l : List Hook) (i : Nat) (hh : spec.hooks = some hs)
    (hl : hs.createContainer = some l) (hi : i < l.length)
    (hprev : ∀ j, j < i → env.fails (Step.createContainerHook j) = false)
    (hf : env.fails (Step.createContainerHook i) = true) :
    FailsWith (create_container_hooks_run env spec)
      { status := Status.stopped
        error := some { message :=
          ("container error: " ++
            env.errText (Step.createContainerHook i)) } } := by
  simp only [create_container_hooks_run, hh, hl]
  obtain ⟨x, hx⟩ : ∃ x, l[i]? = some x := ⟨_, List.getElem?_eq_getElem hi⟩
  refine failsWith_runListIdx _ 0 l i x _ hx
    (fun j y hj _ => cleanRun_tryStep _ _ _ _ _
      (by rw [Nat.zero_add]; exact hprev j hj) rfl) ?_
  rw [Nat.zero_add]
  exact failsWith_tryStep env _ _ _ _ hf rfl

theorem fail_pivot_chdir_rootfs (env : Env) (rootfs : String)
    (hf : env.fails Step.pivotChdirRootfs = true) :
    FailsWith (mapErrToWrite (pivot_rootfs_run env rootfs) Status.creating
        (fun e => "container error: " ++ e))
      { status := Status.creating
        error := some { message := "container error: " ++
          ("failed to run chdir: " ++
            env.errText Step.pivotChdirRootfs) } } := by
  refine failsWith_mapErrToWrite _ _ _ _ ?_
  unfold pivot_rootfs_run
  rw [hf]
  exact errHalt_seq_left (errHalt_tryCall _ _ rfl)

theorem fail_pivot_mkdir (env : Env) (rootfs : String)
    (h1 : env.fails Step.pivotChdirRootfs = false)
    (hf : env.fails Step.pivotMkdir = true) :
    FailsWith (mapErrToWrite (pivot_rootfs_run env rootfs) Status.creating
        (fun e => "container error: " ++ e))
      { status := Status.creating
        error := some { message := "container error: " ++
          ("failed to create ./root_archive: " ++
            env.errText Step.pivotMkdir) } } := by
  refine failsWith_mapErrToWrite _ _ _ _ ?_
  unfold pivot_rootfs_run
  rw [h1, hf]
  exact errHalt_seq_right (cleanRun_tryCall _ _ rfl)
    (errHalt_seq_left (errHalt_tryCall _ _ rfl))

theorem fail_pivot_pivot_root (env : Env) (rootfs : String)
    (h1 : env.fails Step.pivotChdirRootfs = false)
    (h2 : env.fails Step.pivotMkdir = false)
    (hf : env.fails Step.pivotPivotRoot = true) :
    FailsWith (mapErrToWrite (pivot_rootfs_run env rootfs) Status.creating
        (fun e => "container error: " ++ e))
      { status := Status.creating
        error := some { message := "container error: " ++
          ("failed to run pivot_root " ++ rootfs ++ ": " ++
            env.errText Step.pivotPivotRoot) } } := by
  refine failsWith_mapErrToWrite _ _ _ _ ?_
  unfold pivot_rootfs_run
  rw [h1, h2, hf]
  exact errHalt_seq_right (cleanRun_tryCall _ _ rfl)
    (errHalt_seq_right (cleanRun_tryCall _ _ rfl)
      (errHalt_seq_left (errHalt_tryCall _ _ rfl)))

theorem fail_pivot_umount (env : Env) (rootfs : String)
    (h1 : env.fails Step.pivotChdirRootfs = false)
    (h2 : env.fails Step.pivotMkdir = false)
    (h3 : env.fails Step.pivotPivotRoot = false)
    (hf : env.fails Step.pivotUmount = true) :
    FailsWith (mapErrToWrite (pivot_rootfs_run env rootfs) Status.creating
        (fun e => "container error: " ++ e))
      { status := Status.creating
        error := some { message := "container error: " ++
          ("failed to unmount ./root_archive: " ++
            env.errText Step.pivotUmount) } } := by
  refine failsWith_mapErrToWrite _ _ _ _ ?_
  unfold pivot_rootfs_run
  rw [h1, h2, h3, hf]
  exact errHalt_seq_right (cleanRun_tryCall _ _ rfl)
    (errHalt_seq_right (cleanRun_tryCall _ _ rfl)
      (errHalt_seq_right (cleanRun_tryCall _ _ rfl)
        (errHalt_seq_left (errHalt_tryCall _ _ rfl))))

theorem fail_pivot_remove_dir (env : Env) (rootfs : String)
    (h1 : env.fails Step.pivotChdirRootfs = false)
    (h2 : env.fails Step.pivotMkdir = false)
    (h3 : env.fails Step.pivotPivotRoot = false)
    (h4 : env.fails Step.pivotUmount = false)
    (hf : env.fails Step.pivotRemoveDir = true) :
    FailsWith (mapErrToWrite (pivot_rootfs_run env rootfs) Status.creating
        (fun e => "container error: " ++ e))
      { status := Status.creating
        error := some { message := "container error: " ++
          ("failed to remove ./root_archive: " ++
            env.errText Step.pivotRemoveDir) } } := by
  refine failsWith_mapErrToWrite _ _ _ _ ?_
  unfold pivot_rootfs_run
  rw [h1, h2, h3, h4, hf]
  exact errHalt_seq_right (cleanRun_tryCall _ _ rfl)
    (errHalt_seq_right (cleanRun_tryCall _ _ rfl)
      (errHalt_seq_right (cleanRun_tryCall _ _ rfl)
        (errHalt_seq_right (cleanRun_tryCall _ _ rfl)
          (errHalt_seq_left (errHalt_tryCall _ _ rfl)))))

theorem fail_pivot_chdir_root (env : Env) (rootfs : String)
    (h1 : env.fails Step.pivotChdirRootfs = false)
    (h2 : env.fails Step.pivotMkdir = false)
    (h3 : env.fails Step.pivotPivotRoot = false)
    (h4 : env.fails Step.pivotUmount = false)
    (h5 : env.fails Step.pivotRemoveDir = false)
    (hf : env.fails Step.pivotChdirRoot = true) :
    FailsWith (mapErrToWrite (pivot_rootfs_run env rootfs) Status.creating
        (fun e => "container error: " ++ e))
      { status := Status.creating
        error := some { message := "container error: " ++
          ("failed to run chdir: " ++
            env.errText Step.pivotChdirRoot) } } := by
  refine failsWith_mapErrToWrite _ _ _ _ ?_
  unfold pivot_rootfs_run
  rw [h1, h2, h3, h4, h5, hf]
  exact errHalt_seq_right (cleanRun_tryCall _ _ rfl)
    (errHalt_seq_right (cleanRun_tryCall _ _ rfl)
      (errHalt_seq_right (cleanRun_tryCall _ _ rfl)
        (errHalt_seq_right (cleanRun_tryCall _ _ rfl)
          (errHalt_seq_right (cleanRun_tryCall _ _ rfl)
            (errHalt_tryCall _ _ rfl)))))

theorem fail_sysctl (env : Env) (spec : Spec) (lx : Linux)
    (kvs : List (String × String)) (i : Nat) (kv : String × String)
    (hlx : spec.linux = some lx) (hsy : lx.sysctl = some kvs)
    (hkv : kvs[i]? = some kv)
    (hprev : ∀ j, j < i → env.fails (Step.sysctl j) = false)
    (hf : env.fails (Step.sysctl i) = true) :
    FailsWith (sysctl_run env spec)
      { status := Status.stopped
        error := some { message :=
          ("failed to set " ++ kv.1 ++ " to " ++ kv.2 ++ ": " ++
            env.errText (Step.sysctl i)) } } := by
  simp only [sysctl_run, hlx, hsy]
  refine failsWith_runListIdx _ 0 kvs i kv _ hkv
    (fun j y hj _ => cleanRun_tryStep _ _ _ _ _
      (by rw [Nat.zero_add]; exact hprev j hj) rfl) ?_
  rw [Nat.zero_add]
  exact failsWith_tryStep env _ _ _ _ hf rfl

theorem fail_start_hook (env : Env) (spec : Spec) (hs : Hooks)
    (l : List Hook) (i : Nat) (hh : spec.hooks = some hs)
    (hl : hs.startContainer = some l) (hi : i < l.length)
    (hprev : ∀ j, j < i → env.fails (Step.startContainerHook j) = false)
    (hf : env.fails (Step.startContainerHook i) = true) :
    FailsWith (start_phase_run env spec)
      { status := Status.stopped
        error := some { message :=
          ("container error: " ++
            env.errText (Step.startContainerHook i)) } } := by
  unfold start_phase_run
  refine FailsWith.seq_left ?_
  simp only [start_container_hooks_run, hh, hl]
  obtain ⟨x, hx⟩ : ∃ x, l[i]? = some x := ⟨_, List.getElem?_eq_getElem hi⟩
  refine failsWith_runListIdx _ 0 l i x _ hx
    (fun j y hj _ => cleanRun_tryStep _ _ _ _ _
      (by rw [Nat.zero_add]; exact hprev j hj) rfl) ?_
  rw [Nat.zero_add]
  exact failsWith_tryStep env _ _ _ _ hf rfl

theorem fail_rlimit (env : Env) (spec : Spec) (p : Process) (a0 : String)
    (rest : List String) (rl : List LinuxRlimit) (i : Nat) (r : LinuxRlimit)
    (hp : spec.process = some p) (ha : p.args = some (a0 :: rest))
    (hrl : p.rlimits = some rl) (hr : rl[i]? = some r)
    (hhk : ∀ j, env.fails (Step.startContainerHook j) = false)
    (hprev : ∀ j, j < i → env.fails (Step.rlimit j) = false)
    (hf : env.fails (Step.rlimit i) = true) :
    FailsWith (start_phase_run env spec)
      { status := Status.stopped
        error := some { message :=
          ("container error: " ++ env.errText (Step.rlimit i)) } } := by
  unfold start_phase_run
  refine FailsWith.seq_right (clean_start_hooks_run env spec hhk) ?_
  simp only [process_run, hp, ha]
  refine FailsWith.seq_right (clean_env_sets p) ?_
  refine FailsWith.seq_left ?_
  simp only [rlimits_run, hrl]
  refine failsWith_runListIdx _ 0 rl i r _ hr
    (fun j y hj _ => cleanRun_tryStep _ _ _ _ _
      (by rw [Nat.zero_add]; exact hprev j hj) rfl) ?_
  rw [Nat.zero_add]
  exact failsWith_tryStep env _ _ _ _ hf rfl

theorem fail_oom (env : Env) (spec : Spec) (p : Process) (a0 : String)
    (rest : List String) (n : Int) (hp : spec.process = some p)
    (ha : p.args = some (a0 :: rest)) (hn : p.oomScoreAdj = some n)
    (hhk : ∀ j, env.fails (Step.startContainerHook j) = false)
    (hrl : ∀ j, env.fails (Step.rlimit j) = false)
    (hf : env.fails Step.oomScoreAdj = true) :
    FailsWith (start_phase_run env spec)
      { status := Status.stopped
        error := some { message :=
          ("failed to set oom_score_adj to " ++ toString n ++ ": " ++
            env.errText Step.oomScoreAdj) } } := by
  unfold start_phase_run
  refine FailsWith.seq_right (clean_start_hooks_run env spec hhk) ?_
  simp only [process_run, hp, ha]
  refine FailsWith.seq_right (clean_env_sets p) ?_
  refine FailsWith.seq_right (clean_rlimits_run env p hrl) ?_
  refine FailsWith.seq_left ?_
  simp only [oom_run, hn]
  exact failsWith_tryStep env _ _ _ _ hf rfl

theorem fail_keepcaps_on (env : Env) (spec : Spec) (p : Process) (a0 : String)
    (rest : List String) (hp : spec.process = some p)
    (ha : p.args = some (a0 :: rest))
    (hhk : ∀ j, env.fails (Step.startContainerHook j) = false)
    (hrl : ∀ j, env.fails (Step.rlimit j) = false)
    (hoom : env.fails Step.oomScoreAdj = false)
    (hf : env.fails Step.keepCapsOn = true) :
    FailsWith (start_phase_run env spec)
      { status := Status.stopped
        error := some { message :=
          ("failed to set PR_SET_KEEPCAPS to true: " ++
            env.errText Step.keepCapsOn) } } := by
  unfold start_phase_run
  refine FailsWith.seq_right (clean_start_hooks_run env spec hhk) ?_
  simp only [process_run, hp, ha]
  refine FailsWith.seq_right (clean_env_sets p) ?_
  refine FailsWith.seq_right (clean_rlimits_run env p hrl) ?_
  refine FailsWith.seq_right (clean_oom_run env p hoom) ?_
  refine FailsWith.seq_right (clean_bounding_run env p) ?_
  exact FailsWith.seq_left (failsWith_tryStep env _ _ _ _ hf rfl)

theorem fail_setgid (env : Env) (spec : Spec) (p : Process) (a0 : String)
    (rest : List String) (hp : spec.process = some p)
    (ha : p.args = some (a0 :: rest))
    (hhk : ∀ j, env.fails (Step.startContainerHook j) = false)
    (hrl : ∀ j, env.fails (Step.rlimit j) = false)
    (hoom : env.fails Step.oomScoreAdj = false)
    (hkOn : env.fails Step.keepCapsOn = false)
    (hf : env.fails Step.setgid = true) :
    FailsWith (start_phase_run env spec)
      { status := Status.stopped
        error := some { message :=
          ("failed to set gid to " ++ toString p.user.gid ++ ": " ++
            env.errText Step.setgid) } } := by
  unfold start_phase_run
  refine FailsWith.seq_right (clean_start_hooks_run env spec hhk) ?_
  simp only [process_run, hp, ha]
  refine FailsWith.seq_right (clean_env_sets p) ?_
  refine FailsWith.seq_right (clean_rlimits_run env p hrl) ?_
  refine FailsWith.seq_right (clean_oom_run env p hoom) ?_
  refine FailsWith.seq_right (clean_bounding_run env p) ?_
  refine FailsWith.seq_right (cleanRun_tryStep _ _ _ _ _ hkOn rfl) ?_
  exact FailsWith.seq_left (failsWith_tryStep env _ _ _ _ hf rfl)

theorem fail_setgroups (env : Env) (spec : Spec) (p : Process) (a0 : String)
    (rest : List String) (gids : List Nat) (hp : spec.process = some p)
    (ha : p.args = some (a0 :: rest))
    (hg : p.user.additionalGids = some gids)
    (hhk : ∀ j, env.fails (Step.startContainerHook j) = false)
    (hrl : ∀ j, env.fails (Step.rlimit j) = false)
    (hoom : env.fails Step.oomScoreAdj = false)
    (hkOn : env.fails Step.keepCapsOn = false)
    (hgid : env.fails Step.setgid = false)
    (hf : env.fails Step.setgroups = true) :
    FailsWith (start_phase_run env spec)
      { status := Status.stopped
        error := some { message :=
          ("failed to set additional gids: " ++
            env.errText Step.setgroups) } } := by
  unfold start_phase_run
  refine FailsWith.seq_right (clean_start_hooks_run env spec hhk) ?_
  simp only [process_run, hp, ha]
  refine FailsWith.seq_right (clean_env_sets p) ?_
  refine FailsWith.seq_right (clean_rlimits_run env p hrl) ?_
  refine FailsWith.seq_right (clean_oom_run env p hoom) ?_
  refine FailsWith.seq_right (clean_bounding_run env p) ?_
  refine FailsWith.seq_right (cleanRun_tryStep _ _ _ _ _ hkOn rfl) ?_
  refine FailsWith.seq_right (cleanRun_tryStep _ _ _ _ _ hgid rfl) ?_
  refine FailsWith.seq_left ?_
  simp only [groups_run, hg]
  exact failsWith_tryStep env _ _ _ _ hf rfl

theorem fail_setuid (env : Env) (spec : Spec) (p : Process) (a0 : String)
    (rest : List String) (hp : spec.process = some p)
    (ha : p.args = some (a0 :: rest))
    (hhk : ∀ j, env.fails (Step.startContainerHook j) = false)
    (hrl : ∀ j, env.fails (Step.rlimit j) = false)
    (hoom : env.fails Step.oomScoreAdj = false)
    (hkOn : env.fails Step.keepCapsOn = false)
    (hgid : env.fails Step.setgid = false)
    (hgrp : env.fails Step.setgroups = false)
    (hf : env.fails Step.setuid = true) :
    FailsWith (start_phase_run env spec)
      { status := Status.stopped
        error := some { message :=
          ("failed to set uid to " ++ toString p.user.uid ++ ": " ++
            env.errText Step.setuid) } } := by
  unfold start_phase_run
  refine FailsWith.seq_right (clean_start_hooks_run env spec hhk) ?_
  simp only [process_run, hp, ha]
  refine FailsWith.seq_right (clean_env_sets p) ?_
  refine FailsWith.seq_right (clean_rlimits_run env p hrl) ?_
  refine FailsWith.seq_right (clean_oom_run env p hoom) ?_
  refine FailsWith.seq_right (clean_bounding_run env p) ?_
  refine FailsWith.seq_right (cleanRun_tryStep _ _ _ _ _ hkOn rfl) ?_
  refine FailsWith.seq_right (cleanRun_tryStep _ _ _ _ _ hgid rfl) ?_
  refine FailsWith.seq_right (clean_groups_run env p hgrp) ?_
  exact FailsWith.seq_left (failsWith_tryStep env _ _ _ _ hf rfl)

theorem fail_keepcaps_off (env : Env) (spec : Spec) (p : Process)
    (a0 : String) (rest : List String) (hp : spec.process = some p)
    (ha : p.args = some (a0 :: rest))
    (hhk : ∀ j, env.fails (Step.startContainerHook j) = false)
    (hrl : ∀ j, env.fails (Step.rlimit j) = false)
    (hoom : env.fails Step.oomScoreAdj = false)
    (hkOn : env.fails Step.keepCapsOn = false)
    (hgid : env.fails Step.setgid = false)
    (hgrp : env.fails Step.setgroups = false)
    (huid : env.fails Step.setuid = false)
    (hf : env.fails Step.keepCapsOff = true) :
    FailsWith (start_phase_run env spec)
      { status := Status.stopped
        error := some { message :=
          ("failed to set PR_SET_KEEPCAPS to false: " ++
            env.errText Step.keepCapsOff) } } := by
  unfold start_phase_run
  refine FailsWith.seq_right (clean_start_hooks_run env spec hhk) ?_
  simp only [process_run, hp, ha]
  refine FailsWith.seq_right (clean_env_sets p) ?_
  refine FailsWith.seq_right (clean_rlimits_run env p hrl) ?_
  refine FailsWith.seq_right (clean_oom_run env p hoom) ?_
  refine FailsWith.seq_right (clean_bounding_run env p) ?_
  refine FailsWith.seq_right (cleanRun_tryStep _ _ _ _ _ hkOn rfl) ?_
  refine FailsWith.seq_right (cleanRun_tryStep _ _ _ _ _ hgid rfl) ?_
  refine FailsWith.seq_right (clean_groups_run env p hgrp) ?_
  refine FailsWith.seq_right (cleanRun_tryStep _ _ _ _ _ huid rfl) ?_
  exact FailsWith.seq_left (failsWith_tryStep env _ _ _ _ hf rfl)

theorem fail_chdir_cwd (env : Env) (spec : Spec) (p : Process) (a0 : String)
    (rest : List String) (hp : spec.process = some p)
    (ha : p.args = some (a0 :: rest))
    (hhk : ∀ j, env.fails (Step.startContainerHook j) = false)
    (hrl : ∀ j, env.fails (Step.rlimit j) = false)
    (hoom : env.fails Step.oomScoreAdj = false)
    (hkOn : env.fails Step.keepCapsOn = false)
    (hgid : env.fails Step.setgid = false)
    (hgrp : env.fails Step.setgroups = false)
    (huid : env.fails Step.setuid = false)
    (hkOff : env.fails Step.keepCapsOff = false)
    (hf : env.fails Step.chdirCwd = true) :
    FailsWith (start_phase_run env spec)
      { status := Status.stopped
        error := some { message :=
          ("failed to change the working directory to " ++ p.cwd ++ ": " ++
            env.errText Step.chdirCwd) } } := by
  unfold start_phase_run
  refine FailsWith.seq_right (clean_start_hooks_run env spec hhk) ?_
  simp only [process_run, hp, ha]
  refine FailsWith.seq_right (clean_env_sets p) ?_
  refine FailsWith.seq_right (clean_rlimits_run env p hrl) ?_
  refine FailsWith.seq_right (clean_oom_run env p hoom) ?_
  refine FailsWith.seq_right (clean_bounding_run env p) ?_
  refine FailsWith.seq_right (cleanRun_tryStep _ _ _ _ _ hkOn rfl) ?_
  refine FailsWith.seq_right (cleanRun_tryStep _ _ _ _ _ hgid rfl) ?_
  refine FailsWith.seq_right (clean_groups_run env p hgrp) ?_
  refine FailsWith.seq_right (cleanRun_tryStep _ _ _ _ _ huid rfl) ?_
  refine FailsWith.seq_right (cleanRun_tryStep _ _ _ _ _ hkOff rfl) ?_
  refine FailsWith.seq_right (clean_cap_sets_run env p) ?_
  exact FailsWith.seq_left (failsWith_tryStep env _ _ _ _ hf rfl)

theorem fail_execvp (env : Env) (spec : Spec) (p : Process) (a0 : String)
    (rest : List String) (hp : spec.process = some p)
    (ha : p.args = some (a0 :: rest))
    (hhk : ∀ j, env.fails (Step.startContainerHook j) = false)
    (hrl : ∀ j, env.fails (Step.rlimit j) = false)
    (hoom : env.fails Step.oomScoreAdj = false)
    (hkOn : env.fails Step.keepCapsOn = false)
    (hgid : env.fails Step.setgid = false)
    (hgrp : env.fails Step.setgroups = false)
    (huid : env.fails Step.setuid = false)
    (hkOff : env.fails Step.keepCapsOff = false)
    (hcwd : env.fails Step.chdirCwd = false)
    (hf : env.fails Step.execvp = true) :
    FailsWith (start_phase_run env spec)
      { status := Status.stopped
        error := some { message :=
          ("container error: " ++ env.errText Step.execvp) } } := by
  unfold start_phase_run
  refine FailsWith.seq_right (clean_start_hooks_run env spec hhk) ?_
  simp only [process_run, hp, ha]
  refine FailsWith.seq_right (clean_env_sets p) ?_
  refine FailsWith.seq_right (clean_rlimits_run env p hrl) ?_
  refine FailsWith.seq_right (clean_oom_run env p hoom) ?_
  refine FailsWith.seq_right (clean_bounding_run env p) ?_
  refine FailsWith.seq_right (cleanRun_tryStep _ _ _ _ _ hkOn rfl) ?_
  refine FailsWith.seq_right (cleanRun_tryStep _ _ _ _ _ hgid rfl) ?_
  refine FailsWith.seq_right (clean_groups_run env p hgrp) ?_
  refine FailsWith.seq_right (cleanRun_tryStep _ _ _ _ _ huid rfl) ?_
  refine FailsWith.seq_right (cleanRun_tryStep _ _ _ _ _ hkOff rfl) ?_
  refine FailsWith.seq_right (clean_cap_sets_run env p) ?_
  refine FailsWith.seq_right (cleanRun_tryStep _ _ _ _ _ hcwd rfl) ?_
  refine FailsWith.seq_right (cleanRun_ok _ rfl) ?_
  rw [hf]
  rw [if_pos rfl]
  exact ⟨rfl, rfl⟩

/-- **C7** counterexample.  The claim says a failure before `pivot_root`
is reported with status `Creating`; but a failing `createContainer` hook —
which runs before `pivot_rootfs` — is reported with status `Stopped`: in
the concrete bundle `specC7`, the environment `envC7` in which exactly the
first `createContainer` hook fails makes the child write the single
message `(Stopped, "container error: E")` and exit 1. -/
theorem child_error_status_counterexample :
    stepBeforePivot (Step.createContainerHook 0) = true ∧
    originalClaimStatus (Step.createContainerHook 0) = Status.creating ∧
    FailsWith (childRun [] specC7 stC7 envC7)
      { status := Status.stopped
        error := some { message := "container error: E" } } ∧
    Status.stopped ≠ Status.creating := by
  refine ⟨rfl, rfl, ⟨?_, rfl⟩, by decide⟩
  rfl

/-- **C7** (amended).  In a run of the child pipeline in which exactly one
step `s` fails — `s` being reachable in the given bundle and being one of
the steps whose failure is reported over the socket (`stepEnabled`
excludes the `unwrap` panics of the default devices and `sethostname` and
the print-only capability writes) — the child writes exactly one error
message, whose text ends with the error text of `s`, carrying status
`amendedErrStatus s`: `Stopped` for the `createContainer` hooks and for
every step from `sysctl` on, `Creating` otherwise; the child then exits
with code 1.  In particular the status is not determined by the position
of `s` relative to `pivot_root`. -/
theorem child_error_reporting_amended (namespaces : List LinuxNamespace)
    (spec : Spec) (st : State) (env : Env) (s : Step)
    (henv : env.fails = fun t => decide (t = s))
    (hen : stepEnabled namespaces spec env s) :
    ∃ pre : String,
      FailsWith (childRun namespaces spec st env)
        { status := amendedErrStatus s
          error := some { message := pre ++ env.errText s } } := by
  cases s with
  | nsOpen i =>
    simp only [stepEnabled] at hen
    obtain ⟨ns, pth, hns, hp⟩ := hen
    refine ⟨"container error: ", ?_⟩
    exact childRun_fail_ns namespaces spec st env _
      (fail_ns_open env namespaces i ns pth hns hp
        (fun j hj =>
          ⟨oneFail_ne env _ _ henv (by intro hc; injection hc with h2; omega),
           oneFail_ne env _ _ henv (by intro hc; exact Step.noConfusion hc)⟩)
        (oneFail_self env _ henv))
  | nsSetns i =>
    simp only [stepEnabled] at hen
    obtain ⟨ns, pth, hns, hp⟩ := hen
    refine ⟨"container error: ", ?_⟩
    exact childRun_fail_ns namespaces spec st env _
      (fail_ns_setns env namespaces i ns pth hns hp
        (fun j hj =>
          ⟨oneFail_ne env _ _ henv (by intro hc; exact Step.noConfusion hc),
           oneFail_ne env _ _ henv (by intro hc; injection hc with h2; omega)⟩)
        (oneFail_ne env _ _ henv (by intro hc; exact Step.noConfusion hc))
        (oneFail_self env _ henv))
  | mountPrivate =>
    simp only [stepEnabled] at hen
    rcases hroot : spec.root with _ | root
    · rw [hroot] at hen
      simp at hen
    · refine ⟨"container error: " ++ "failed to mount the rootfs: ", ?_⟩
      have h := childRun_fail_mount_rootfs namespaces spec st env root _ hroot
        (oneFail_lt env _ 3 henv (by simp [stepSeg]))
        (fail_mount_private env _ (oneFail_self env _ henv))
      simpa only [String.append_assoc] using h
  | mountBind =>
    simp only [stepEnabled] at hen
    rcases hroot : spec.root with _ | root
    · rw [hroot] at hen
      simp at hen
    · refine ⟨"container error: " ++ "failed to mount the rootfs: ", ?_⟩
      have h := childRun_fail_mount_rootfs namespaces spec st env root _ hroot
        (oneFail_lt env _ 3 henv (by simp [stepSeg]))
        (fail_mount_bind env _
          (oneFail_ne env _ _ henv (by intro hc; exact Step.noConfusion hc))
          (oneFail_self env _ henv))
      simpa only [String.append_assoc] using h
  | mountMkdir i =>
    simp only [stepEnabled] at hen
    obtain ⟨h1, hde, ms, mm, hms, hm⟩ := hen
    rcases hroot : spec.root with _ | root
    · rw [hroot] at h1
      simp at h1
    · refine ⟨"container error: " ++ "failed to create " ++
        pathJoin (pathJoin st.bundle root.path)
          (trimLeadingSlashes mm.destination) ++ ": ", ?_⟩
      have h := childRun_fail_mounts namespaces spec st env root ms _ hroot hms
        (oneFail_lt env _ 4 henv (by simp [stepSeg]))
        (fail_mount_mkdir env _ ms i mm hm hde
          (fun j hj =>
            ⟨oneFail_ne env _ _ henv (by intro hc; injection hc with h2; omega),
             oneFail_ne env _ _ henv (by intro hc; exact Step.noConfusion hc)⟩)
          (oneFail_self env _ henv))
      simpa only [String.append_assoc] using h
  | mountApply i =>
    simp only [stepEnabled] at hen
    obtain ⟨h1, ms, mm, hms, hm⟩ := hen
    rcases hroot : spec.root with _ | root
    · rw [hroot] at h1
      simp at h1
    · refine ⟨"container error: " ++ "failed to mount to " ++
        pathJoin (pathJoin st.bundle root.path)
          (trimLeadingSlashes mm.destination) ++ ": ", ?_⟩
      have h := childRun_fail_mounts namespaces spec st env root ms _ hroot hms
        (oneFail_lt env _ 4 henv (by simp [stepSeg]))
        (fail_mount_apply env _ ms i mm hm
          (oneFail_ne env _ _ henv (by intro hc; exact Step.noConfusion hc))
          (fun j hj =>
            ⟨oneFail_ne env _ _ henv (by intro hc; exact Step.noConfusion hc),
             oneFail_ne env _ _ henv (by intro hc; injection hc with h2; omega)⟩)
          (oneFail_self env _ henv))
      simpa only [String.append_assoc] using h
  | deviceMknod i =>
    simp only [stepEnabled] at hen
    obtain ⟨h1, lx, ds, d, hlx, hds, hd⟩ := hen
    rcases hroot : spec.root with _ | root
    · rw [hroot] at h1
      simp at h1
    · refine ⟨"container error: " ++ "failed to create the device " ++
        d.path ++ ": ", ?_⟩
      have h := childRun_fail_config_devices namespaces spec st env root _
        hroot (oneFail_lt env _ 5 henv (by simp [stepSeg]))
        (fail_device_mknod env _ spec lx ds i d hlx hds hd
          (fun j hj =>
            ⟨oneFail_ne env _ _ henv (by intro hc; injection hc with h2; omega),
             oneFail_ne env _ _ henv (by intro hc; exact Step.noConfusion hc),
             oneFail_ne env _ _ henv (by intro hc; exact Step.noConfusion hc)⟩)
          (oneFail_self env _ henv))
      simpa only [String.append_assoc] using h
  | deviceChownUid i =>
    simp only [stepEnabled] at hen
    obtain ⟨h1, lx, ds, d, u, hlx, hds, hd, hu⟩ := hen
    rcases hroot : spec.root with _ | root
    · rw [hroot] at h1
      simp at h1
    · refine ⟨"container error: " ++ "failed to create default symlink: ", ?_⟩
      have h := childRun_fail_config_devices namespaces spec st env root _
        hroot (oneFail_lt env _ 5 henv (by simp [stepSeg]))
        (fail_device_chown_uid env _ spec lx ds i d u hlx hds hd hu
          (oneFail_ne env _ _ henv (by intro hc; exact Step.noConfusion hc))
          (fun j hj =>
            ⟨oneFail_ne env _ _ henv (by intro hc; exact Step.noConfusion hc),
             oneFail_ne env _ _ henv (by intro hc; injection hc with h2; omega),
             oneFail_ne env _ _ henv (by intro hc; exact Step.noConfusion hc)⟩)
          (oneFail_self env _ henv))
      simpa only [String.append_assoc] using h
  | deviceChownGid i =>
    simp only [stepEnabled] at hen
    obtain ⟨h1, lx, ds, d, g, hlx, hds, hd, hg⟩ := hen
    rcases hroot : spec.root with _ | root
    · rw [hroot] at h1
      simp at h1
    · refine ⟨"container error: " ++ "failed to create default symlink: ", ?_⟩
      have h := childRun_fail_config_devices namespaces spec st env root _
        hroot (oneFail_lt env _ 5 henv (by simp [stepSeg]))
        (fail_device_chown_gid env _ spec lx ds i d g hlx hds hd hg
          (oneFail_ne env _ _ henv (by intro hc; exact Step.noConfusion hc))
          (oneFail_ne env _ _ henv (by intro hc; exact Step.noConfusion hc))
          (fun j hj =>
            ⟨oneFail_ne env _ _ henv (by intro hc; exact Step.noConfusion hc),
             oneFail_ne env _ _ henv (by intro hc; exact Step.noConfusion hc),
             oneFail_ne env _ _ henv (by intro hc; injection hc with h2; omega)⟩)
          (oneFail_self env _ henv))
      simpa only [String.append_assoc] using h
  | defaultDeviceMknod i => exact False.elim hen
  | defaultDeviceChownUid i => exact False.elim hen
  | defaultDeviceChownGid i => exact False.elim hen
  | defaultSymlink i =>
    simp only [stepEnabled] at hen
    obtain ⟨h1, hi⟩ := hen
    rcases hroot : spec.root with _ | root
    · rw [hroot] at h1
      simp at h1
    · obtain ⟨sd, hsd⟩ : ∃ sd, default_symlink_list[i]? = some sd := by
        rw [List.getElem?_eq_getElem
          (by simpa [default_symlink_list] using hi)]
        exact ⟨_, rfl⟩
      refine ⟨"container error: " ++ "failed to create default symlink: ", ?_⟩
      have h := childRun_fail_symlinks namespaces spec st env root _ hroot
        (oneFail_lt env _ 7 henv (by simp [stepSeg]))
        (fail_symlink env _ i sd hsd
          (fun j hj =>
            oneFail_ne env _ _ henv (by intro hc; injection hc with h2; omega))
          (oneFail_self env _ henv))
      simpa only [String.append_assoc] using h
  | hostname => exact False.elim hen
  | createContainerHook i =>
    simp only [stepEnabled] at hen
    obtain ⟨h1, hs2, l, hh, hl, hi⟩ := hen
    rcases hroot : spec.root with _ | root
    · rw [hroot] at h1
      simp at h1
    · refine ⟨"container error: ", ?_⟩
      exact childRun_fail_create_hooks namespaces spec st env root _ hroot
        (oneFail_lt env _ 10 henv (by simp [stepSeg]))
        (fail_create_hook env spec hs2 l i hh hl hi
          (fun j hj =>
            oneFail_ne env _ _ henv (by intro hc; injection hc with h2; omega))
          (oneFail_self env _ henv))
  | pivotChdirRootfs =>
    simp only [stepEnabled] at hen
    rcases hroot : spec.root with _ | root
    · rw [hroot] at hen
      simp at hen
    · refine ⟨"container error: " ++ "failed to run chdir: ", ?_⟩
      have h := childRun_fail_pivot namespaces spec st env root _ hroot
        (oneFail_lt env _ 11 henv (by simp [stepSeg]))
        (fail_pivot_chdir_rootfs env _ (oneFail_self env _ henv))
      simpa only [String.append_assoc] using h
  | pivotMkdir =>
    simp only [stepEnabled] at hen
    rcases hroot : spec.root with _ | root
    · rw [hroot] at hen
      simp at hen
    · refine ⟨"container error: " ++ "failed to create ./root_archive: ", ?_⟩
      have h := childRun_fail_pivot namespaces spec st env root _ hroot
        (oneFail_lt env _ 11 henv (by simp [stepSeg]))
        (fail_pivot_mkdir env _
          (oneFail_ne env _ _ henv (by intro hc; exact Step.noConfusion hc))
          (oneFail_self env _ henv))
      simpa only [String.append_assoc] using h
  | pivotPivotRoot =>
    simp only [stepEnabled] at hen
    rcases hroot : spec.root with _ | root
    · rw [hroot] at hen
      simp at hen
    · refine ⟨"container error: " ++ "failed to run pivot_root " ++
        pathJoin st.bundle root.path ++ ": ", ?_⟩
      have h := childRun_fail_pivot namespaces spec st env root _ hroot
        (oneFail_lt env _ 11 henv (by simp [stepSeg]))
        (fail_pivot_pivot_root env _
          (oneFail_ne env _ _ henv (by intro hc; exact Step.noConfusion hc))
          (oneFail_ne env _ _ henv (by intro hc; exact Step.noConfusion hc))
          (oneFail_self env _ henv))
      simpa only [String.append_assoc] using h
  | pivotUmount =>
    simp only [stepEnabled] at hen
    rcases hroot : spec.root with _ | root
    · rw [hroot] at hen
      simp at hen
    · refine ⟨"container error: " ++ "failed to unmount ./root_archive: ", ?_⟩
      have h := childRun_fail_pivot namespaces spec st env root _ hroot
        (oneFail_lt env _ 11 henv (by simp [stepSeg]))
        (fail_pivot_umount env _
          (oneFail_ne env _ _ henv (by intro hc; exact Step.noConfusion hc))
          (oneFail_ne env _ _ henv (by intro hc; exact Step.noConfusion hc))
          (oneFail_ne env _ _ henv (by intro hc; exact Step.noConfusion hc))
          (oneFail_self env _ henv))
      simpa only [String.append_assoc] using h
  | pivotRemoveDir =>
    simp only [stepEnabled] at hen
    rcases hroot : spec.root with _ | root
    · rw [hroot] at hen
      simp at hen
    · refine ⟨"container error: " ++ "failed to remove ./root_archive: ", ?_⟩
      have h := childRun_fail_pivot namespaces spec st env root _ hroot
        (oneFail_lt env _ 11 henv (by simp [stepSeg]))
        (fail_pivot_remove_dir env _
          (oneFail_ne env _ _ henv (by intro hc; exact Step.noConfusion hc))
          (oneFail_ne env _ _ henv (by intro hc; exact Step.noConfusion hc))
          (oneFail_ne env _ _ henv (by intro hc; exact Step.noConfusion hc))
          (oneFail_ne env _ _ henv (by intro hc; exact Step.noConfusion hc))
          (oneFail_self env _ henv))
      simpa only [String.append_assoc] using h
  | pivotChdirRoot =>
    simp only [stepEnabled] at hen
    rcases hroot : spec.root with _ | root
    · rw [hroot] at hen
      simp at hen
    · refine ⟨"container error: " ++ "failed to run chdir: ", ?_⟩
      have h := childRun_fail_pivot namespaces spec st env root _ hroot
        (oneFail_lt env _ 11 henv (by simp [stepSeg]))
        (fail_pivot_chdir_root env _
          (oneFail_ne env _ _ henv (by intro hc; exact Step.noConfusion hc))
          (oneFail_ne env _ _ henv (by intro hc; exact Step.noConfusion hc))
          (oneFail_ne env _ _ henv (by intro hc; exact Step.noConfusion hc))
          (oneFail_ne env _ _ henv (by intro hc; exact Step.noConfusion hc))
          (oneFail_ne env _ _ henv (by intro hc; exact Step.noConfusion hc))
          (oneFail_self env _ henv))
      simpa only [String.append_assoc] using h
  | sysctl i =>
    simp only [stepEnabled] at hen
    obtain ⟨h1, lx, kvs, kv, hlx, hsy, hkv⟩ := hen
    rcases hroot : spec.root with _ | root
    · rw [hroot] at h1
      simp at h1
    · refine ⟨"failed to set " ++ kv.1 ++ " to " ++ kv.2 ++ ": ", ?_⟩
      have h := childRun_fail_sysctl namespaces spec st env root _ hroot
        (oneFail_lt env _ 12 henv (by simp [stepSeg]))
        (fail_sysctl env spec lx kvs i kv hlx hsy hkv
          (fun j hj =>
            oneFail_ne env _ _ henv (by intro hc; injection hc with h2; omega))
          (oneFail_self env _ henv))
      simpa only [String.append_assoc] using h
  | startContainerHook i =>
    simp only [stepEnabled] at hen
    obtain ⟨h1, hs2, l, hh, hl, hi⟩ := hen
    rcases hroot : spec.root with _ | root
    · rw [hroot] at h1
      simp at h1
    · refine ⟨"container error: ", ?_⟩
      exact childRun_fail_start_phase namespaces spec st env root _ hroot
        (oneFail_lt env _ 14 henv (by simp [stepSeg]))
        (fail_start_hook env spec hs2 l i hh hl hi
          (fun j hj =>
            oneFail_ne env _ _ henv (by intro hc; injection hc with h2; omega))
          (oneFail_self env _ henv))
  | rlimit i =>
    simp only [stepEnabled] at hen
    obtain ⟨h1, p, a0, rest, rl, r, hp, ha, hrl, hr⟩ := hen
    rcases hroot : spec.root with _ | root
    · rw [hroot] at h1
      simp at h1
    · refine ⟨"container error: ", ?_⟩
      exact childRun_fail_start_phase namespaces spec st env root _ hroot
        (oneFail_lt env _ 14 henv (by simp [stepSeg]))
        (fail_rlimit env spec p a0 rest rl i r hp ha hrl hr
          (fun j =>
            oneFail_ne env _ _ henv (by intro hc; exact Step.noConfusion hc))
          (fun j hj =>
            oneFail_ne env _ _ henv (by intro hc; injection hc with h2; omega))
          (oneFail_self env _ henv))
  | oomScoreAdj =>
    simp only [stepEnabled] at hen
    obtain ⟨h1, p, a0, rest, n, hp, ha, hn⟩ := hen
    rcases hroot : spec.root with _ | root
    · rw [hroot] at h1
      simp at h1
    · refine ⟨"failed to set oom_score_adj to " ++ toString n ++ ": ", ?_⟩
      have h := childRun_fail_start_phase namespaces spec st env root _ hroot
        (oneFail_lt env _ 14 henv (by simp [stepSeg]))
        (fail_oom env spec p a0 rest n hp ha hn
          (fun j =>
            oneFail_ne env _ _ henv (by intro hc; exact Step.noConfusion hc))
          (fun j =>
            oneFail_ne env _ _ henv (by intro hc; exact Step.noConfusion hc))
          (oneFail_self env _ henv))
      simpa only [String.append_assoc] using h
  | boundingCaps => exact False.elim hen
  | keepCapsOn =>
    simp only [stepEnabled] at hen
    obtain ⟨h1, p, a0, rest, hp, ha⟩ := hen
    rcases hroot : spec.root with _ | root
    · rw [hroot] at h1
      simp at h1
    · refine ⟨"failed to set PR_SET_KEEPCAPS to true: ", ?_⟩
      exact childRun_fail_start_phase namespaces spec st env root _ hroot
        (oneFail_lt env _ 14 henv (by simp [stepSeg]))
        (fail_keepcaps_on env spec p a0 rest hp ha
          (fun j =>
            oneFail_ne env _ _ henv (by intro hc; exact Step.noConfusion hc))
          (fun j =>
            oneFail_ne env _ _ henv (by intro hc; exact Step.noConfusion hc))
          (oneFail_ne env _ _ henv (by intro hc; exact Step.noConfusion hc))
          (oneFail_self env _ henv))
  | setgid =>
    simp only [stepEnabled] at hen
    obtain ⟨h1, p, a0, rest, hp, ha⟩ := hen
    rcases hroot : spec.root with _ | root
    · rw [hroot] at h1
      simp at h1
    · refine ⟨"failed to set gid to " ++ toString p.user.gid ++ ": ", ?_⟩
      have h := childRun_fail_start_phase namespaces spec st env root _ hroot
        (oneFail_lt env _ 14 henv (by simp [stepSeg]))
        (fail_setgid env spec p a0 rest hp ha
          (fun j =>
            oneFail_ne env _ _ henv (by intro hc; exact Step.noConfusion hc))
          (fun j =>
            oneFail_ne env _ _ henv (by intro hc; exact Step.noConfusion hc))
          (oneFail_ne env _ _ henv (by intro hc; exact Step.noConfusion hc))
          (oneFail_ne env _ _ henv (by intro hc; exact Step.noConfusion hc))
          (oneFail_self env _ henv))
      simpa only [String.append_assoc] using h
  | setgroups =>
    simp only [stepEnabled] at hen
    obtain ⟨h1, p, a0, rest, gids, hp, ha, hg⟩ := hen
    rcases hroot : spec.root with _ | root
    · rw [hroot] at h1
      simp at h1
    · refine ⟨"failed to set additional gids: ", ?_⟩
      exact childRun_fail_start_phase namespaces spec st env root _ hroot
        (oneFail_lt env _ 14 henv (by simp [stepSeg]))
        (fail_setgroups env spec p a0 rest gids hp ha hg
          (fun j =>
            oneFail_ne env _ _ henv (by intro hc; exact Step.noConfusion hc))
          (fun j =>
            oneFail_ne env _ _ henv (by intro hc; exact Step.noConfusion hc))
          (oneFail_ne env _ _ henv (by intro hc; exact Step.noConfusion hc))
          (oneFail_ne env _ _ henv (by intro hc; exact Step.noConfusion hc))
          (oneFail_ne env _ _ henv (by intro hc; exact Step.noConfusion hc))
          (oneFail_self env _ henv))
  | setuid =>
    simp only [stepEnabled] at hen
    obtain ⟨h1, p, a0, rest, hp, ha⟩ := hen
    rcases hroot : spec.root with _ | root
    · rw [hroot] at h1
      simp at h1
    · refine ⟨"failed to set uid to " ++ toString p.user.uid ++ ": ", ?_⟩
      have h := childRun_fail_start_phase namespaces spec st env root _ hroot
        (oneFail_lt env _ 14 henv (by simp [stepSeg]))
        (fail_setuid env spec p a0 rest hp ha
          (fun j =>
            oneFail_ne env _ _ henv (by intro hc; exact Step.noConfusion hc))
          (fun j =>
            oneFail_ne env _ _ henv (by intro hc; exact Step.noConfusion hc))
          (oneFail_ne env _ _ henv (by intro hc; exact Step.noConfusion hc))
          (oneFail_ne env _ _ henv (by intro hc; exact Step.noConfusion hc))
          (oneFail_ne env _ _ henv (by intro hc; exact Step.noConfusion hc))
          (oneFail_ne env _ _ henv (by intro hc; exact Step.noConfusion hc))
          (oneFail_self env _ henv))
      simpa only [String.append_assoc] using h
  | keepCapsOff =>
    simp only [stepEnabled] at hen
    obtain ⟨h1, p, a0, rest, hp, ha⟩ := hen
    rcases hroot : spec.root with _ | root
    · rw [hroot] at h1
      simp at h1
    · refine ⟨"failed to set PR_SET_KEEPCAPS to false: ", ?_⟩
      exact childRun_fail_start_phase namespaces spec st env root _ hroot
        (oneFail_lt env _ 14 henv (by simp [stepSeg]))
        (fail_keepcaps_off env spec p a0 rest hp ha
          (fun j =>
            oneFail_ne env _ _ henv (by intro hc; exact Step.noConfusion hc))
          (fun j =>
            oneFail_ne env _ _ henv (by intro hc; exact Step.noConfusion hc))
          (oneFail_ne env _ _ henv (by intro hc; exact Step.noConfusion hc))
          (oneFail_ne env _ _ henv (by intro hc; exact Step.noConfusion hc))
          (oneFail_ne env _ _ henv (by intro hc; exact Step.noConfusion hc))
          (oneFail_ne env _ _ henv (by intro hc; exact Step.noConfusion hc))
          (oneFail_ne env _ _ henv (by intro hc; exact Step.noConfusion hc))
          (oneFail_self env _ henv))
  | capSet w => exact False.elim hen
  | chdirCwd =>
    simp only [stepEnabled] at hen
    obtain ⟨h1, p, a0, rest, hp, ha⟩ := hen
    rcases hroot : spec.root with _ | root
    · rw [hroot] at h1
      simp at h1
    · refine ⟨"failed to change the working directory to " ++ p.cwd ++
        ": ", ?_⟩
      have h := childRun_fail_start_phase namespaces spec st env root _ hroot
        (oneFail_lt env _ 14 henv (by simp [stepSeg]))
        (fail_chdir_cwd env spec p a0 rest hp ha
          (fun j =>
            oneFail_ne env _ _ henv (by intro hc; exact Step.noConfusion hc))
          (fun j =>
            oneFail_ne env _ _ henv (by intro hc; exact Step.noConfusion hc))
          (oneFail_ne env _ _ henv (by intro hc; exact Step.noConfusion hc))
          (oneFail_ne env _ _ henv (by intro hc; exact Step.noConfusion hc))
          (oneFail_ne env _ _ henv (by intro hc; exact Step.noConfusion hc))
          (oneFail_ne env _ _ henv (by intro hc; exact Step.noConfusion hc))
          (oneFail_ne env _ _ henv (by intro hc; exact Step.noConfusion hc))
          (oneFail_ne env _ _ henv (by intro hc; exact Step.noConfusion hc))
          (oneFail_self env _ henv))
      simpa only [String.append_assoc] using h
  | execvp =>
    simp only [stepEnabled] at hen
    obtain ⟨h1, p, a0, rest, hp, ha⟩ := hen
    rcases hroot : spec.root with _ | root
    · rw [hroot] at h1
      simp at h1
    · refine ⟨"container error: ", ?_⟩
      exact childRun_fail_start_phase namespaces spec st env root _ hroot
        (oneFail_lt env _ 14 henv (by simp [stepSeg]))
        (fail_execvp env spec p a0 rest hp ha
          (fun j =>
            oneFail_ne env _ _ henv (by intro hc; exact Step.noConfusion hc))
          (fun j =>
            oneFail_ne env _ _ henv (by intro hc; exact Step.noConfusion hc))
          (oneFail_ne env _ _ henv (by intro hc; exact Step.noConfusion hc))
          (oneFail_ne env _ _ henv (by intro hc; exact Step.noConfusion hc))
          (oneFail_ne env _ _ henv (by intro hc; exact Step.noConfusion hc))
          (oneFail_ne env _ _ henv (by intro hc; exact Step.noConfusion hc))
          (oneFail_ne env _ _ henv (by intro hc; exact Step.noConfusion hc))
          (oneFail_ne env _ _ henv (by intro hc; exact Step.noConfusion hc))
          (oneFail_ne env _ _ henv (by intro hc; exact Step.noConfusion hc))
          (oneFail_self env _ henv))

/-- Witness for the amended C7 theorem: the failing first `createContainer`
hook of `specC7` in `envC7`. -/
theorem child_error_reporting_amended_witness :
    ∃ pre : String,
      FailsWith (childRun [] specC7 stC7 envC7)
        { status := amendedErrStatus (Step.createContainerHook 0)
          error := some { message :=
            pre ++ envC7.errText (Step.createContainerHook 0) } } :=
  child_error_reporting_amended [] specC7 stC7 envC7
    (Step.createContainerHook 0) rfl
    ⟨rfl, _, _, rfl, rfl, Nat.zero_lt_one⟩

end Reno
